import Mathlib

/-!
Shallow embedding of `src/apps/web/scripts/generate-og-image.py`, a one-shot
script that renders a 1200×630 Open Graph image (gradient background, logo
block with a centered glyph, title and subtitle text) and saves it as PNG.

Modelling decisions:
* A PIL `Image` is a `Canvas`: width, height, mode string and a total pixel
  function `Nat → Nat → Color`; drawing operations update the pixel function.
  Pixels are only ever inspected in bounds, so clipping is implicit.
* Python's float expression `int(s*(1-y/h) + e*(y/h))` is modelled twice.
  `interpChannel` is the exact-real idealization: for `0 ≤ y ≤ h` the value
  is nonnegative, so `int` (truncation) is the floor, and the floor of
  `(s*(h-y)+e*y)/h` is Nat floor division (bridge: `interpChannel_eq_floor`).
  `floatInterpChannel` is the faithful binary64 evaluation: every
  intermediate (`y/h`, `1-ratio`, the two products, the sum) is rounded to
  nearest-even double precision via `roundFloat` before the final
  truncation.  The two agree at every row and channel of the background
  gradient, but differ at the logo block's local row 10, blue channel
  (float 92 vs exact 93), which the theorems below make precise.
* `ImageFont.truetype` success, `draw.textbbox` and glyph coverage are
  external inputs, collected in a `FontEnv` parameter; a `truetype` load
  either succeeds (yielding that font) or raises, caught by the bare
  `except:`, modelled by a Bool-valued oracle `loads`.
* `PIL` availability at startup (the `try: from PIL import …` guard) is a
  Bool parameter of the top-level `program`; the filesystem is a map from
  paths to saved `(format, canvas)` pairs, and `img.save` overwrites the
  entry at the output path.
-/

namespace OG

/-- An RGB triple, one `Nat` per channel (source colors are 0–255). -/
abbrev Color := Nat × Nat × Nat

-- Dimensions (source lines 17–18)
def WIDTH : Nat := 1200
def HEIGHT : Nat := 630

-- Colors — app color scheme (source lines 21–27)
def BG_START : Color := (249, 250, 251)
def BG_END : Color := (255, 255, 255)
def LOGO_START : Color := (179, 143, 91)
def LOGO_END : Color := (194, 160, 115)
def TEXT_DARK : Color := (17, 24, 39)
def TEXT_GRAY : Color := (107, 114, 128)
def TEXT_WHITE : Color := (255, 255, 255)

/-- A PIL image: dimensions, mode and a total pixel map. -/
structure Canvas where
  width : Nat
  height : Nat
  mode : String
  pix : Nat → Nat → Color

/-- `Image.new(mode, (w, h), fill)`; with no fill PIL uses black `(0,0,0)`. -/
def imageNew (w h : Nat) (fill : Color) : Canvas :=
  ⟨w, h, "RGB", fun _ _ => fill⟩

/-- `draw.line([(x0, y), (x1, y)], fill)` for a horizontal segment:
endpoints inclusive, clipping to the canvas left implicit. -/
def drawLineH (c : Canvas) (x0 x1 y : Nat) (fill : Color) : Canvas :=
  { c with pix := fun px py => if py = y ∧ x0 ≤ px ∧ px ≤ x1 then fill else c.pix px py }

/-- One channel of `int(s*(1 - y/h) + e*(y/h))` (source lines 37–40 and
63–67): exact rational value `(s*(h-y) + e*y)/h`, truncated, i.e. Nat floor
division.  See `interpChannel_eq_floor`. -/
def interpChannel (s e y h : Nat) : Nat := (s * (h - y) + e * y) / h

/-- The interpolated fill `(r, g, b)` for row `y` of `h`. -/
def interpColor (sc ec : Color) (y h : Nat) : Color :=
  (interpChannel sc.1 ec.1 y h, interpChannel sc.2.1 ec.2.1 y h,
   interpChannel sc.2.2 ec.2.2 y h)

/-- `create_gradient_background` (source lines 30–43): a fresh `w×h` RGB
image whose rows `y = 0, …, h-1` are drawn as horizontal lines filled with
the interpolated color at ratio `y/h`. -/
def create_gradient_background (width height : Nat) (sc ec : Color) : Canvas :=
  (List.range height).foldl
    (fun img y => drawLineH img 0 width y (interpColor sc ec y height))
    (imageNew width height (0, 0, 0))

-- Sanity checks on concrete rows
example : interpColor BG_START BG_END 0 630 = (249, 250, 251) := by decide
example : interpColor BG_START BG_END 629 630 = (254, 254, 254) := by decide
example : interpColor LOGO_START LOGO_END 60 120 = (186, 151, 103) := by decide

/-- Result of `draw.textbbox((0, 0), text, font)`: `(x0, y0, x1, y1)`. -/
structure BBox where
  x0 : Int
  y0 : Int
  x1 : Int
  y1 : Int

/-- A resolved font: a truetype file at a point size, or the built-in
bitmap font returned by `ImageFont.load_default()`. -/
inductive Font where
  | truetype (path : String) (size : Nat)
  | builtin
deriving DecidableEq

/-- External font facts: whether `ImageFont.truetype(path, size)` succeeds
(a failure raises and is caught by the bare `except:`), the measured
bounding box of a string in a font, and which canvas pixels a text draw
covers given its anchor. -/
structure FontEnv where
  loads : String → Nat → Bool
  bbox : String → Font → BBox
  cover : String → Font → Int → Int → Nat → Nat → Bool

def HELVETICA : String := "/System/Library/Fonts/Helvetica.ttc"
def ARIAL : String := "/System/Library/Fonts/Arial.ttf"

/-- The try/except chain used for all three font requests (source lines
74–81, 93–99, 109–115): Helvetica, then Arial, then the built-in default. -/
def loadWithFallback (env : FontEnv) (size : Nat) : Font :=
  if env.loads HELVETICA size then .truetype HELVETICA size
  else if env.loads ARIAL size then .truetype ARIAL size
  else .builtin

/-- `img.paste(sub, (px, py))`: plain overwrite of the sub-image region. -/
def pasteCanvas (img sub : Canvas) (px py : Nat) : Canvas :=
  { img with pix := fun x y =>
      if px ≤ x ∧ x < px + sub.width ∧ py ≤ y ∧ y < py + sub.height then
        sub.pix (x - px) (y - py)
      else img.pix x y }

/-- `draw.text((x, y), s, fill, font)`: paints `fill` on the pixels the
glyphs cover (coverage supplied by the environment). -/
def drawText (env : FontEnv) (img : Canvas) (x y : Int) (s : String)
    (fill : Color) (font : Font) : Canvas :=
  { img with pix := fun ax ay =>
      if env.cover s font x y ax ay then fill else img.pix ax ay }

/-- The drawing calls `main` issues on the background canvas after
creating it: the logo paste and the three text draws, in program order. -/
inductive DrawOp where
  | paste (sub : Canvas) (x y : Nat)
  | text (x y : Int) (s : String) (fill : Color) (font : Font)

def applyOp (env : FontEnv) (img : Canvas) : DrawOp → Canvas
  | .paste sub x y => pasteCanvas img sub x y
  | .text x y s fill font => drawText env img x y s fill font

-- Logo geometry (source lines 55–57)
def logo_size : Nat := 120
def logo_x : Nat := (WIDTH - logo_size) / 2
def logo_y : Nat := 200

/-- The logo block (source lines 60–68): a `logo_size` square initialised
to `LOGO_START`, then each local row `y` drawn with the interpolation of
`LOGO_START → LOGO_END` at ratio `y/logo_size`. -/
def logo_img : Canvas :=
  (List.range logo_size).foldl
    (fun img y => drawLineH img 0 logo_size y (interpColor LOGO_START LOGO_END y logo_size))
    (imageNew logo_size logo_size LOGO_START)

/-- What one run of `main` computes (source lines 45–128): the composed
image, the resolved fonts, the issued draw operations, the output path and
format, and the success lines printed on stdout. -/
structure RunResult where
  image : Canvas
  fontLarge : Font
  fontTitle : Font
  fontSubtitle : Font
  ops : List DrawOp
  outputPath : String
  saveFormat : String
  printed : List String

/-- `main()` (source lines 45–128).  Point sizes 64/72/28, text strings,
offsets 380/440 and the centering arithmetic are verbatim from the source;
Python's `//` on possibly-negative ints is floor division, `Int.fdiv`. -/
def main (env : FontEnv) (script_dir : String) : RunResult :=
  let public_dir := script_dir ++ "/../public"
  let output_path := public_dir ++ "/og-image.png"
  let bg := create_gradient_background WIDTH HEIGHT BG_START BG_END
  let font_large := loadWithFallback env 64
  let b1 := env.bbox "S" font_large
  let logo_text_x := (logo_x : Int) + Int.fdiv ((logo_size : Int) - (b1.x1 - b1.x0)) 2
  let logo_text_y := (logo_y : Int) + Int.fdiv ((logo_size : Int) - (b1.y1 - b1.y0)) 2
  let font_title := loadWithFallback env 72
  let b2 := env.bbox "StoryStack" font_title
  let title_x := Int.fdiv ((WIDTH : Int) - (b2.x1 - b2.x0)) 2
  let font_subtitle := loadWithFallback env 28
  let b3 := env.bbox "storystackstudios.com" font_subtitle
  let subtitle_x := Int.fdiv ((WIDTH : Int) - (b3.x1 - b3.x0)) 2
  let ops : List DrawOp :=
    [ .paste logo_img logo_x logo_y,
      .text logo_text_x logo_text_y "S" TEXT_WHITE font_large,
      .text title_x 380 "StoryStack" TEXT_DARK font_title,
      .text subtitle_x 440 "storystackstudios.com" TEXT_GRAY font_subtitle ]
  { image := ops.foldl (applyOp env) bg
    fontLarge := font_large
    fontTitle := font_title
    fontSubtitle := font_subtitle
    ops := ops
    outputPath := output_path
    saveFormat := "PNG"
    printed :=
      [ "✓ Open Graph image created successfully!",
        "✓ Saved to: " ++ output_path,
        "✓ Dimensions: " ++ toString WIDTH ++ "x" ++ toString HEIGHT ++ " pixels" ] }

/-- The two lines printed when the `from PIL import …` guard fails
(source lines 12–13). -/
def pillowHint : List String :=
  [ "Error: Pillow (PIL) is required. Install it with:",
    "  pip3 install Pillow" ]

/-- Saved file contents: encoding format and the encoded canvas. -/
abbrev FileData := String × Canvas

/-- Observable final state of one process run: the filesystem, everything
printed to stdout, and the exit status. -/
structure ProgState where
  fs : String → Option FileData
  stdout : List String
  exitCode : Nat

/-- The whole script (source lines 9–14 and 130–131): if the import guard
fails, print the hint and exit 1 before any rendering; otherwise run
`main`, which saves the image at the output path (overwriting) and prints
three success lines, and the process exits 0. -/
def program (pillowAvailable : Bool) (env : FontEnv) (script_dir : String)
    (fs : String → Option FileData) : ProgState :=
  if pillowAvailable then
    let r := main env script_dir
    { fs := fun p => if p = r.outputPath then some (r.saveFormat, r.image) else fs p
      stdout := r.printed
      exitCode := 0 }
  else
    { fs := fs, stdout := pillowHint, exitCode := 1 }

/-- A color whose three channels all fit in one byte, i.e. a valid RGB
fill for an 8-bit-per-channel image. -/
def validRGB (c : Color) : Prop := c.1 ≤ 255 ∧ c.2.1 ≤ 255 ∧ c.2.2 ≤ 255

/-- A font environment in which every truetype load fails, every measured
box is empty and no pixel is covered: the all-fallback scenario. -/
def envNoFonts : FontEnv :=
  ⟨fun _ _ => false, fun _ _ => ⟨0, 0, 0, 0⟩, fun _ _ _ _ _ _ => false⟩

/-- An empty filesystem. -/
def fsEmpty : String → Option FileData := fun _ => none

/-- Bit length of a natural number below `2^16` (number of binary
digits), by a chain of comparisons so that it evaluates without
recursion. -/
def bitLen16 (n : Nat) : Nat :=
  if 2 ^ 15 ≤ n then 16
  else if 2 ^ 14 ≤ n then 15
  else if 2 ^ 13 ≤ n then 14
  else if 2 ^ 12 ≤ n then 13
  else if 2 ^ 11 ≤ n then 12
  else if 2 ^ 10 ≤ n then 11
  else if 2 ^ 9 ≤ n then 10
  else if 2 ^ 8 ≤ n then 9
  else if 2 ^ 7 ≤ n then 8
  else if 2 ^ 6 ≤ n then 7
  else if 2 ^ 5 ≤ n then 6
  else if 2 ^ 4 ≤ n then 5
  else if 2 ^ 3 ≤ n then 4
  else if 2 ^ 2 ≤ n then 3
  else if 2 ^ 1 ≤ n then 2
  else if 1 ≤ n then 1
  else 0

/-- Bit length of a natural number below `2^160`: locate the highest
16-bit window, then finish with `bitLen16`. -/
def bitLen (n : Nat) : Nat :=
  if 2 ^ 144 ≤ n then bitLen16 (n / 2 ^ 144) + 144
  else if 2 ^ 128 ≤ n then bitLen16 (n / 2 ^ 128) + 128
  else if 2 ^ 112 ≤ n then bitLen16 (n / 2 ^ 112) + 112
  else if 2 ^ 96 ≤ n then bitLen16 (n / 2 ^ 96) + 96
  else if 2 ^ 80 ≤ n then bitLen16 (n / 2 ^ 80) + 80
  else if 2 ^ 64 ≤ n then bitLen16 (n / 2 ^ 64) + 64
  else if 2 ^ 48 ≤ n then bitLen16 (n / 2 ^ 48) + 48
  else if 2 ^ 32 ≤ n then bitLen16 (n / 2 ^ 32) + 32
  else if 2 ^ 16 ≤ n then bitLen16 (n / 2 ^ 16) + 16
  else bitLen16 n

/-- Round the nonnegative rational `n / d` to the nearest IEEE-754
binary64 value (round to nearest, ties to even), returned as an exact
dyadic pair `(m, k)` denoting `m / 2^k`.  Faithful for magnitudes below
`2^52` — which covers every value the script's interpolation computes —
with no subnormal or overflow handling. -/
def roundFloat (n d : Nat) : Nat × Nat :=
  if n = 0 ∨ d = 0 then (0, 0) else
  let L := bitLen d + 120
  let B := bitLen (n * 2 ^ L / d)
  let sh := B - 53
  let N := n * 2 ^ L
  let D := d * 2 ^ sh
  let q := N / D
  let r := N % D
  let m := if 2 * r < D then q
           else if D < 2 * r then q + 1
           else if q % 2 = 0 then q else q + 1
  (m, L - sh)

/-- Drop the `sh` low bits of the dyadic `n / 2^k`, rounding to nearest
with ties to even: the common final step of each binary64 operation. -/
def rdsh (n k sh : Nat) : Nat × Nat :=
  let q := n / 2 ^ sh
  let r := n % 2 ^ sh
  ((if 2 * r < 2 ^ sh then q
    else if 2 ^ sh < 2 * r then q + 1
    else if q % 2 = 0 then q else q + 1), k - sh)

/-- Round the exact dyadic `n / 2^k` to a 53-bit binary64 significand
(round to nearest, ties to even), for `n < 2^62` — the widest exact
mantissa the script's interpolation produces (products of a byte with a
53-bit significand, and aligned two-term sums). -/
def roundDyadic (n k : Nat) : Nat × Nat :=
  if 2 ^ 61 ≤ n then rdsh n k 9
  else if 2 ^ 60 ≤ n then rdsh n k 8
  else if 2 ^ 59 ≤ n then rdsh n k 7
  else if 2 ^ 58 ≤ n then rdsh n k 6
  else if 2 ^ 57 ≤ n then rdsh n k 5
  else if 2 ^ 56 ≤ n then rdsh n k 4
  else if 2 ^ 55 ≤ n then rdsh n k 3
  else if 2 ^ 54 ≤ n then rdsh n k 2
  else if 2 ^ 53 ≤ n then rdsh n k 1
  else (n, k)

/-- One channel of the source's `int(s*(1 - ratio) + e*ratio)` evaluated
the way Python actually evaluates it — in binary64 floating point with
each operation correctly rounded: `ratio = y/h` rounds on division, then
`1 - ratio` (exact dyadic `(2^k - m)/2^k`, rounded), the two products and
the aligned sum each round, and `int` truncates the result. -/
def floatInterpChannel (s e y h : Nat) : Nat :=
  let ratio := roundFloat y h
  let t1 := roundDyadic (2 ^ ratio.2 - ratio.1) ratio.2
  let t2 := roundDyadic (s * t1.1) t1.2
  let t3 := roundDyadic (e * ratio.1) ratio.2
  let K := max t2.2 t3.2
  let sum := roundDyadic (t2.1 * 2 ^ (K - t2.2) + t3.1 * 2 ^ (K - t3.2)) K
  sum.1 / 2 ^ sum.2

/-- The float-evaluated fill `(r, g, b)` for row `y` of `h`. -/
def floatInterpColor (sc ec : Color) (y h : Nat) : Color :=
  (floatInterpChannel sc.1 ec.1 y h, floatInterpChannel sc.2.1 ec.2.1 y h,
   floatInterpChannel sc.2.2 ec.2.2 y h)

/-- The logo block of source lines 60–68 with its row fills evaluated in
binary64 exactly as the script computes them. -/
def logo_img_fl : Canvas :=
  (List.range logo_size).foldl
    (fun img y =>
      drawLineH img 0 logo_size y (floatInterpColor LOGO_START LOGO_END y logo_size))
    (imageNew logo_size logo_size LOGO_START)

/-! ### Helper lemmas -/

/-- Pixels after folding a batch of horizontal row fills over `0, …, n-1`:
row `y < n` holds its own fill (each row is written exactly once), other
pixels keep the base canvas value. -/
lemma foldl_rows_pix (w : Nat) (f : Nat → Color) (c : Canvas) (n x y : Nat) :
    ((List.range n).foldl (fun img r => drawLineH img 0 w r (f r)) c).pix x y
      = if y < n ∧ x ≤ w then f y else c.pix x y := by
  induction n with
  | zero => simp
  | succ n ih =>
    rw [List.range_succ, List.foldl_append, List.foldl_cons, List.foldl_nil]
    show (if y = n ∧ 0 ≤ x ∧ x ≤ w then f n else _) = _
    rw [ih]
    by_cases h1 : y = n
    · subst h1
      by_cases h2 : x ≤ w
      · simp [h2]
      · simp [h2]
    · by_cases h3 : y < n
      · have h4 : y < n + 1 := Nat.lt_succ_of_lt h3
        simp [h1, h3, h4]
      · have h4 : ¬ y < n + 1 := by omega
        simp [h1, h3, h4]

/-- Every in-bounds pixel of row `y` of the gradient background is the
interpolated row color. -/
lemma create_gradient_background_pix (w h : Nat) (sc ec : Color) (x y : Nat)
    (hy : y < h) (hx : x ≤ w) :
    (create_gradient_background w h sc ec).pix x y = interpColor sc ec y h := by
  unfold create_gradient_background
  rw [foldl_rows_pix]
  simp [hy, hx]

/-- Every in-bounds pixel of local row `y` of the logo block is the
interpolated row color. -/
lemma logo_img_pix (x y : Nat) (hy : y < logo_size) (hx : x ≤ logo_size) :
    logo_img.pix x y = interpColor LOGO_START LOGO_END y logo_size := by
  unfold logo_img
  rw [foldl_rows_pix]
  simp [hy, hx]

/-- The Nat-division form of one interpolated channel is exactly the
truncation of the real-valued `s*(1 - y/h) + e*(y/h)` of the source. -/
lemma interpChannel_eq_floor (s e y h : Nat) (hy : y ≤ h) (h0 : 0 < h) :
    interpChannel s e y h
      = Int.toNat ⌊(s : ℚ) * (1 - (y : ℚ) / (h : ℚ)) + (e : ℚ) * ((y : ℚ) / (h : ℚ))⌋ := by
  have hh : (h : ℚ) ≠ 0 := Nat.cast_ne_zero.mpr h0.ne'
  have key : (s : ℚ) * (1 - (y : ℚ) / (h : ℚ)) + (e : ℚ) * ((y : ℚ) / (h : ℚ))
      = ((s * (h - y) + e * y : ℕ) : ℚ) / (h : ℚ) := by
    push_cast [Nat.cast_sub hy]
    field_simp
  rw [key, Int.floor_toNat, Nat.floor_div_eq_div]
  rfl

/-- Folding canvas-shape-preserving steps preserves width. -/
lemma foldl_width {α : Type} (step : Canvas → α → Canvas)
    (hs : ∀ c a, (step c a).width = c.width) (l : List α) :
    ∀ c : Canvas, (l.foldl step c).width = c.width := by
  induction l with
  | nil => intro c; rfl
  | cons a t ih => intro c; rw [List.foldl_cons, ih, hs]

/-- Folding canvas-shape-preserving steps preserves height. -/
lemma foldl_height {α : Type} (step : Canvas → α → Canvas)
    (hs : ∀ c a, (step c a).height = c.height) (l : List α) :
    ∀ c : Canvas, (l.foldl step c).height = c.height := by
  induction l with
  | nil => intro c; rfl
  | cons a t ih => intro c; rw [List.foldl_cons, ih, hs]

/-- Folding canvas-shape-preserving steps preserves the mode string. -/
lemma foldl_mode {α : Type} (step : Canvas → α → Canvas)
    (hs : ∀ c a, (step c a).mode = c.mode) (l : List α) :
    ∀ c : Canvas, (l.foldl step c).mode = c.mode := by
  induction l with
  | nil => intro c; rfl
  | cons a t ih => intro c; rw [List.foldl_cons, ih, hs]

/-- An interpolated channel never exceeds the larger endpoint. -/
lemma interpChannel_le_max (s e y h : Nat) (hy : y < h) :
    interpChannel s e y h ≤ max s e := by
  have h0 : 0 < h := Nat.lt_of_le_of_lt (Nat.zero_le y) hy
  have hsum : s * (h - y) + e * y ≤ max s e * h := by
    calc s * (h - y) + e * y
        ≤ max s e * (h - y) + max s e * y :=
          Nat.add_le_add (Nat.mul_le_mul_right _ (le_max_left s e))
            (Nat.mul_le_mul_right _ (le_max_right s e))
      _ = max s e * h := by rw [← Nat.mul_add, Nat.sub_add_cancel hy.le]
  calc interpChannel s e y h ≤ max s e * h / h := Nat.div_le_div_right hsum
    _ = max s e := Nat.mul_div_left _ h0

/-- An interpolated channel never drops below the smaller endpoint. -/
lemma min_le_interpChannel (s e y h : Nat) (hy : y < h) :
    min s e ≤ interpChannel s e y h := by
  have h0 : 0 < h := Nat.lt_of_le_of_lt (Nat.zero_le y) hy
  have hsum : min s e * h ≤ s * (h - y) + e * y := by
    calc min s e * h = min s e * (h - y) + min s e * y := by
          rw [← Nat.mul_add, Nat.sub_add_cancel hy.le]
      _ ≤ s * (h - y) + e * y :=
          Nat.add_le_add (Nat.mul_le_mul_right _ (min_le_left s e))
            (Nat.mul_le_mul_right _ (min_le_right s e))
  calc min s e = min s e * h / h := (Nat.mul_div_left _ h0).symm
    _ ≤ interpChannel s e y h := Nat.div_le_div_right hsum

/-- At `y = 0` the interpolation returns the start channel exactly. -/
lemma interpChannel_zero (s e h : Nat) (h0 : 0 < h) :
    interpChannel s e 0 h = s := by
  unfold interpChannel
  rw [Nat.sub_zero, Nat.mul_zero, Nat.add_zero, Nat.mul_div_left _ h0]

/-- A pixel strictly inside the pasted region reads from the sub-image,
shifted by the paste position. -/
lemma pasteCanvas_pix_inside (img sub : Canvas) (px py x y : Nat)
    (hx : x < sub.width) (hy : y < sub.height) :
    (pasteCanvas img sub px py).pix (px + x) (py + y) = sub.pix x y := by
  show (if px ≤ px + x ∧ px + x < px + sub.width ∧ py ≤ py + y ∧ py + y < py + sub.height
      then sub.pix (px + x - px) (py + y - py) else img.pix (px + x) (py + y)) = sub.pix x y
  rw [if_pos ⟨Nat.le_add_right px x, Nat.add_lt_add_left hx px,
    Nat.le_add_right py y, Nat.add_lt_add_left hy py⟩,
    Nat.add_sub_cancel_left, Nat.add_sub_cancel_left]

/-- Every in-bounds pixel of local row `y` of the float-faithful logo
block is the float-evaluated row color. -/
lemma logo_img_fl_pix (x y : Nat) (hy : y < 120) (hx : x ≤ 120) :
    logo_img_fl.pix x y = floatInterpColor LOGO_START LOGO_END y 120 := by
  unfold logo_img_fl
  rw [foldl_rows_pix]
  simp [hy, hx, logo_size]

/-- The float-faithful logo block buffer is a 120×120 canvas. -/
lemma logo_img_fl_shape : logo_img_fl.width = 120 ∧ logo_img_fl.height = 120 := by
  unfold logo_img_fl
  rw [foldl_width
      (fun img y =>
        drawLineH img 0 logo_size y (floatInterpColor LOGO_START LOGO_END y logo_size))
      (fun c a => rfl),
    foldl_height
      (fun img y =>
        drawLineH img 0 logo_size y (floatInterpColor LOGO_START LOGO_END y logo_size))
      (fun c a => rfl)]
  exact ⟨rfl, rfl⟩

/-- The logo block buffer is a 120×120 canvas. -/
lemma logo_img_shape : logo_img.width = 120 ∧ logo_img.height = 120 := by
  unfold logo_img
  rw [foldl_width
      (fun img y => drawLineH img 0 logo_size y (interpColor LOGO_START LOGO_END y logo_size))
      (fun c a => rfl),
    foldl_height
      (fun img y => drawLineH img 0 logo_size y (interpColor LOGO_START LOGO_END y logo_size))
      (fun c a => rfl)]
  exact ⟨rfl, rfl⟩

lemma applyOp_width (env : FontEnv) (c : Canvas) (op : DrawOp) :
    (applyOp env c op).width = c.width := by cases op <;> rfl

lemma applyOp_height (env : FontEnv) (c : Canvas) (op : DrawOp) :
    (applyOp env c op).height = c.height := by cases op <;> rfl

lemma applyOp_mode (env : FontEnv) (c : Canvas) (op : DrawOp) :
    (applyOp env c op).mode = c.mode := by cases op <;> rfl

/-- The gradient background canvas has the requested shape. -/
lemma create_gradient_background_shape (w h : Nat) (sc ec : Color) :
    (create_gradient_background w h sc ec).width = w ∧
      (create_gradient_background w h sc ec).height = h ∧
      (create_gradient_background w h sc ec).mode = "RGB" := by
  unfold create_gradient_background
  rw [foldl_width (fun img y => drawLineH img 0 w y (interpColor sc ec y h)) (fun c a => rfl),
    foldl_height (fun img y => drawLineH img 0 w y (interpColor sc ec y h)) (fun c a => rfl),
    foldl_mode (fun img y => drawLineH img 0 w y (interpColor sc ec y h)) (fun c a => rfl)]
  exact ⟨rfl, rfl, rfl⟩

/-- The composed image is a 1200×630 RGB canvas: the initial background
has these dimensions and every drawing operation preserves them. -/
lemma main_image_shape (env : FontEnv) (sdir : String) :
    (main env sdir).image.width = 1200 ∧ (main env sdir).image.height = 630 ∧
      (main env sdir).image.mode = "RGB" := by
  show ((_ : List DrawOp).foldl (applyOp env) _).width = 1200 ∧
    ((_ : List DrawOp).foldl (applyOp env) _).height = 630 ∧
    ((_ : List DrawOp).foldl (applyOp env) _).mode = "RGB"
  rw [foldl_width (applyOp env) (applyOp_width env),
    foldl_height (applyOp env) (applyOp_height env),
    foldl_mode (applyOp env) (applyOp_mode env)]
  exact (create_gradient_background_shape WIDTH HEIGHT BG_START BG_END)

/-! ### Row-by-row evaluation of the float-faithful logo gradient
Each lemma pins one row of `floatInterpColor LOGO_START LOGO_END · 120`
by recording every intermediate binary64 rounding as a literal dyadic,
so each step is checked on concrete numbers. -/

lemma logoRowFl0 : floatInterpColor LOGO_START LOGO_END 0 120 = (179, 143, 91) := by
  have e1 : roundFloat 0 120 = (0, 0) := by decide
  have e2 : roundDyadic (2 ^ 0 - 0) 0 = (1, 0) := by decide
  have r1 : roundDyadic (179 * 1) 0 = (179, 0) := by decide
  have r2 : roundDyadic (194 * 0) 0 = (0, 0) := by decide
  have r3 : roundDyadic (179 * 2 ^ (max 0 0 - 0) + 0 * 2 ^ (max 0 0 - 0)) (max 0 0) = (179, 0) := by decide
  have r4 : roundDyadic (143 * 1) 0 = (143, 0) := by decide
  have r5 : roundDyadic (160 * 0) 0 = (0, 0) := by decide
  have r6 : roundDyadic (143 * 2 ^ (max 0 0 - 0) + 0 * 2 ^ (max 0 0 - 0)) (max 0 0) = (143, 0) := by decide
  have r7 : roundDyadic (91 * 1) 0 = (91, 0) := by decide
  have r8 : roundDyadic (115 * 0) 0 = (0, 0) := by decide
  have r9 : roundDyadic (91 * 2 ^ (max 0 0 - 0) + 0 * 2 ^ (max 0 0 - 0)) (max 0 0) = (91, 0) := by decide
  simp only [floatInterpColor, floatInterpChannel, LOGO_START, LOGO_END, e1, e2,
    r1, r2, r3, r4, r5, r6, r7, r8, r9]
  decide

lemma logoRowFl1 : floatInterpColor LOGO_START LOGO_END 1 120 = (179, 143, 91) := by
  have e1 : roundFloat 1 120 = (4803839602528529, 59) := by decide
  have e2 : roundDyadic (2 ^ 59 - 4803839602528529) 59 = (8932139260951484, 53) := by decide
  have r1 : roundDyadic (179 * 8932139260951484) 53 = (6245519248868420, 45) := by decide
  have r2 : roundDyadic (194 * 4803839602528529) 59 = (7280819397582302, 52) := by decide
  have r3 : roundDyadic (6245519248868420 * 2 ^ (max 45 52 - 45) + 7280819397582302 * 2 ^ (max 45 52 - 52)) (max 45 52) = (6302400650412032, 45) := by decide
  have r4 : roundDyadic (143 * 8932139260951484) 53 = (4989437165297118, 45) := by decide
  have r5 : roundDyadic (160 * 4803839602528529) 59 = (6004799503160661, 52) := by decide
  have r6 : roundDyadic (4989437165297118 * 2 ^ (max 45 52 - 45) + 6004799503160661 * 2 ^ (max 45 52 - 52)) (max 45 52) = (5036349661415561, 45) := by decide
  have r7 : roundDyadic (91 * 8932139260951484) 53 = (6350192755832696, 46) := by decide
  have r8 : roundDyadic (115 * 4803839602528529) 59 = (8631899285793451, 53) := by decide
  have r9 : roundDyadic (6350192755832696 * 2 ^ (max 46 53 - 46) + 8631899285793451 * 2 ^ (max 46 53 - 53)) (max 46 53) = (6417629469002957, 46) := by decide
  simp only [floatInterpColor, floatInterpChannel, LOGO_START, LOGO_END, e1, e2,
    r1, r2, r3, r4, r5, r6, r7, r8, r9]
  decide

lemma logoRowFl2 : floatInterpColor LOGO_START LOGO_END 2 120 = (179, 143, 91) := by
  have e1 : roundFloat 2 120 = (4803839602528529, 58) := by decide
  have e2 : roundDyadic (2 ^ 58 - 4803839602528529) 58 = (8857079267161975, 53) := by decide
  have r1 : roundDyadic (179 * 8857079267161975) 53 = (6193035893835912, 45) := by decide
  have r2 : roundDyadic (194 * 4803839602528529) 58 = (7280819397582302, 51) := by decide
  have r3 : roundDyadic (6193035893835912 * 2 ^ (max 45 51 - 45) + 7280819397582302 * 2 ^ (max 45 51 - 51)) (max 45 51) = (6306798696923135, 45) := by decide
  have r4 : roundDyadic (143 * 8857079267161975) 53 = (4947509121891259, 45) := by decide
  have r5 : roundDyadic (160 * 4803839602528529) 58 = (6004799503160661, 51) := by decide
  have r6 : roundDyadic (4947509121891259 * 2 ^ (max 45 51 - 45) + 6004799503160661 * 2 ^ (max 45 51 - 51)) (max 45 51) = (5041334114128144, 45) := by decide
  have r7 : roundDyadic (91 * 8857079267161975) 53 = (6296829791497967, 46) := by decide
  have r8 : roundDyadic (115 * 4803839602528529) 58 = (8631899285793451, 52) := by decide
  have r9 : roundDyadic (6296829791497967 * 2 ^ (max 46 52 - 46) + 8631899285793451 * 2 ^ (max 46 52 - 52)) (max 46 52) = (6431703217838490, 46) := by decide
  simp only [floatInterpColor, floatInterpChannel, LOGO_START, LOGO_END, e1, e2,
    r1, r2, r3, r4, r5, r6, r7, r8, r9]
  decide

lemma logoRowFl3 : floatInterpColor LOGO_START LOGO_END 3 120 = (179, 143, 91) := by
  have e1 : roundFloat 3 120 = (7205759403792794, 58) := by decide
  have e2 : roundDyadic (2 ^ 58 - 7205759403792794) 58 = (8782019273372467, 53) := by decide
  have r1 : roundDyadic (179 * 8782019273372467) 53 = (6140552538803405, 45) := by decide
  have r2 : roundDyadic (194 * 7205759403792794) 58 = (5460614548186727, 50) := by decide
  have r3 : roundDyadic (6140552538803405 * 2 ^ (max 45 50 - 45) + 5460614548186727 * 2 ^ (max 45 50 - 50)) (max 45 50) = (6311196743434240, 45) := by decide
  have r4 : roundDyadic (143 * 8782019273372467) 53 = (4905581078485401, 45) := by decide
  have r5 : roundDyadic (160 * 7205759403792794) 58 = (4503599627370496, 50) := by decide
  have r6 : roundDyadic (4905581078485401 * 2 ^ (max 45 50 - 45) + 4503599627370496 * 2 ^ (max 45 50 - 50)) (max 45 50) = (5046318566840729, 45) := by decide
  have r7 : roundDyadic (91 * 8782019273372467) 53 = (6243466827163238, 46) := by decide
  have r8 : roundDyadic (115 * 7205759403792794) 58 = (6473924464345088, 51) := by decide
  have r9 : roundDyadic (6243466827163238 * 2 ^ (max 46 51 - 46) + 6473924464345088 * 2 ^ (max 46 51 - 51)) (max 46 51) = (6445776966674022, 46) := by decide
  simp only [floatInterpColor, floatInterpChannel, LOGO_START, LOGO_END, e1, e2,
    r1, r2, r3, r4, r5, r6, r7, r8, r9]
  decide

lemma logoRowFl4 : floatInterpColor LOGO_START LOGO_END 4 120 = (179, 143, 91) := by
  have e1 : roundFloat 4 120 = (4803839602528529, 57) := by decide
  have e2 : roundDyadic (2 ^ 57 - 4803839602528529) 57 = (8706959279582959, 53) := by decide
  have r1 : roundDyadic (179 * 8706959279582959) 53 = (6088069183770897, 45) := by decide
  have r2 : roundDyadic (194 * 4803839602528529) 57 = (7280819397582302, 50) := by decide
  have r3 : roundDyadic (6088069183770897 * 2 ^ (max 45 50 - 45) + 7280819397582302 * 2 ^ (max 45 50 - 50)) (max 45 50) = (6315594789945344, 45) := by decide
  have r4 : roundDyadic (143 * 8706959279582959) 53 = (4863653035079544, 45) := by decide
  have r5 : roundDyadic (160 * 4803839602528529) 57 = (6004799503160661, 50) := by decide
  have r6 : roundDyadic (4863653035079544 * 2 ^ (max 45 50 - 45) + 6004799503160661 * 2 ^ (max 45 50 - 50)) (max 45 50) = (5051303019553315, 45) := by decide
  have r7 : roundDyadic (91 * 8706959279582959) 53 = (6190103862828510, 46) := by decide
  have r8 : roundDyadic (115 * 4803839602528529) 57 = (8631899285793451, 51) := by decide
  have r9 : roundDyadic (6190103862828510 * 2 ^ (max 46 51 - 46) + 8631899285793451 * 2 ^ (max 46 51 - 51)) (max 46 51) = (6459850715509555, 46) := by decide
  simp only [floatInterpColor, floatInterpChannel, LOGO_START, LOGO_END, e1, e2,
    r1, r2, r3, r4, r5, r6, r7, r8, r9]
  decide

lemma logoRowFl5 : floatInterpColor LOGO_START LOGO_END 5 120 = (179, 143, 92) := by
  have e1 : roundFloat 5 120 = (6004799503160661, 57) := by decide
  have e2 : roundDyadic (2 ^ 57 - 6004799503160661) 57 = (8631899285793451, 53) := by decide
  have r1 : roundDyadic (179 * 8631899285793451) 53 = (6035585828738390, 45) := by decide
  have r2 : roundDyadic (194 * 6004799503160661) 57 = (4550512123488938, 49) := by decide
  have r3 : roundDyadic (6035585828738390 * 2 ^ (max 45 49 - 45) + 4550512123488938 * 2 ^ (max 45 49 - 49)) (max 45 49) = (6319992836456449, 45) := by decide
  have r4 : roundDyadic (143 * 8631899285793451) 53 = (4821724991673686, 45) := by decide
  have r5 : roundDyadic (160 * 6004799503160661) 57 = (7505999378950826, 50) := by decide
  have r6 : roundDyadic (4821724991673686 * 2 ^ (max 45 50 - 45) + 7505999378950826 * 2 ^ (max 45 50 - 50)) (max 45 50) = (5056287472265899, 45) := by decide
  have r7 : roundDyadic (91 * 8631899285793451) 53 = (6136740898493782, 46) := by decide
  have r8 : roundDyadic (115 * 6004799503160661) 57 = (5394937053620906, 50) := by decide
  have r9 : roundDyadic (6136740898493782 * 2 ^ (max 46 50 - 46) + 5394937053620906 * 2 ^ (max 46 50 - 50)) (max 46 50) = (6473924464345089, 46) := by decide
  simp only [floatInterpColor, floatInterpChannel, LOGO_START, LOGO_END, e1, e2,
    r1, r2, r3, r4, r5, r6, r7, r8, r9]
  decide

lemma logoRowFl6 : floatInterpColor LOGO_START LOGO_END 6 120 = (179, 143, 92) := by
  have e1 : roundFloat 6 120 = (7205759403792794, 57) := by decide
  have e2 : roundDyadic (2 ^ 57 - 7205759403792794) 57 = (8556839292003942, 53) := by decide
  have r1 : roundDyadic (179 * 8556839292003942) 53 = (5983102473705881, 45) := by decide
  have r2 : roundDyadic (194 * 7205759403792794) 57 = (5460614548186727, 49) := by decide
  have r3 : roundDyadic (5983102473705881 * 2 ^ (max 45 49 - 45) + 5460614548186727 * 2 ^ (max 45 49 - 49)) (max 45 49) = (6324390882967551, 45) := by decide
  have r4 : roundDyadic (143 * 8556839292003942) 53 = (4779796948267827, 45) := by decide
  have r5 : roundDyadic (160 * 7205759403792794) 57 = (4503599627370496, 49) := by decide
  have r6 : roundDyadic (4779796948267827 * 2 ^ (max 45 49 - 45) + 4503599627370496 * 2 ^ (max 45 49 - 49)) (max 45 49) = (5061271924978483, 45) := by decide
  have r7 : roundDyadic (91 * 8556839292003942) 53 = (6083377934159053, 46) := by decide
  have r8 : roundDyadic (115 * 7205759403792794) 57 = (6473924464345088, 50) := by decide
  have r9 : roundDyadic (6083377934159053 * 2 ^ (max 46 50 - 46) + 6473924464345088 * 2 ^ (max 46 50 - 50)) (max 46 50) = (6487998213180621, 46) := by decide
  simp only [floatInterpColor, floatInterpChannel, LOGO_START, LOGO_END, e1, e2,
    r1, r2, r3, r4, r5, r6, r7, r8, r9]
  decide

lemma logoRowFl7 : floatInterpColor LOGO_START LOGO_END 7 120 = (179, 143, 92) := by
  have e1 : roundFloat 7 120 = (8406719304424926, 57) := by decide
  have e2 : roundDyadic (2 ^ 57 - 8406719304424926) 57 = (8481779298214434, 53) := by decide
  have r1 : roundDyadic (179 * 8481779298214434) 53 = (5930619118673374, 45) := by decide
  have r2 : roundDyadic (194 * 8406719304424926) 57 = (6370716972884514, 49) := by decide
  have r3 : roundDyadic (5930619118673374 * 2 ^ (max 45 49 - 45) + 6370716972884514 * 2 ^ (max 45 49 - 49)) (max 45 49) = (6328788929478656, 45) := by decide
  have r4 : roundDyadic (143 * 8481779298214434) 53 = (4737868904861969, 45) := by decide
  have r5 : roundDyadic (160 * 8406719304424926) 57 = (5254199565265579, 49) := by decide
  have r6 : roundDyadic (4737868904861969 * 2 ^ (max 45 49 - 45) + 5254199565265579 * 2 ^ (max 45 49 - 49)) (max 45 49) = (5066256377691068, 45) := by decide
  have r7 : roundDyadic (91 * 8481779298214434) 53 = (6030014969824324, 46) := by decide
  have r8 : roundDyadic (115 * 8406719304424926) 57 = (7552911875069269, 50) := by decide
  have r9 : roundDyadic (6030014969824324 * 2 ^ (max 46 50 - 46) + 7552911875069269 * 2 ^ (max 46 50 - 50)) (max 46 50) = (6502071962016153, 46) := by decide
  simp only [floatInterpColor, floatInterpChannel, LOGO_START, LOGO_END, e1, e2,
    r1, r2, r3, r4, r5, r6, r7, r8, r9]
  decide

lemma logoRowFl8 : floatInterpColor LOGO_START LOGO_END 8 120 = (180, 144, 92) := by
  have e1 : roundFloat 8 120 = (4803839602528529, 56) := by decide
  have e2 : roundDyadic (2 ^ 56 - 4803839602528529) 56 = (8406719304424926, 53) := by decide
  have r1 : roundDyadic (179 * 8406719304424926) 53 = (5878135763640866, 45) := by decide
  have r2 : roundDyadic (194 * 4803839602528529) 56 = (7280819397582302, 49) := by decide
  have r3 : roundDyadic (5878135763640866 * 2 ^ (max 45 49 - 45) + 7280819397582302 * 2 ^ (max 45 49 - 49)) (max 45 49) = (6333186975989760, 45) := by decide
  have r4 : roundDyadic (143 * 8406719304424926) 53 = (4695940861456111, 45) := by decide
  have r5 : roundDyadic (160 * 4803839602528529) 56 = (6004799503160661, 49) := by decide
  have r6 : roundDyadic (4695940861456111 * 2 ^ (max 45 49 - 45) + 6004799503160661 * 2 ^ (max 45 49 - 49)) (max 45 49) = (5071240830403652, 45) := by decide
  have r7 : roundDyadic (91 * 8406719304424926) 53 = (5976652005489596, 46) := by decide
  have r8 : roundDyadic (115 * 4803839602528529) 56 = (8631899285793451, 50) := by decide
  have r9 : roundDyadic (5976652005489596 * 2 ^ (max 46 50 - 46) + 8631899285793451 * 2 ^ (max 46 50 - 50)) (max 46 50) = (6516145710851687, 46) := by decide
  simp only [floatInterpColor, floatInterpChannel, LOGO_START, LOGO_END, e1, e2,
    r1, r2, r3, r4, r5, r6, r7, r8, r9]
  decide

lemma logoRowFl9 : floatInterpColor LOGO_START LOGO_END 9 120 = (180, 144, 92) := by
  have e1 : roundFloat 9 120 = (5404319552844595, 56) := by decide
  have e2 : roundDyadic (2 ^ 56 - 5404319552844595) 56 = (8331659310635418, 53) := by decide
  have r1 : roundDyadic (179 * 8331659310635418) 53 = (5825652408608359, 45) := by decide
  have r2 : roundDyadic (194 * 5404319552844595) 56 = (8190921822280089, 49) := by decide
  have r3 : roundDyadic (5825652408608359 * 2 ^ (max 45 49 - 45) + 8190921822280089 * 2 ^ (max 45 49 - 49)) (max 45 49) = (6337585022500865, 45) := by decide
  have r4 : roundDyadic (143 * 8331659310635418) 53 = (4654012818050253, 45) := by decide
  have r5 : roundDyadic (160 * 5404319552844595) 56 = (6755399441055744, 49) := by decide
  have r6 : roundDyadic (4654012818050253 * 2 ^ (max 45 49 - 45) + 6755399441055744 * 2 ^ (max 45 49 - 49)) (max 45 49) = (5076225283116237, 45) := by decide
  have r7 : roundDyadic (91 * 8331659310635418) 53 = (5923289041154867, 46) := by decide
  have r8 : roundDyadic (115 * 5404319552844595) 56 = (4855443348258816, 49) := by decide
  have r9 : roundDyadic (5923289041154867 * 2 ^ (max 46 49 - 46) + 4855443348258816 * 2 ^ (max 46 49 - 49)) (max 46 49) = (6530219459687219, 46) := by decide
  simp only [floatInterpColor, floatInterpChannel, LOGO_START, LOGO_END, e1, e2,
    r1, r2, r3, r4, r5, r6, r7, r8, r9]
  decide

lemma logoRowFl10 : floatInterpColor LOGO_START LOGO_END 10 120 = (180, 144, 92) := by
  have e1 : roundFloat 10 120 = (6004799503160661, 56) := by decide
  have e2 : roundDyadic (2 ^ 56 - 6004799503160661) 56 = (8256599316845909, 53) := by decide
  have r1 : roundDyadic (179 * 8256599316845909) 53 = (5773169053575850, 45) := by decide
  have r2 : roundDyadic (194 * 6004799503160661) 56 = (4550512123488938, 48) := by decide
  have r3 : roundDyadic (5773169053575850 * 2 ^ (max 45 48 - 45) + 4550512123488938 * 2 ^ (max 45 48 - 48)) (max 45 48) = (6341983069011967, 45) := by decide
  have r4 : roundDyadic (143 * 8256599316845909) 53 = (4612084774644394, 45) := by decide
  have r5 : roundDyadic (160 * 6004799503160661) 56 = (7505999378950826, 49) := by decide
  have r6 : roundDyadic (4612084774644394 * 2 ^ (max 45 49 - 45) + 7505999378950826 * 2 ^ (max 45 49 - 49)) (max 45 49) = (5081209735828821, 45) := by decide
  have r7 : roundDyadic (91 * 8256599316845909) 53 = (5869926076820138, 46) := by decide
  have r8 : roundDyadic (115 * 6004799503160661) 56 = (5394937053620906, 49) := by decide
  have r9 : roundDyadic (5869926076820138 * 2 ^ (max 46 49 - 46) + 5394937053620906 * 2 ^ (max 46 49 - 49)) (max 46 49) = (6544293208522751, 46) := by decide
  simp only [floatInterpColor, floatInterpChannel, LOGO_START, LOGO_END, e1, e2,
    r1, r2, r3, r4, r5, r6, r7, r8, r9]
  decide

lemma logoRowFl11 : floatInterpColor LOGO_START LOGO_END 11 120 = (180, 144, 93) := by
  have e1 : roundFloat 11 120 = (6605279453476727, 56) := by decide
  have e2 : roundDyadic (2 ^ 56 - 6605279453476727) 56 = (8181539323056401, 53) := by decide
  have r1 : roundDyadic (179 * 8181539323056401) 53 = (5720685698543343, 45) := by decide
  have r2 : roundDyadic (194 * 6605279453476727) 56 = (5005563335837832, 48) := by decide
  have r3 : roundDyadic (5720685698543343 * 2 ^ (max 45 48 - 45) + 5005563335837832 * 2 ^ (max 45 48 - 48)) (max 45 48) = (6346381115523072, 45) := by decide
  have r4 : roundDyadic (143 * 8181539323056401) 53 = (4570156731238536, 45) := by decide
  have r5 : roundDyadic (160 * 6605279453476727) 56 = (8256599316845909, 49) := by decide
  have r6 : roundDyadic (4570156731238536 * 2 ^ (max 45 49 - 45) + 8256599316845909 * 2 ^ (max 45 49 - 49)) (max 45 49) = (5086194188541405, 45) := by decide
  have r7 : roundDyadic (91 * 8181539323056401) 53 = (5816563112485410, 46) := by decide
  have r8 : roundDyadic (115 * 6605279453476727) 56 = (5934430758982997, 49) := by decide
  have r9 : roundDyadic (5816563112485410 * 2 ^ (max 46 49 - 46) + 5934430758982997 * 2 ^ (max 46 49 - 49)) (max 46 49) = (6558366957358285, 46) := by decide
  simp only [floatInterpColor, floatInterpChannel, LOGO_START, LOGO_END, e1, e2,
    r1, r2, r3, r4, r5, r6, r7, r8, r9]
  decide

lemma logoRowFl12 : floatInterpColor LOGO_START LOGO_END 12 120 = (180, 144, 93) := by
  have e1 : roundFloat 12 120 = (7205759403792794, 56) := by decide
  have e2 : roundDyadic (2 ^ 56 - 7205759403792794) 56 = (8106479329266893, 53) := by decide
  have r1 : roundDyadic (179 * 8106479329266893) 53 = (5668202343510835, 45) := by decide
  have r2 : roundDyadic (194 * 7205759403792794) 56 = (5460614548186727, 48) := by decide
  have r3 : roundDyadic (5668202343510835 * 2 ^ (max 45 48 - 45) + 5460614548186727 * 2 ^ (max 45 48 - 48)) (max 45 48) = (6350779162034176, 45) := by decide
  have r4 : roundDyadic (143 * 8106479329266893) 53 = (4528228687832679, 45) := by decide
  have r5 : roundDyadic (160 * 7205759403792794) 56 = (4503599627370496, 48) := by decide
  have r6 : roundDyadic (4528228687832679 * 2 ^ (max 45 48 - 45) + 4503599627370496 * 2 ^ (max 45 48 - 48)) (max 45 48) = (5091178641253991, 45) := by decide
  have r7 : roundDyadic (91 * 8106479329266893) 53 = (5763200148150682, 46) := by decide
  have r8 : roundDyadic (115 * 7205759403792794) 56 = (6473924464345088, 49) := by decide
  have r9 : roundDyadic (5763200148150682 * 2 ^ (max 46 49 - 46) + 6473924464345088 * 2 ^ (max 46 49 - 49)) (max 46 49) = (6572440706193818, 46) := by decide
  simp only [floatInterpColor, floatInterpChannel, LOGO_START, LOGO_END, e1, e2,
    r1, r2, r3, r4, r5, r6, r7, r8, r9]
  decide

lemma logoRowFl13 : floatInterpColor LOGO_START LOGO_END 13 120 = (180, 144, 93) := by
  have e1 : roundFloat 13 120 = (7806239354108860, 56) := by decide
  have e2 : roundDyadic (2 ^ 56 - 7806239354108860) 56 = (8031419335477384, 53) := by decide
  have r1 : roundDyadic (179 * 8031419335477384) 53 = (5615718988478327, 45) := by decide
  have r2 : roundDyadic (194 * 7806239354108860) 56 = (5915665760535620, 48) := by decide
  have r3 : roundDyadic (5615718988478327 * 2 ^ (max 45 48 - 45) + 5915665760535620 * 2 ^ (max 45 48 - 48)) (max 45 48) = (6355177208545280, 45) := by decide
  have r4 : roundDyadic (143 * 8031419335477384) 53 = (8972601288853640, 46) := by decide
  have r5 : roundDyadic (160 * 7806239354108860) 56 = (4878899596318038, 48) := by decide
  have r6 : roundDyadic (8972601288853640 * 2 ^ (max 46 48 - 46) + 4878899596318038 * 2 ^ (max 46 48 - 48)) (max 46 48) = (5096163093966575, 45) := by decide
  have r7 : roundDyadic (91 * 8031419335477384) 53 = (5709837183815953, 46) := by decide
  have r8 : roundDyadic (115 * 7806239354108860) 56 = (7013418169707179, 49) := by decide
  have r9 : roundDyadic (5709837183815953 * 2 ^ (max 46 49 - 46) + 7013418169707179 * 2 ^ (max 46 49 - 49)) (max 46 49) = (6586514455029350, 46) := by decide
  simp only [floatInterpColor, floatInterpChannel, LOGO_START, LOGO_END, e1, e2,
    r1, r2, r3, r4, r5, r6, r7, r8, r9]
  decide

lemma logoRowFl14 : floatInterpColor LOGO_START LOGO_END 14 120 = (180, 144, 93) := by
  have e1 : roundFloat 14 120 = (8406719304424926, 56) := by decide
  have e2 : roundDyadic (2 ^ 56 - 8406719304424926) 56 = (7956359341687876, 53) := by decide
  have r1 : roundDyadic (179 * 7956359341687876) 53 = (5563235633445820, 45) := by decide
  have r2 : roundDyadic (194 * 8406719304424926) 56 = (6370716972884514, 48) := by decide
  have r3 : roundDyadic (5563235633445820 * 2 ^ (max 45 48 - 45) + 6370716972884514 * 2 ^ (max 45 48 - 48)) (max 45 48) = (6359575255056384, 45) := by decide
  have r4 : roundDyadic (143 * 7956359341687876) 53 = (8888745202041924, 46) := by decide
  have r5 : roundDyadic (160 * 8406719304424926) 56 = (5254199565265579, 48) := by decide
  have r6 : roundDyadic (8888745202041924 * 2 ^ (max 46 48 - 46) + 5254199565265579 * 2 ^ (max 46 48 - 48)) (max 46 48) = (5101147546679159, 45) := by decide
  have r7 : roundDyadic (91 * 7956359341687876) 53 = (5656474219481224, 46) := by decide
  have r8 : roundDyadic (115 * 8406719304424926) 56 = (7552911875069269, 49) := by decide
  have r9 : roundDyadic (5656474219481224 * 2 ^ (max 46 49 - 46) + 7552911875069269 * 2 ^ (max 46 49 - 49)) (max 46 49) = (6600588203864883, 46) := by decide
  simp only [floatInterpColor, floatInterpChannel, LOGO_START, LOGO_END, e1, e2,
    r1, r2, r3, r4, r5, r6, r7, r8, r9]
  decide

lemma logoRowFl15 : floatInterpColor LOGO_START LOGO_END 15 120 = (180, 145, 94) := by
  have e1 : roundFloat 15 120 = (4503599627370496, 55) := by decide
  have e2 : roundDyadic (2 ^ 55 - 4503599627370496) 55 = (7881299347898368, 53) := by decide
  have r1 : roundDyadic (179 * 7881299347898368) 53 = (5510752278413312, 45) := by decide
  have r2 : roundDyadic (194 * 4503599627370496) 55 = (6825768185233408, 48) := by decide
  have r3 : roundDyadic (5510752278413312 * 2 ^ (max 45 48 - 45) + 6825768185233408 * 2 ^ (max 45 48 - 48)) (max 45 48) = (6363973301567488, 45) := by decide
  have r4 : roundDyadic (143 * 7881299347898368) 53 = (8804889115230208, 46) := by decide
  have r5 : roundDyadic (160 * 4503599627370496) 55 = (5629499534213120, 48) := by decide
  have r6 : roundDyadic (8804889115230208 * 2 ^ (max 46 48 - 46) + 5629499534213120 * 2 ^ (max 46 48 - 48)) (max 46 48) = (5106131999391744, 45) := by decide
  have r7 : roundDyadic (91 * 7881299347898368) 53 = (5603111255146496, 46) := by decide
  have r8 : roundDyadic (115 * 4503599627370496) 55 = (8092405580431360, 49) := by decide
  have r9 : roundDyadic (5603111255146496 * 2 ^ (max 46 49 - 46) + 8092405580431360 * 2 ^ (max 46 49 - 49)) (max 46 49) = (6614661952700416, 46) := by decide
  simp only [floatInterpColor, floatInterpChannel, LOGO_START, LOGO_END, e1, e2,
    r1, r2, r3, r4, r5, r6, r7, r8, r9]
  decide

lemma logoRowFl16 : floatInterpColor LOGO_START LOGO_END 16 120 = (181, 145, 94) := by
  have e1 : roundFloat 16 120 = (4803839602528529, 55) := by decide
  have e2 : roundDyadic (2 ^ 55 - 4803839602528529) 55 = (7806239354108860, 53) := by decide
  have r1 : roundDyadic (179 * 7806239354108860) 53 = (5458268923380804, 45) := by decide
  have r2 : roundDyadic (194 * 4803839602528529) 55 = (7280819397582302, 48) := by decide
  have r3 : roundDyadic (5458268923380804 * 2 ^ (max 45 48 - 45) + 7280819397582302 * 2 ^ (max 45 48 - 48)) (max 45 48) = (6368371348078592, 45) := by decide
  have r4 : roundDyadic (143 * 7806239354108860) 53 = (8721033028418492, 46) := by decide
  have r5 : roundDyadic (160 * 4803839602528529) 55 = (6004799503160661, 48) := by decide
  have r6 : roundDyadic (8721033028418492 * 2 ^ (max 46 48 - 46) + 6004799503160661 * 2 ^ (max 46 48 - 48)) (max 46 48) = (5111116452104329, 45) := by decide
  have r7 : roundDyadic (91 * 7806239354108860) 53 = (5549748290811768, 46) := by decide
  have r8 : roundDyadic (115 * 4803839602528529) 55 = (8631899285793451, 49) := by decide
  have r9 : roundDyadic (5549748290811768 * 2 ^ (max 46 49 - 46) + 8631899285793451 * 2 ^ (max 46 49 - 49)) (max 46 49) = (6628735701535949, 46) := by decide
  simp only [floatInterpColor, floatInterpChannel, LOGO_START, LOGO_END, e1, e2,
    r1, r2, r3, r4, r5, r6, r7, r8, r9]
  decide

lemma logoRowFl17 : floatInterpColor LOGO_START LOGO_END 17 120 = (181, 145, 94) := by
  have e1 : roundFloat 17 120 = (5104079577686562, 55) := by decide
  have e2 : roundDyadic (2 ^ 55 - 5104079577686562) 55 = (7731179360319352, 53) := by decide
  have r1 : roundDyadic (179 * 7731179360319352) 53 = (5405785568348297, 45) := by decide
  have r2 : roundDyadic (194 * 5104079577686562) 55 = (7735870609931196, 48) := by decide
  have r3 : roundDyadic (5405785568348297 * 2 ^ (max 45 48 - 45) + 7735870609931196 * 2 ^ (max 45 48 - 48)) (max 45 48) = (6372769394589696, 45) := by decide
  have r4 : roundDyadic (143 * 7731179360319352) 53 = (8637176941606776, 46) := by decide
  have r5 : roundDyadic (160 * 5104079577686562) 55 = (6380099472108202, 48) := by decide
  have r6 : roundDyadic (8637176941606776 * 2 ^ (max 46 48 - 46) + 6380099472108202 * 2 ^ (max 46 48 - 48)) (max 46 48) = (5116100904816913, 45) := by decide
  have r7 : roundDyadic (91 * 7731179360319352) 53 = (5496385326477039, 46) := by decide
  have r8 : roundDyadic (115 * 5104079577686562) 55 = (4585696495577771, 48) := by decide
  have r9 : roundDyadic (5496385326477039 * 2 ^ (max 46 48 - 46) + 4585696495577771 * 2 ^ (max 46 48 - 48)) (max 46 48) = (6642809450371482, 46) := by decide
  simp only [floatInterpColor, floatInterpChannel, LOGO_START, LOGO_END, e1, e2,
    r1, r2, r3, r4, r5, r6, r7, r8, r9]
  decide

lemma logoRowFl18 : floatInterpColor LOGO_START LOGO_END 18 120 = (181, 145, 94) := by
  have e1 : roundFloat 18 120 = (5404319552844595, 55) := by decide
  have e2 : roundDyadic (2 ^ 55 - 5404319552844595) 55 = (7656119366529843, 53) := by decide
  have r1 : roundDyadic (179 * 7656119366529843) 53 = (5353302213315789, 45) := by decide
  have r2 : roundDyadic (194 * 5404319552844595) 55 = (8190921822280089, 48) := by decide
  have r3 : roundDyadic (5353302213315789 * 2 ^ (max 45 48 - 45) + 8190921822280089 * 2 ^ (max 45 48 - 48)) (max 45 48) = (6377167441100800, 45) := by decide
  have r4 : roundDyadic (143 * 7656119366529843) 53 = (8553320854795059, 46) := by decide
  have r5 : roundDyadic (160 * 5404319552844595) 55 = (6755399441055744, 48) := by decide
  have r6 : roundDyadic (8553320854795059 * 2 ^ (max 46 48 - 46) + 6755399441055744 * 2 ^ (max 46 48 - 48)) (max 46 48) = (5121085357529498, 45) := by decide
  have r7 : roundDyadic (91 * 7656119366529843) 53 = (5443022362142310, 46) := by decide
  have r8 : roundDyadic (115 * 5404319552844595) 55 = (4855443348258816, 48) := by decide
  have r9 : roundDyadic (5443022362142310 * 2 ^ (max 46 48 - 46) + 4855443348258816 * 2 ^ (max 46 48 - 48)) (max 46 48) = (6656883199207014, 46) := by decide
  simp only [floatInterpColor, floatInterpChannel, LOGO_START, LOGO_END, e1, e2,
    r1, r2, r3, r4, r5, r6, r7, r8, r9]
  decide

lemma logoRowFl19 : floatInterpColor LOGO_START LOGO_END 19 120 = (181, 145, 94) := by
  have e1 : roundFloat 19 120 = (5704559528002628, 55) := by decide
  have e2 : roundDyadic (2 ^ 55 - 5704559528002628) 55 = (7581059372740335, 53) := by decide
  have r1 : roundDyadic (179 * 7581059372740335) 53 = (5300818858283281, 45) := by decide
  have r2 : roundDyadic (194 * 5704559528002628) 55 = (8645973034628983, 48) := by decide
  have r3 : roundDyadic (5300818858283281 * 2 ^ (max 45 48 - 45) + 8645973034628983 * 2 ^ (max 45 48 - 48)) (max 45 48) = (6381565487611904, 45) := by decide
  have r4 : roundDyadic (143 * 7581059372740335) 53 = (8469464767983343, 46) := by decide
  have r5 : roundDyadic (160 * 5704559528002628) 55 = (7130699410003285, 48) := by decide
  have r6 : roundDyadic (8469464767983343 * 2 ^ (max 46 48 - 46) + 7130699410003285 * 2 ^ (max 46 48 - 48)) (max 46 48) = (5126069810242082, 45) := by decide
  have r7 : roundDyadic (91 * 7581059372740335) 53 = (5389659397807582, 46) := by decide
  have r8 : roundDyadic (115 * 5704559528002628) 55 = (5125190200939861, 48) := by decide
  have r9 : roundDyadic (5389659397807582 * 2 ^ (max 46 48 - 46) + 5125190200939861 * 2 ^ (max 46 48 - 48)) (max 46 48) = (6670956948042547, 46) := by decide
  simp only [floatInterpColor, floatInterpChannel, LOGO_START, LOGO_END, e1, e2,
    r1, r2, r3, r4, r5, r6, r7, r8, r9]
  decide

lemma logoRowFl20 : floatInterpColor LOGO_START LOGO_END 20 120 = (181, 145, 95) := by
  have e1 : roundFloat 20 120 = (6004799503160661, 55) := by decide
  have e2 : roundDyadic (2 ^ 55 - 6004799503160661) 55 = (7505999378950827, 53) := by decide
  have r1 : roundDyadic (179 * 7505999378950827) 53 = (5248335503250774, 45) := by decide
  have r2 : roundDyadic (194 * 6004799503160661) 55 = (4550512123488938, 47) := by decide
  have r3 : roundDyadic (5248335503250774 * 2 ^ (max 45 47 - 45) + 4550512123488938 * 2 ^ (max 45 47 - 47)) (max 45 47) = (6385963534123008, 45) := by decide
  have r4 : roundDyadic (143 * 7505999378950827) 53 = (8385608681171627, 46) := by decide
  have r5 : roundDyadic (160 * 6004799503160661) 55 = (7505999378950826, 48) := by decide
  have r6 : roundDyadic (8385608681171627 * 2 ^ (max 46 48 - 46) + 7505999378950826 * 2 ^ (max 46 48 - 48)) (max 46 48) = (5131054262954667, 45) := by decide
  have r7 : roundDyadic (91 * 7505999378950827) 53 = (5336296433472854, 46) := by decide
  have r8 : roundDyadic (115 * 6004799503160661) 55 = (5394937053620906, 48) := by decide
  have r9 : roundDyadic (5336296433472854 * 2 ^ (max 46 48 - 46) + 5394937053620906 * 2 ^ (max 46 48 - 48)) (max 46 48) = (6685030696878080, 46) := by decide
  simp only [floatInterpColor, floatInterpChannel, LOGO_START, LOGO_END, e1, e2,
    r1, r2, r3, r4, r5, r6, r7, r8, r9]
  decide

lemma logoRowFl21 : floatInterpColor LOGO_START LOGO_END 21 120 = (181, 145, 95) := by
  have e1 : roundFloat 21 120 = (6305039478318694, 55) := by decide
  have e2 : roundDyadic (2 ^ 55 - 6305039478318694) 55 = (7430939385161318, 53) := by decide
  have r1 : roundDyadic (179 * 7430939385161318) 53 = (5195852148218265, 45) := by decide
  have r2 : roundDyadic (194 * 6305039478318694) 55 = (4778037729663385, 47) := by decide
  have r3 : roundDyadic (5195852148218265 * 2 ^ (max 45 47 - 45) + 4778037729663385 * 2 ^ (max 45 47 - 47)) (max 45 47) = (6390361580634111, 45) := by decide
  have r4 : roundDyadic (143 * 7430939385161318) 53 = (8301752594359910, 46) := by decide
  have r5 : roundDyadic (160 * 6305039478318694) 55 = (7881299347898368, 48) := by decide
  have r6 : roundDyadic (8301752594359910 * 2 ^ (max 46 48 - 46) + 7881299347898368 * 2 ^ (max 46 48 - 48)) (max 46 48) = (5136038715667251, 45) := by decide
  have r7 : roundDyadic (91 * 7430939385161318) 53 = (5282933469138125, 46) := by decide
  have r8 : roundDyadic (115 * 6305039478318694) 55 = (5664683906301952, 48) := by decide
  have r9 : roundDyadic (5282933469138125 * 2 ^ (max 46 48 - 46) + 5664683906301952 * 2 ^ (max 46 48 - 48)) (max 46 48) = (6699104445713613, 46) := by decide
  simp only [floatInterpColor, floatInterpChannel, LOGO_START, LOGO_END, e1, e2,
    r1, r2, r3, r4, r5, r6, r7, r8, r9]
  decide

lemma logoRowFl22 : floatInterpColor LOGO_START LOGO_END 22 120 = (181, 146, 95) := by
  have e1 : roundFloat 22 120 = (6605279453476727, 55) := by decide
  have e2 : roundDyadic (2 ^ 55 - 6605279453476727) 55 = (7355879391371810, 53) := by decide
  have r1 : roundDyadic (179 * 7355879391371810) 53 = (5143368793185758, 45) := by decide
  have r2 : roundDyadic (194 * 6605279453476727) 55 = (5005563335837832, 47) := by decide
  have r3 : roundDyadic (5143368793185758 * 2 ^ (max 45 47 - 45) + 5005563335837832 * 2 ^ (max 45 47 - 47)) (max 45 47) = (6394759627145216, 45) := by decide
  have r4 : roundDyadic (143 * 7355879391371810) 53 = (8217896507548194, 46) := by decide
  have r5 : roundDyadic (160 * 6605279453476727) 55 = (8256599316845909, 48) := by decide
  have r6 : roundDyadic (8217896507548194 * 2 ^ (max 46 48 - 46) + 8256599316845909 * 2 ^ (max 46 48 - 48)) (max 46 48) = (5141023168379836, 45) := by decide
  have r7 : roundDyadic (91 * 7355879391371810) 53 = (5229570504803396, 46) := by decide
  have r8 : roundDyadic (115 * 6605279453476727) 55 = (5934430758982997, 48) := by decide
  have r9 : roundDyadic (5229570504803396 * 2 ^ (max 46 48 - 46) + 5934430758982997 * 2 ^ (max 46 48 - 48)) (max 46 48) = (6713178194549145, 46) := by decide
  simp only [floatInterpColor, floatInterpChannel, LOGO_START, LOGO_END, e1, e2,
    r1, r2, r3, r4, r5, r6, r7, r8, r9]
  decide

lemma logoRowFl23 : floatInterpColor LOGO_START LOGO_END 23 120 = (181, 146, 95) := by
  have e1 : roundFloat 23 120 = (6905519428634761, 55) := by decide
  have e2 : roundDyadic (2 ^ 55 - 6905519428634761) 55 = (7280819397582302, 53) := by decide
  have r1 : roundDyadic (179 * 7280819397582302) 53 = (5090885438153250, 45) := by decide
  have r2 : roundDyadic (194 * 6905519428634761) 55 = (5233088942012280, 47) := by decide
  have r3 : roundDyadic (5090885438153250 * 2 ^ (max 45 47 - 45) + 5233088942012280 * 2 ^ (max 45 47 - 47)) (max 45 47) = (6399157673656320, 45) := by decide
  have r4 : roundDyadic (143 * 7280819397582302) 53 = (8134040420736478, 46) := by decide
  have r5 : roundDyadic (160 * 6905519428634761) 55 = (8631899285793451, 48) := by decide
  have r6 : roundDyadic (8134040420736478 * 2 ^ (max 46 48 - 46) + 8631899285793451 * 2 ^ (max 46 48 - 48)) (max 46 48) = (5146007621092420, 45) := by decide
  have r7 : roundDyadic (91 * 7280819397582302) 53 = (5176207540468668, 46) := by decide
  have r8 : roundDyadic (115 * 6905519428634761) 55 = (6204177611664043, 48) := by decide
  have r9 : roundDyadic (5176207540468668 * 2 ^ (max 46 48 - 46) + 6204177611664043 * 2 ^ (max 46 48 - 48)) (max 46 48) = (6727251943384679, 46) := by decide
  simp only [floatInterpColor, floatInterpChannel, LOGO_START, LOGO_END, e1, e2,
    r1, r2, r3, r4, r5, r6, r7, r8, r9]
  decide

lemma logoRowFl24 : floatInterpColor LOGO_START LOGO_END 24 120 = (182, 146, 95) := by
  have e1 : roundFloat 24 120 = (7205759403792794, 55) := by decide
  have e2 : roundDyadic (2 ^ 55 - 7205759403792794) 55 = (7205759403792794, 53) := by decide
  have r1 : roundDyadic (179 * 7205759403792794) 53 = (5038402083120743, 45) := by decide
  have r2 : roundDyadic (194 * 7205759403792794) 55 = (5460614548186727, 47) := by decide
  have r3 : roundDyadic (5038402083120743 * 2 ^ (max 45 47 - 45) + 5460614548186727 * 2 ^ (max 45 47 - 47)) (max 45 47) = (6403555720167425, 45) := by decide
  have r4 : roundDyadic (143 * 7205759403792794) 53 = (8050184333924762, 46) := by decide
  have r5 : roundDyadic (160 * 7205759403792794) 55 = (4503599627370496, 47) := by decide
  have r6 : roundDyadic (8050184333924762 * 2 ^ (max 46 47 - 46) + 4503599627370496 * 2 ^ (max 46 47 - 47)) (max 46 47) = (5150992073805005, 45) := by decide
  have r7 : roundDyadic (91 * 7205759403792794) 53 = (5122844576133939, 46) := by decide
  have r8 : roundDyadic (115 * 7205759403792794) 55 = (6473924464345088, 48) := by decide
  have r9 : roundDyadic (5122844576133939 * 2 ^ (max 46 48 - 46) + 6473924464345088 * 2 ^ (max 46 48 - 48)) (max 46 48) = (6741325692220211, 46) := by decide
  simp only [floatInterpColor, floatInterpChannel, LOGO_START, LOGO_END, e1, e2,
    r1, r2, r3, r4, r5, r6, r7, r8, r9]
  decide

lemma logoRowFl25 : floatInterpColor LOGO_START LOGO_END 25 120 = (182, 146, 96) := by
  have e1 : roundFloat 25 120 = (7505999378950827, 55) := by decide
  have e2 : roundDyadic (2 ^ 55 - 7505999378950827) 55 = (7130699410003285, 53) := by decide
  have r1 : roundDyadic (179 * 7130699410003285) 53 = (4985918728088234, 45) := by decide
  have r2 : roundDyadic (194 * 7505999378950827) 55 = (5688140154361174, 47) := by decide
  have r3 : roundDyadic (4985918728088234 * 2 ^ (max 45 47 - 45) + 5688140154361174 * 2 ^ (max 45 47 - 47)) (max 45 47) = (6407953766678528, 45) := by decide
  have r4 : roundDyadic (143 * 7130699410003285) 53 = (7966328247113045, 46) := by decide
  have r5 : roundDyadic (160 * 7505999378950827) 55 = (4691249611844267, 47) := by decide
  have r6 : roundDyadic (7966328247113045 * 2 ^ (max 46 47 - 46) + 4691249611844267 * 2 ^ (max 46 47 - 47)) (max 46 47) = (5155976526517589, 45) := by decide
  have r7 : roundDyadic (91 * 7130699410003285) 53 = (5069481611799210, 46) := by decide
  have r8 : roundDyadic (115 * 7505999378950827) 55 = (6743671317026134, 48) := by decide
  have r9 : roundDyadic (5069481611799210 * 2 ^ (max 46 48 - 46) + 6743671317026134 * 2 ^ (max 46 48 - 48)) (max 46 48) = (6755399441055744, 46) := by decide
  simp only [floatInterpColor, floatInterpChannel, LOGO_START, LOGO_END, e1, e2,
    r1, r2, r3, r4, r5, r6, r7, r8, r9]
  decide

lemma logoRowFl26 : floatInterpColor LOGO_START LOGO_END 26 120 = (182, 146, 96) := by
  have e1 : roundFloat 26 120 = (7806239354108860, 55) := by decide
  have e2 : roundDyadic (2 ^ 55 - 7806239354108860) 55 = (7055639416213777, 53) := by decide
  have r1 : roundDyadic (179 * 7055639416213777) 53 = (4933435373055727, 45) := by decide
  have r2 : roundDyadic (194 * 7806239354108860) 55 = (5915665760535620, 47) := by decide
  have r3 : roundDyadic (4933435373055727 * 2 ^ (max 45 47 - 45) + 5915665760535620 * 2 ^ (max 45 47 - 47)) (max 45 47) = (6412351813189632, 45) := by decide
  have r4 : roundDyadic (143 * 7055639416213777) 53 = (7882472160301329, 46) := by decide
  have r5 : roundDyadic (160 * 7806239354108860) 55 = (4878899596318038, 47) := by decide
  have r6 : roundDyadic (7882472160301329 * 2 ^ (max 46 47 - 46) + 4878899596318038 * 2 ^ (max 46 47 - 47)) (max 46 47) = (5160960979230174, 45) := by decide
  have r7 : roundDyadic (91 * 7055639416213777) 53 = (5016118647464482, 46) := by decide
  have r8 : roundDyadic (115 * 7806239354108860) 55 = (7013418169707179, 48) := by decide
  have r9 : roundDyadic (5016118647464482 * 2 ^ (max 46 48 - 46) + 7013418169707179 * 2 ^ (max 46 48 - 48)) (max 46 48) = (6769473189891277, 46) := by decide
  simp only [floatInterpColor, floatInterpChannel, LOGO_START, LOGO_END, e1, e2,
    r1, r2, r3, r4, r5, r6, r7, r8, r9]
  decide

lemma logoRowFl27 : floatInterpColor LOGO_START LOGO_END 27 120 = (182, 146, 96) := by
  have e1 : roundFloat 27 120 = (8106479329266893, 55) := by decide
  have e2 : roundDyadic (2 ^ 55 - 8106479329266893) 55 = (6980579422424269, 53) := by decide
  have r1 : roundDyadic (179 * 6980579422424269) 53 = (4880952018023219, 45) := by decide
  have r2 : roundDyadic (194 * 8106479329266893) 55 = (6143191366710067, 47) := by decide
  have r3 : roundDyadic (4880952018023219 * 2 ^ (max 45 47 - 45) + 6143191366710067 * 2 ^ (max 45 47 - 47)) (max 45 47) = (6416749859700736, 45) := by decide
  have r4 : roundDyadic (143 * 6980579422424269) 53 = (7798616073489613, 46) := by decide
  have r5 : roundDyadic (160 * 8106479329266893) 55 = (5066549580791808, 47) := by decide
  have r6 : roundDyadic (7798616073489613 * 2 ^ (max 46 47 - 46) + 5066549580791808 * 2 ^ (max 46 47 - 47)) (max 46 47) = (5165945431942758, 45) := by decide
  have r7 : roundDyadic (91 * 6980579422424269) 53 = (4962755683129754, 46) := by decide
  have r8 : roundDyadic (115 * 8106479329266893) 55 = (7283165022388224, 48) := by decide
  have r9 : roundDyadic (4962755683129754 * 2 ^ (max 46 48 - 46) + 7283165022388224 * 2 ^ (max 46 48 - 48)) (max 46 48) = (6783546938726810, 46) := by decide
  simp only [floatInterpColor, floatInterpChannel, LOGO_START, LOGO_END, e1, e2,
    r1, r2, r3, r4, r5, r6, r7, r8, r9]
  decide

lemma logoRowFl28 : floatInterpColor LOGO_START LOGO_END 28 120 = (182, 146, 96) := by
  have e1 : roundFloat 28 120 = (8406719304424926, 55) := by decide
  have e2 : roundDyadic (2 ^ 55 - 8406719304424926) 55 = (6905519428634760, 53) := by decide
  have r1 : roundDyadic (179 * 6905519428634760) 53 = (4828468662990711, 45) := by decide
  have r2 : roundDyadic (194 * 8406719304424926) 55 = (6370716972884514, 47) := by decide
  have r3 : roundDyadic (4828468662990711 * 2 ^ (max 45 47 - 45) + 6370716972884514 * 2 ^ (max 45 47 - 47)) (max 45 47) = (6421147906211840, 45) := by decide
  have r4 : roundDyadic (143 * 6905519428634760) 53 = (7714759986677896, 46) := by decide
  have r5 : roundDyadic (160 * 8406719304424926) 55 = (5254199565265579, 47) := by decide
  have r6 : roundDyadic (7714759986677896 * 2 ^ (max 46 47 - 46) + 5254199565265579 * 2 ^ (max 46 47 - 47)) (max 46 47) = (5170929884655343, 45) := by decide
  have r7 : roundDyadic (91 * 6905519428634760) 53 = (4909392718795025, 46) := by decide
  have r8 : roundDyadic (115 * 8406719304424926) 55 = (7552911875069269, 48) := by decide
  have r9 : roundDyadic (4909392718795025 * 2 ^ (max 46 48 - 46) + 7552911875069269 * 2 ^ (max 46 48 - 48)) (max 46 48) = (6797620687562342, 46) := by decide
  simp only [floatInterpColor, floatInterpChannel, LOGO_START, LOGO_END, e1, e2,
    r1, r2, r3, r4, r5, r6, r7, r8, r9]
  decide

lemma logoRowFl29 : floatInterpColor LOGO_START LOGO_END 29 120 = (182, 147, 96) := by
  have e1 : roundFloat 29 120 = (8706959279582959, 55) := by decide
  have e2 : roundDyadic (2 ^ 55 - 8706959279582959) 55 = (6830459434845252, 53) := by decide
  have r1 : roundDyadic (179 * 6830459434845252) 53 = (4775985307958204, 45) := by decide
  have r2 : roundDyadic (194 * 8706959279582959) 55 = (6598242579058961, 47) := by decide
  have r3 : roundDyadic (4775985307958204 * 2 ^ (max 45 47 - 45) + 6598242579058961 * 2 ^ (max 45 47 - 47)) (max 45 47) = (6425545952722944, 45) := by decide
  have r4 : roundDyadic (143 * 6830459434845252) 53 = (7630903899866180, 46) := by decide
  have r5 : roundDyadic (160 * 8706959279582959) 55 = (5441849549739349, 47) := by decide
  have r6 : roundDyadic (7630903899866180 * 2 ^ (max 46 47 - 46) + 5441849549739349 * 2 ^ (max 46 47 - 47)) (max 46 47) = (5175914337367927, 45) := by decide
  have r7 : roundDyadic (91 * 6830459434845252) 53 = (4856029754460296, 46) := by decide
  have r8 : roundDyadic (115 * 8706959279582959) 55 = (7822658727750315, 48) := by decide
  have r9 : roundDyadic (4856029754460296 * 2 ^ (max 46 48 - 46) + 7822658727750315 * 2 ^ (max 46 48 - 48)) (max 46 48) = (6811694436397875, 46) := by decide
  simp only [floatInterpColor, floatInterpChannel, LOGO_START, LOGO_END, e1, e2,
    r1, r2, r3, r4, r5, r6, r7, r8, r9]
  decide

lemma logoRowFl30 : floatInterpColor LOGO_START LOGO_END 30 120 = (182, 147, 97) := by
  have e1 : roundFloat 30 120 = (4503599627370496, 54) := by decide
  have e2 : roundDyadic (2 ^ 54 - 4503599627370496) 54 = (6755399441055744, 53) := by decide
  have r1 : roundDyadic (179 * 6755399441055744) 53 = (4723501952925696, 45) := by decide
  have r2 : roundDyadic (194 * 4503599627370496) 54 = (6825768185233408, 47) := by decide
  have r3 : roundDyadic (4723501952925696 * 2 ^ (max 45 47 - 45) + 6825768185233408 * 2 ^ (max 45 47 - 47)) (max 45 47) = (6429943999234048, 45) := by decide
  have r4 : roundDyadic (143 * 6755399441055744) 53 = (7547047813054464, 46) := by decide
  have r5 : roundDyadic (160 * 4503599627370496) 54 = (5629499534213120, 47) := by decide
  have r6 : roundDyadic (7547047813054464 * 2 ^ (max 46 47 - 46) + 5629499534213120 * 2 ^ (max 46 47 - 47)) (max 46 47) = (5180898790080512, 45) := by decide
  have r7 : roundDyadic (91 * 6755399441055744) 53 = (4802666790125568, 46) := by decide
  have r8 : roundDyadic (115 * 4503599627370496) 54 = (8092405580431360, 48) := by decide
  have r9 : roundDyadic (4802666790125568 * 2 ^ (max 46 48 - 46) + 8092405580431360 * 2 ^ (max 46 48 - 48)) (max 46 48) = (6825768185233408, 46) := by decide
  simp only [floatInterpColor, floatInterpChannel, LOGO_START, LOGO_END, e1, e2,
    r1, r2, r3, r4, r5, r6, r7, r8, r9]
  decide

lemma logoRowFl31 : floatInterpColor LOGO_START LOGO_END 31 120 = (182, 147, 97) := by
  have e1 : roundFloat 31 120 = (4653719614949513, 54) := by decide
  have e2 : roundDyadic (2 ^ 54 - 4653719614949513) 54 = (6680339447266236, 53) := by decide
  have r1 : roundDyadic (179 * 6680339447266236) 53 = (4671018597893188, 45) := by decide
  have r2 : roundDyadic (194 * 4653719614949513) 54 = (7053293791407856, 47) := by decide
  have r3 : roundDyadic (4671018597893188 * 2 ^ (max 45 47 - 45) + 7053293791407856 * 2 ^ (max 45 47 - 47)) (max 45 47) = (6434342045745152, 45) := by decide
  have r4 : roundDyadic (143 * 6680339447266236) 53 = (7463191726242748, 46) := by decide
  have r5 : roundDyadic (160 * 4653719614949513) 54 = (5817149518686891, 47) := by decide
  have r6 : roundDyadic (7463191726242748 * 2 ^ (max 46 47 - 46) + 5817149518686891 * 2 ^ (max 46 47 - 47)) (max 46 47) = (5185883242793097, 45) := by decide
  have r7 : roundDyadic (91 * 6680339447266236) 53 = (4749303825790840, 46) := by decide
  have r8 : roundDyadic (115 * 4653719614949513) 54 = (8362152433112406, 48) := by decide
  have r9 : roundDyadic (4749303825790840 * 2 ^ (max 46 48 - 46) + 8362152433112406 * 2 ^ (max 46 48 - 48)) (max 46 48) = (6839841934068942, 46) := by decide
  simp only [floatInterpColor, floatInterpChannel, LOGO_START, LOGO_END, e1, e2,
    r1, r2, r3, r4, r5, r6, r7, r8, r9]
  decide

lemma logoRowFl32 : floatInterpColor LOGO_START LOGO_END 32 120 = (183, 147, 97) := by
  have e1 : roundFloat 32 120 = (4803839602528529, 54) := by decide
  have e2 : roundDyadic (2 ^ 54 - 4803839602528529) 54 = (6605279453476728, 53) := by decide
  have r1 : roundDyadic (179 * 6605279453476728) 53 = (4618535242860681, 45) := by decide
  have r2 : roundDyadic (194 * 4803839602528529) 54 = (7280819397582302, 47) := by decide
  have r3 : roundDyadic (4618535242860681 * 2 ^ (max 45 47 - 45) + 7280819397582302 * 2 ^ (max 45 47 - 47)) (max 45 47) = (6438740092256256, 45) := by decide
  have r4 : roundDyadic (143 * 6605279453476728) 53 = (7379335639431032, 46) := by decide
  have r5 : roundDyadic (160 * 4803839602528529) 54 = (6004799503160661, 47) := by decide
  have r6 : roundDyadic (7379335639431032 * 2 ^ (max 46 47 - 46) + 6004799503160661 * 2 ^ (max 46 47 - 47)) (max 46 47) = (5190867695505681, 45) := by decide
  have r7 : roundDyadic (91 * 6605279453476728) 53 = (4695940861456111, 46) := by decide
  have r8 : roundDyadic (115 * 4803839602528529) 54 = (8631899285793451, 48) := by decide
  have r9 : roundDyadic (4695940861456111 * 2 ^ (max 46 48 - 46) + 8631899285793451 * 2 ^ (max 46 48 - 48)) (max 46 48) = (6853915682904474, 46) := by decide
  simp only [floatInterpColor, floatInterpChannel, LOGO_START, LOGO_END, e1, e2,
    r1, r2, r3, r4, r5, r6, r7, r8, r9]
  decide

lemma logoRowFl33 : floatInterpColor LOGO_START LOGO_END 33 120 = (183, 147, 97) := by
  have e1 : roundFloat 33 120 = (4953959590107546, 54) := by decide
  have e2 : roundDyadic (2 ^ 54 - 4953959590107546) 54 = (6530219459687219, 53) := by decide
  have r1 : roundDyadic (179 * 6530219459687219) 53 = (4566051887828173, 45) := by decide
  have r2 : roundDyadic (194 * 4953959590107546) 54 = (7508345003756749, 47) := by decide
  have r3 : roundDyadic (4566051887828173 * 2 ^ (max 45 47 - 45) + 7508345003756749 * 2 ^ (max 45 47 - 47)) (max 45 47) = (6443138138767360, 45) := by decide
  have r4 : roundDyadic (143 * 6530219459687219) 53 = (7295479552619315, 46) := by decide
  have r5 : roundDyadic (160 * 4953959590107546) 54 = (6192449487634432, 47) := by decide
  have r6 : roundDyadic (7295479552619315 * 2 ^ (max 46 47 - 46) + 6192449487634432 * 2 ^ (max 46 47 - 47)) (max 46 47) = (5195852148218266, 45) := by decide
  have r7 : roundDyadic (91 * 6530219459687219) 53 = (4642577897121382, 46) := by decide
  have r8 : roundDyadic (115 * 4953959590107546) 54 = (8901646138474497, 48) := by decide
  have r9 : roundDyadic (4642577897121382 * 2 ^ (max 46 48 - 46) + 8901646138474497 * 2 ^ (max 46 48 - 48)) (max 46 48) = (6867989431740006, 46) := by decide
  simp only [floatInterpColor, floatInterpChannel, LOGO_START, LOGO_END, e1, e2,
    r1, r2, r3, r4, r5, r6, r7, r8, r9]
  decide

lemma logoRowFl34 : floatInterpColor LOGO_START LOGO_END 34 120 = (183, 147, 97) := by
  have e1 : roundFloat 34 120 = (5104079577686562, 54) := by decide
  have e2 : roundDyadic (2 ^ 54 - 5104079577686562) 54 = (6455159465897711, 53) := by decide
  have r1 : roundDyadic (179 * 6455159465897711) 53 = (4513568532795665, 45) := by decide
  have r2 : roundDyadic (194 * 5104079577686562) 54 = (7735870609931196, 47) := by decide
  have r3 : roundDyadic (4513568532795665 * 2 ^ (max 45 47 - 45) + 7735870609931196 * 2 ^ (max 45 47 - 47)) (max 45 47) = (6447536185278464, 45) := by decide
  have r4 : roundDyadic (143 * 6455159465897711) 53 = (7211623465807599, 46) := by decide
  have r5 : roundDyadic (160 * 5104079577686562) 54 = (6380099472108202, 47) := by decide
  have r6 : roundDyadic (7211623465807599 * 2 ^ (max 46 47 - 46) + 6380099472108202 * 2 ^ (max 46 47 - 47)) (max 46 47) = (5200836600930850, 45) := by decide
  have r7 : roundDyadic (91 * 6455159465897711) 53 = (4589214932786654, 46) := by decide
  have r8 : roundDyadic (115 * 5104079577686562) 54 = (4585696495577771, 47) := by decide
  have r9 : roundDyadic (4589214932786654 * 2 ^ (max 46 47 - 46) + 4585696495577771 * 2 ^ (max 46 47 - 47)) (max 46 47) = (6882063180575540, 46) := by decide
  simp only [floatInterpColor, floatInterpChannel, LOGO_START, LOGO_END, e1, e2,
    r1, r2, r3, r4, r5, r6, r7, r8, r9]
  decide

lemma logoRowFl35 : floatInterpColor LOGO_START LOGO_END 35 120 = (183, 147, 98) := by
  have e1 : roundFloat 35 120 = (5254199565265579, 54) := by decide
  have e2 : roundDyadic (2 ^ 54 - 5254199565265579) 54 = (6380099472108202, 53) := by decide
  have r1 : roundDyadic (179 * 6380099472108202) 53 = (8922170355526314, 46) := by decide
  have r2 : roundDyadic (194 * 5254199565265579) 54 = (7963396216105643, 47) := by decide
  have r3 : roundDyadic (8922170355526314 * 2 ^ (max 46 47 - 46) + 7963396216105643 * 2 ^ (max 46 47 - 47)) (max 46 47) = (6451934231789568, 45) := by decide
  have r4 : roundDyadic (143 * 6380099472108202) 53 = (7127767378995882, 46) := by decide
  have r5 : roundDyadic (160 * 5254199565265579) 54 = (6567749456581974, 47) := by decide
  have r6 : roundDyadic (7127767378995882 * 2 ^ (max 46 47 - 46) + 6567749456581974 * 2 ^ (max 46 47 - 47)) (max 46 47) = (5205821053643434, 45) := by decide
  have r7 : roundDyadic (91 * 6380099472108202) 53 = (4535851968451925, 46) := by decide
  have r8 : roundDyadic (115 * 5254199565265579) 54 = (4720569921918294, 47) := by decide
  have r9 : roundDyadic (4535851968451925 * 2 ^ (max 46 47 - 46) + 4720569921918294 * 2 ^ (max 46 47 - 47)) (max 46 47) = (6896136929411072, 46) := by decide
  simp only [floatInterpColor, floatInterpChannel, LOGO_START, LOGO_END, e1, e2,
    r1, r2, r3, r4, r5, r6, r7, r8, r9]
  decide

lemma logoRowFl36 : floatInterpColor LOGO_START LOGO_END 36 120 = (183, 148, 98) := by
  have e1 : roundFloat 36 120 = (5404319552844595, 54) := by decide
  have e2 : roundDyadic (2 ^ 54 - 5404319552844595) 54 = (6305039478318694, 53) := by decide
  have r1 : roundDyadic (179 * 6305039478318694) 53 = (8817203645461299, 46) := by decide
  have r2 : roundDyadic (194 * 5404319552844595) 54 = (8190921822280089, 47) := by decide
  have r3 : roundDyadic (8817203645461299 * 2 ^ (max 46 47 - 46) + 8190921822280089 * 2 ^ (max 46 47 - 47)) (max 46 47) = (6456332278300672, 45) := by decide
  have r4 : roundDyadic (143 * 6305039478318694) 53 = (7043911292184166, 46) := by decide
  have r5 : roundDyadic (160 * 5404319552844595) 54 = (6755399441055744, 47) := by decide
  have r6 : roundDyadic (7043911292184166 * 2 ^ (max 46 47 - 46) + 6755399441055744 * 2 ^ (max 46 47 - 47)) (max 46 47) = (5210805506356019, 45) := by decide
  have r7 : roundDyadic (91 * 6305039478318694) 53 = (8964978008234393, 47) := by decide
  have r8 : roundDyadic (115 * 5404319552844595) 54 = (4855443348258816, 47) := by decide
  have r9 : roundDyadic (8964978008234393 * 2 ^ (max 47 47 - 47) + 4855443348258816 * 2 ^ (max 47 47 - 47)) (max 47 47) = (6910210678246604, 46) := by decide
  simp only [floatInterpColor, floatInterpChannel, LOGO_START, LOGO_END, e1, e2,
    r1, r2, r3, r4, r5, r6, r7, r8, r9]
  decide

lemma logoRowFl37 : floatInterpColor LOGO_START LOGO_END 37 120 = (183, 148, 98) := by
  have e1 : roundFloat 37 120 = (5554439540423612, 54) := by decide
  have e2 : roundDyadic (2 ^ 54 - 5554439540423612) 54 = (6229979484529186, 53) := by decide
  have r1 : roundDyadic (179 * 6229979484529186) 53 = (8712236935396284, 46) := by decide
  have r2 : roundDyadic (194 * 5554439540423612) 54 = (8418447428454537, 47) := by decide
  have r3 : roundDyadic (8712236935396284 * 2 ^ (max 46 47 - 46) + 8418447428454537 * 2 ^ (max 46 47 - 47)) (max 46 47) = (6460730324811776, 45) := by decide
  have r4 : roundDyadic (143 * 6229979484529186) 53 = (6960055205372450, 46) := by decide
  have r5 : roundDyadic (160 * 5554439540423612) 54 = (6943049425529515, 47) := by decide
  have r6 : roundDyadic (6960055205372450 * 2 ^ (max 46 47 - 46) + 6943049425529515 * 2 ^ (max 46 47 - 47)) (max 46 47) = (5215789959068604, 45) := by decide
  have r7 : roundDyadic (91 * 6229979484529186) 53 = (8858252079564936, 47) := by decide
  have r8 : roundDyadic (115 * 5554439540423612) 54 = (4990316774599339, 47) := by decide
  have r9 : roundDyadic (8858252079564936 * 2 ^ (max 47 47 - 47) + 4990316774599339 * 2 ^ (max 47 47 - 47)) (max 47 47) = (6924284427082138, 46) := by decide
  simp only [floatInterpColor, floatInterpChannel, LOGO_START, LOGO_END, e1, e2,
    r1, r2, r3, r4, r5, r6, r7, r8, r9]
  decide

lemma logoRowFl38 : floatInterpColor LOGO_START LOGO_END 38 120 = (183, 148, 98) := by
  have e1 : roundFloat 38 120 = (5704559528002628, 54) := by decide
  have e2 : roundDyadic (2 ^ 54 - 5704559528002628) 54 = (6154919490739678, 53) := by decide
  have r1 : roundDyadic (179 * 6154919490739678) 53 = (8607270225331268, 46) := by decide
  have r2 : roundDyadic (194 * 5704559528002628) 54 = (8645973034628983, 47) := by decide
  have r3 : roundDyadic (8607270225331268 * 2 ^ (max 46 47 - 46) + 8645973034628983 * 2 ^ (max 46 47 - 47)) (max 46 47) = (6465128371322880, 45) := by decide
  have r4 : roundDyadic (143 * 6154919490739678) 53 = (6876199118560734, 46) := by decide
  have r5 : roundDyadic (160 * 5704559528002628) 54 = (7130699410003285, 47) := by decide
  have r6 : roundDyadic (6876199118560734 * 2 ^ (max 46 47 - 46) + 7130699410003285 * 2 ^ (max 46 47 - 47)) (max 46 47) = (5220774411781188, 45) := by decide
  have r7 : roundDyadic (91 * 6154919490739678) 53 = (8751526150895480, 47) := by decide
  have r8 : roundDyadic (115 * 5704559528002628) 54 = (5125190200939861, 47) := by decide
  have r9 : roundDyadic (8751526150895480 * 2 ^ (max 47 47 - 47) + 5125190200939861 * 2 ^ (max 47 47 - 47)) (max 47 47) = (6938358175917670, 46) := by decide
  simp only [floatInterpColor, floatInterpChannel, LOGO_START, LOGO_END, e1, e2,
    r1, r2, r3, r4, r5, r6, r7, r8, r9]
  decide

lemma logoRowFl39 : floatInterpColor LOGO_START LOGO_END 39 120 = (183, 148, 98) := by
  have e1 : roundFloat 39 120 = (5854679515581645, 54) := by decide
  have e2 : roundDyadic (2 ^ 54 - 5854679515581645) 54 = (6079859496950170, 53) := by decide
  have r1 : roundDyadic (179 * 6079859496950170) 53 = (8502303515266253, 46) := by decide
  have r2 : roundDyadic (194 * 5854679515581645) 54 = (8873498640803431, 47) := by decide
  have r3 : roundDyadic (8502303515266253 * 2 ^ (max 46 47 - 46) + 8873498640803431 * 2 ^ (max 46 47 - 47)) (max 46 47) = (6469526417833984, 45) := by decide
  have r4 : roundDyadic (143 * 6079859496950170) 53 = (6792343031749018, 46) := by decide
  have r5 : roundDyadic (160 * 5854679515581645) 54 = (7318349394477056, 47) := by decide
  have r6 : roundDyadic (6792343031749018 * 2 ^ (max 46 47 - 46) + 7318349394477056 * 2 ^ (max 46 47 - 47)) (max 46 47) = (5225758864493773, 45) := by decide
  have r7 : roundDyadic (91 * 6079859496950170) 53 = (8644800222226023, 47) := by decide
  have r8 : roundDyadic (115 * 5854679515581645) 54 = (5260063627280384, 47) := by decide
  have r9 : roundDyadic (8644800222226023 * 2 ^ (max 47 47 - 47) + 5260063627280384 * 2 ^ (max 47 47 - 47)) (max 47 47) = (6952431924753204, 46) := by decide
  simp only [floatInterpColor, floatInterpChannel, LOGO_START, LOGO_END, e1, e2,
    r1, r2, r3, r4, r5, r6, r7, r8, r9]
  decide

lemma logoRowFl40 : floatInterpColor LOGO_START LOGO_END 40 120 = (184, 148, 99) := by
  have e1 : roundFloat 40 120 = (6004799503160661, 54) := by decide
  have e2 : roundDyadic (2 ^ 54 - 6004799503160661) 54 = (6004799503160662, 53) := by decide
  have r1 : roundDyadic (179 * 6004799503160662) 53 = (8397336805201238, 46) := by decide
  have r2 : roundDyadic (194 * 6004799503160661) 54 = (4550512123488938, 46) := by decide
  have r3 : roundDyadic (8397336805201238 * 2 ^ (max 46 46 - 46) + 4550512123488938 * 2 ^ (max 46 46 - 46)) (max 46 46) = (6473924464345088, 45) := by decide
  have r4 : roundDyadic (143 * 6004799503160662) 53 = (6708486944937302, 46) := by decide
  have r5 : roundDyadic (160 * 6004799503160661) 54 = (7505999378950826, 47) := by decide
  have r6 : roundDyadic (6708486944937302 * 2 ^ (max 46 47 - 46) + 7505999378950826 * 2 ^ (max 46 47 - 47)) (max 46 47) = (5230743317206358, 45) := by decide
  have r7 : roundDyadic (91 * 6004799503160662) 53 = (8538074293556566, 47) := by decide
  have r8 : roundDyadic (115 * 6004799503160661) 54 = (5394937053620906, 47) := by decide
  have r9 : roundDyadic (8538074293556566 * 2 ^ (max 47 47 - 47) + 5394937053620906 * 2 ^ (max 47 47 - 47)) (max 47 47) = (6966505673588736, 46) := by decide
  simp only [floatInterpColor, floatInterpChannel, LOGO_START, LOGO_END, e1, e2,
    r1, r2, r3, r4, r5, r6, r7, r8, r9]
  decide

lemma logoRowFl41 : floatInterpColor LOGO_START LOGO_END 41 120 = (184, 148, 99) := by
  have e1 : roundFloat 41 120 = (6154919490739678, 54) := by decide
  have e2 : roundDyadic (2 ^ 54 - 6154919490739678) 54 = (5929739509371153, 53) := by decide
  have r1 : roundDyadic (179 * 5929739509371153) 53 = (8292370095136222, 46) := by decide
  have r2 : roundDyadic (194 * 6154919490739678) 54 = (4664274926576162, 46) := by decide
  have r3 : roundDyadic (8292370095136222 * 2 ^ (max 46 46 - 46) + 4664274926576162 * 2 ^ (max 46 46 - 46)) (max 46 46) = (6478322510856192, 45) := by decide
  have r4 : roundDyadic (143 * 5929739509371153) 53 = (6624630858125585, 46) := by decide
  have r5 : roundDyadic (160 * 6154919490739678) 54 = (7693649363424598, 47) := by decide
  have r6 : roundDyadic (6624630858125585 * 2 ^ (max 46 47 - 46) + 7693649363424598 * 2 ^ (max 46 47 - 47)) (max 46 47) = (5235727769918942, 45) := by decide
  have r7 : roundDyadic (91 * 5929739509371153) 53 = (8431348364887108, 47) := by decide
  have r8 : roundDyadic (115 * 6154919490739678) 54 = (5529810479961429, 47) := by decide
  have r9 : roundDyadic (8431348364887108 * 2 ^ (max 47 47 - 47) + 5529810479961429 * 2 ^ (max 47 47 - 47)) (max 47 47) = (6980579422424268, 46) := by decide
  simp only [floatInterpColor, floatInterpChannel, LOGO_START, LOGO_END, e1, e2,
    r1, r2, r3, r4, r5, r6, r7, r8, r9]
  decide

lemma logoRowFl42 : floatInterpColor LOGO_START LOGO_END 42 120 = (184, 148, 99) := by
  have e1 : roundFloat 42 120 = (6305039478318694, 54) := by decide
  have e2 : roundDyadic (2 ^ 54 - 6305039478318694) 54 = (5854679515581645, 53) := by decide
  have r1 : roundDyadic (179 * 5854679515581645) 53 = (8187403385071207, 46) := by decide
  have r2 : roundDyadic (194 * 6305039478318694) 54 = (4778037729663385, 46) := by decide
  have r3 : roundDyadic (8187403385071207 * 2 ^ (max 46 46 - 46) + 4778037729663385 * 2 ^ (max 46 46 - 46)) (max 46 46) = (6482720557367296, 45) := by decide
  have r4 : roundDyadic (143 * 5854679515581645) 53 = (6540774771313869, 46) := by decide
  have r5 : roundDyadic (160 * 6305039478318694) 54 = (7881299347898368, 47) := by decide
  have r6 : roundDyadic (6540774771313869 * 2 ^ (max 46 47 - 46) + 7881299347898368 * 2 ^ (max 46 47 - 47)) (max 46 47) = (5240712222631526, 45) := by decide
  have r7 : roundDyadic (91 * 5854679515581645) 53 = (8324622436217651, 47) := by decide
  have r8 : roundDyadic (115 * 6305039478318694) 54 = (5664683906301952, 47) := by decide
  have r9 : roundDyadic (8324622436217651 * 2 ^ (max 47 47 - 47) + 5664683906301952 * 2 ^ (max 47 47 - 47)) (max 47 47) = (6994653171259802, 46) := by decide
  simp only [floatInterpColor, floatInterpChannel, LOGO_START, LOGO_END, e1, e2,
    r1, r2, r3, r4, r5, r6, r7, r8, r9]
  decide

lemma logoRowFl43 : floatInterpColor LOGO_START LOGO_END 43 120 = (184, 149, 99) := by
  have e1 : roundFloat 43 120 = (6455159465897711, 54) := by decide
  have e2 : roundDyadic (2 ^ 54 - 6455159465897711) 54 = (5779619521792136, 53) := by decide
  have r1 : roundDyadic (179 * 5779619521792136) 53 = (8082436675006190, 46) := by decide
  have r2 : roundDyadic (194 * 6455159465897711) 54 = (4891800532750609, 46) := by decide
  have r3 : roundDyadic (8082436675006190 * 2 ^ (max 46 46 - 46) + 4891800532750609 * 2 ^ (max 46 46 - 46)) (max 46 46) = (6487118603878400, 45) := by decide
  have r4 : roundDyadic (143 * 5779619521792136) 53 = (6456918684502152, 46) := by decide
  have r5 : roundDyadic (160 * 6455159465897711) 54 = (8068949332372139, 47) := by decide
  have r6 : roundDyadic (6456918684502152 * 2 ^ (max 46 47 - 46) + 8068949332372139 * 2 ^ (max 46 47 - 47)) (max 46 47) = (5245696675344111, 45) := by decide
  have r7 : roundDyadic (91 * 5779619521792136) 53 = (8217896507548193, 47) := by decide
  have r8 : roundDyadic (115 * 6455159465897711) 54 = (5799557332642475, 47) := by decide
  have r9 : roundDyadic (8217896507548193 * 2 ^ (max 47 47 - 47) + 5799557332642475 * 2 ^ (max 47 47 - 47)) (max 47 47) = (7008726920095334, 46) := by decide
  simp only [floatInterpColor, floatInterpChannel, LOGO_START, LOGO_END, e1, e2,
    r1, r2, r3, r4, r5, r6, r7, r8, r9]
  decide

lemma logoRowFl44 : floatInterpColor LOGO_START LOGO_END 44 120 = (184, 149, 99) := by
  have e1 : roundFloat 44 120 = (6605279453476727, 54) := by decide
  have e2 : roundDyadic (2 ^ 54 - 6605279453476727) 54 = (5704559528002628, 53) := by decide
  have r1 : roundDyadic (179 * 5704559528002628) 53 = (7977469964941175, 46) := by decide
  have r2 : roundDyadic (194 * 6605279453476727) 54 = (5005563335837832, 46) := by decide
  have r3 : roundDyadic (7977469964941175 * 2 ^ (max 46 46 - 46) + 5005563335837832 * 2 ^ (max 46 46 - 46)) (max 46 46) = (6491516650389504, 45) := by decide
  have r4 : roundDyadic (143 * 5704559528002628) 53 = (6373062597690436, 46) := by decide
  have r5 : roundDyadic (160 * 6605279453476727) 54 = (8256599316845909, 47) := by decide
  have r6 : roundDyadic (6373062597690436 * 2 ^ (max 46 47 - 46) + 8256599316845909 * 2 ^ (max 46 47 - 47)) (max 46 47) = (5250681128056695, 45) := by decide
  have r7 : roundDyadic (91 * 5704559528002628) 53 = (8111170578878737, 47) := by decide
  have r8 : roundDyadic (115 * 6605279453476727) 54 = (5934430758982997, 47) := by decide
  have r9 : roundDyadic (8111170578878737 * 2 ^ (max 47 47 - 47) + 5934430758982997 * 2 ^ (max 47 47 - 47)) (max 47 47) = (7022800668930867, 46) := by decide
  simp only [floatInterpColor, floatInterpChannel, LOGO_START, LOGO_END, e1, e2,
    r1, r2, r3, r4, r5, r6, r7, r8, r9]
  decide

lemma logoRowFl45 : floatInterpColor LOGO_START LOGO_END 45 120 = (184, 149, 100) := by
  have e1 : roundFloat 45 120 = (6755399441055744, 54) := by decide
  have e2 : roundDyadic (2 ^ 54 - 6755399441055744) 54 = (5629499534213120, 53) := by decide
  have r1 : roundDyadic (179 * 5629499534213120) 53 = (7872503254876160, 46) := by decide
  have r2 : roundDyadic (194 * 6755399441055744) 54 = (5119326138925056, 46) := by decide
  have r3 : roundDyadic (7872503254876160 * 2 ^ (max 46 46 - 46) + 5119326138925056 * 2 ^ (max 46 46 - 46)) (max 46 46) = (6495914696900608, 45) := by decide
  have r4 : roundDyadic (143 * 5629499534213120) 53 = (6289206510878720, 46) := by decide
  have r5 : roundDyadic (160 * 6755399441055744) 54 = (8444249301319680, 47) := by decide
  have r6 : roundDyadic (6289206510878720 * 2 ^ (max 46 47 - 46) + 8444249301319680 * 2 ^ (max 46 47 - 47)) (max 46 47) = (5255665580769280, 45) := by decide
  have r7 : roundDyadic (91 * 5629499534213120) 53 = (8004444650209280, 47) := by decide
  have r8 : roundDyadic (115 * 6755399441055744) 54 = (6069304185323520, 47) := by decide
  have r9 : roundDyadic (8004444650209280 * 2 ^ (max 47 47 - 47) + 6069304185323520 * 2 ^ (max 47 47 - 47)) (max 47 47) = (7036874417766400, 46) := by decide
  simp only [floatInterpColor, floatInterpChannel, LOGO_START, LOGO_END, e1, e2,
    r1, r2, r3, r4, r5, r6, r7, r8, r9]
  decide

lemma logoRowFl46 : floatInterpColor LOGO_START LOGO_END 46 120 = (184, 149, 100) := by
  have e1 : roundFloat 46 120 = (6905519428634761, 54) := by decide
  have e2 : roundDyadic (2 ^ 54 - 6905519428634761) 54 = (5554439540423612, 53) := by decide
  have r1 : roundDyadic (179 * 5554439540423612) 53 = (7767536544811145, 46) := by decide
  have r2 : roundDyadic (194 * 6905519428634761) 54 = (5233088942012280, 46) := by decide
  have r3 : roundDyadic (7767536544811145 * 2 ^ (max 46 46 - 46) + 5233088942012280 * 2 ^ (max 46 46 - 46)) (max 46 46) = (6500312743411712, 45) := by decide
  have r4 : roundDyadic (143 * 5554439540423612) 53 = (6205350424067004, 46) := by decide
  have r5 : roundDyadic (160 * 6905519428634761) 54 = (8631899285793451, 47) := by decide
  have r6 : roundDyadic (6205350424067004 * 2 ^ (max 46 47 - 46) + 8631899285793451 * 2 ^ (max 46 47 - 47)) (max 46 47) = (5260650033481865, 45) := by decide
  have r7 : roundDyadic (91 * 5554439540423612) 53 = (7897718721539823, 47) := by decide
  have r8 : roundDyadic (115 * 6905519428634761) 54 = (6204177611664043, 47) := by decide
  have r9 : roundDyadic (7897718721539823 * 2 ^ (max 47 47 - 47) + 6204177611664043 * 2 ^ (max 47 47 - 47)) (max 47 47) = (7050948166601933, 46) := by decide
  simp only [floatInterpColor, floatInterpChannel, LOGO_START, LOGO_END, e1, e2,
    r1, r2, r3, r4, r5, r6, r7, r8, r9]
  decide

lemma logoRowFl47 : floatInterpColor LOGO_START LOGO_END 47 120 = (184, 149, 100) := by
  have e1 : roundFloat 47 120 = (7055639416213777, 54) := by decide
  have e2 : roundDyadic (2 ^ 54 - 7055639416213777) 54 = (5479379546634104, 53) := by decide
  have r1 : roundDyadic (179 * 5479379546634104) 53 = (7662569834746130, 46) := by decide
  have r2 : roundDyadic (194 * 7055639416213777) 54 = (5346851745099503, 46) := by decide
  have r3 : roundDyadic (7662569834746130 * 2 ^ (max 46 46 - 46) + 5346851745099503 * 2 ^ (max 46 46 - 46)) (max 46 46) = (6504710789922816, 45) := by decide
  have r4 : roundDyadic (143 * 5479379546634104) 53 = (6121494337255288, 46) := by decide
  have r5 : roundDyadic (160 * 7055639416213777) 54 = (8819549270267221, 47) := by decide
  have r6 : roundDyadic (6121494337255288 * 2 ^ (max 46 47 - 46) + 8819549270267221 * 2 ^ (max 46 47 - 47)) (max 46 47) = (5265634486194449, 45) := by decide
  have r7 : roundDyadic (91 * 5479379546634104) 53 = (7790992792870367, 47) := by decide
  have r8 : roundDyadic (115 * 7055639416213777) 54 = (6339051038004565, 47) := by decide
  have r9 : roundDyadic (7790992792870367 * 2 ^ (max 47 47 - 47) + 6339051038004565 * 2 ^ (max 47 47 - 47)) (max 47 47) = (7065021915437466, 46) := by decide
  simp only [floatInterpColor, floatInterpChannel, LOGO_START, LOGO_END, e1, e2,
    r1, r2, r3, r4, r5, r6, r7, r8, r9]
  decide

lemma logoRowFl48 : floatInterpColor LOGO_START LOGO_END 48 120 = (185, 149, 100) := by
  have e1 : roundFloat 48 120 = (7205759403792794, 54) := by decide
  have e2 : roundDyadic (2 ^ 54 - 7205759403792794) 54 = (5404319552844595, 53) := by decide
  have r1 : roundDyadic (179 * 5404319552844595) 53 = (7557603124681113, 46) := by decide
  have r2 : roundDyadic (194 * 7205759403792794) 54 = (5460614548186727, 46) := by decide
  have r3 : roundDyadic (7557603124681113 * 2 ^ (max 46 46 - 46) + 5460614548186727 * 2 ^ (max 46 46 - 46)) (max 46 46) = (6509108836433920, 45) := by decide
  have r4 : roundDyadic (143 * 5404319552844595) 53 = (6037638250443571, 46) := by decide
  have r5 : roundDyadic (160 * 7205759403792794) 54 = (4503599627370496, 46) := by decide
  have r6 : roundDyadic (6037638250443571 * 2 ^ (max 46 46 - 46) + 4503599627370496 * 2 ^ (max 46 46 - 46)) (max 46 46) = (5270618938907034, 45) := by decide
  have r7 : roundDyadic (91 * 5404319552844595) 53 = (7684266864200909, 47) := by decide
  have r8 : roundDyadic (115 * 7205759403792794) 54 = (6473924464345088, 47) := by decide
  have r9 : roundDyadic (7684266864200909 * 2 ^ (max 47 47 - 47) + 6473924464345088 * 2 ^ (max 47 47 - 47)) (max 47 47) = (7079095664272998, 46) := by decide
  simp only [floatInterpColor, floatInterpChannel, LOGO_START, LOGO_END, e1, e2,
    r1, r2, r3, r4, r5, r6, r7, r8, r9]
  decide

lemma logoRowFl49 : floatInterpColor LOGO_START LOGO_END 49 120 = (185, 149, 100) := by
  have e1 : roundFloat 49 120 = (7355879391371810, 54) := by decide
  have e2 : roundDyadic (2 ^ 54 - 7355879391371810) 54 = (5329259559055087, 53) := by decide
  have r1 : roundDyadic (179 * 5329259559055087) 53 = (7452636414616098, 46) := by decide
  have r2 : roundDyadic (194 * 7355879391371810) 54 = (5574377351273950, 46) := by decide
  have r3 : roundDyadic (7452636414616098 * 2 ^ (max 46 46 - 46) + 5574377351273950 * 2 ^ (max 46 46 - 46)) (max 46 46) = (6513506882945024, 45) := by decide
  have r4 : roundDyadic (143 * 5329259559055087) 53 = (5953782163631855, 46) := by decide
  have r5 : roundDyadic (160 * 7355879391371810) 54 = (4597424619607381, 46) := by decide
  have r6 : roundDyadic (5953782163631855 * 2 ^ (max 46 46 - 46) + 4597424619607381 * 2 ^ (max 46 46 - 46)) (max 46 46) = (5275603391619618, 45) := by decide
  have r7 : roundDyadic (91 * 5329259559055087) 53 = (7577540935531452, 47) := by decide
  have r8 : roundDyadic (115 * 7355879391371810) 54 = (6608797890685611, 47) := by decide
  have r9 : roundDyadic (7577540935531452 * 2 ^ (max 47 47 - 47) + 6608797890685611 * 2 ^ (max 47 47 - 47)) (max 47 47) = (7093169413108532, 46) := by decide
  simp only [floatInterpColor, floatInterpChannel, LOGO_START, LOGO_END, e1, e2,
    r1, r2, r3, r4, r5, r6, r7, r8, r9]
  decide

lemma logoRowFl50 : floatInterpColor LOGO_START LOGO_END 50 120 = (185, 150, 101) := by
  have e1 : roundFloat 50 120 = (7505999378950827, 54) := by decide
  have e2 : roundDyadic (2 ^ 54 - 7505999378950827) 54 = (5254199565265578, 53) := by decide
  have r1 : roundDyadic (179 * 5254199565265578) 53 = (7347669704551082, 46) := by decide
  have r2 : roundDyadic (194 * 7505999378950827) 54 = (5688140154361174, 46) := by decide
  have r3 : roundDyadic (7347669704551082 * 2 ^ (max 46 46 - 46) + 5688140154361174 * 2 ^ (max 46 46 - 46)) (max 46 46) = (6517904929456128, 45) := by decide
  have r4 : roundDyadic (143 * 5254199565265578) 53 = (5869926076820138, 46) := by decide
  have r5 : roundDyadic (160 * 7505999378950827) 54 = (4691249611844267, 46) := by decide
  have r6 : roundDyadic (5869926076820138 * 2 ^ (max 46 46 - 46) + 4691249611844267 * 2 ^ (max 46 46 - 46)) (max 46 46) = (5280587844332202, 45) := by decide
  have r7 : roundDyadic (91 * 5254199565265578) 53 = (7470815006861994, 47) := by decide
  have r8 : roundDyadic (115 * 7505999378950827) 54 = (6743671317026134, 47) := by decide
  have r9 : roundDyadic (7470815006861994 * 2 ^ (max 47 47 - 47) + 6743671317026134 * 2 ^ (max 47 47 - 47)) (max 47 47) = (7107243161944064, 46) := by decide
  simp only [floatInterpColor, floatInterpChannel, LOGO_START, LOGO_END, e1, e2,
    r1, r2, r3, r4, r5, r6, r7, r8, r9]
  decide

lemma logoRowFl51 : floatInterpColor LOGO_START LOGO_END 51 120 = (185, 150, 101) := by
  have e1 : roundFloat 51 120 = (7656119366529843, 54) := by decide
  have e2 : roundDyadic (2 ^ 54 - 7656119366529843) 54 = (5179139571476070, 53) := by decide
  have r1 : roundDyadic (179 * 5179139571476070) 53 = (7242702994486067, 46) := by decide
  have r2 : roundDyadic (194 * 7656119366529843) 54 = (5801902957448397, 46) := by decide
  have r3 : roundDyadic (7242702994486067 * 2 ^ (max 46 46 - 46) + 5801902957448397 * 2 ^ (max 46 46 - 46)) (max 46 46) = (6522302975967232, 45) := by decide
  have r4 : roundDyadic (143 * 5179139571476070) 53 = (5786069990008422, 46) := by decide
  have r5 : roundDyadic (160 * 7656119366529843) 54 = (4785074604081152, 46) := by decide
  have r6 : roundDyadic (5786069990008422 * 2 ^ (max 46 46 - 46) + 4785074604081152 * 2 ^ (max 46 46 - 46)) (max 46 46) = (5285572297044787, 45) := by decide
  have r7 : roundDyadic (91 * 5179139571476070) 53 = (7364089078192537, 47) := by decide
  have r8 : roundDyadic (115 * 7656119366529843) 54 = (6878544743366656, 47) := by decide
  have r9 : roundDyadic (7364089078192537 * 2 ^ (max 47 47 - 47) + 6878544743366656 * 2 ^ (max 47 47 - 47)) (max 47 47) = (7121316910779596, 46) := by decide
  simp only [floatInterpColor, floatInterpChannel, LOGO_START, LOGO_END, e1, e2,
    r1, r2, r3, r4, r5, r6, r7, r8, r9]
  decide

lemma logoRowFl52 : floatInterpColor LOGO_START LOGO_END 52 120 = (185, 150, 101) := by
  have e1 : roundFloat 52 120 = (7806239354108860, 54) := by decide
  have e2 : roundDyadic (2 ^ 54 - 7806239354108860) 54 = (5104079577686562, 53) := by decide
  have r1 : roundDyadic (179 * 5104079577686562) 53 = (7137736284421052, 46) := by decide
  have r2 : roundDyadic (194 * 7806239354108860) 54 = (5915665760535620, 46) := by decide
  have r3 : roundDyadic (7137736284421052 * 2 ^ (max 46 46 - 46) + 5915665760535620 * 2 ^ (max 46 46 - 46)) (max 46 46) = (6526701022478336, 45) := by decide
  have r4 : roundDyadic (143 * 5104079577686562) 53 = (5702213903196706, 46) := by decide
  have r5 : roundDyadic (160 * 7806239354108860) 54 = (4878899596318038, 46) := by decide
  have r6 : roundDyadic (5702213903196706 * 2 ^ (max 46 46 - 46) + 4878899596318038 * 2 ^ (max 46 46 - 46)) (max 46 46) = (5290556749757372, 45) := by decide
  have r7 : roundDyadic (91 * 5104079577686562) 53 = (7257363149523080, 47) := by decide
  have r8 : roundDyadic (115 * 7806239354108860) 54 = (7013418169707179, 47) := by decide
  have r9 : roundDyadic (7257363149523080 * 2 ^ (max 47 47 - 47) + 7013418169707179 * 2 ^ (max 47 47 - 47)) (max 47 47) = (7135390659615130, 46) := by decide
  simp only [floatInterpColor, floatInterpChannel, LOGO_START, LOGO_END, e1, e2,
    r1, r2, r3, r4, r5, r6, r7, r8, r9]
  decide

lemma logoRowFl53 : floatInterpColor LOGO_START LOGO_END 53 120 = (185, 150, 101) := by
  have e1 : roundFloat 53 120 = (7956359341687876, 54) := by decide
  have e2 : roundDyadic (2 ^ 54 - 7956359341687876) 54 = (5029019583897054, 53) := by decide
  have r1 : roundDyadic (179 * 5029019583897054) 53 = (7032769574356036, 46) := by decide
  have r2 : roundDyadic (194 * 7956359341687876) 54 = (6029428563622844, 46) := by decide
  have r3 : roundDyadic (7032769574356036 * 2 ^ (max 46 46 - 46) + 6029428563622844 * 2 ^ (max 46 46 - 46)) (max 46 46) = (6531099068989440, 45) := by decide
  have r4 : roundDyadic (143 * 5029019583897054) 53 = (5618357816384990, 46) := by decide
  have r5 : roundDyadic (160 * 7956359341687876) 54 = (4972724588554922, 46) := by decide
  have r6 : roundDyadic (5618357816384990 * 2 ^ (max 46 46 - 46) + 4972724588554922 * 2 ^ (max 46 46 - 46)) (max 46 46) = (5295541202469956, 45) := by decide
  have r7 : roundDyadic (91 * 5029019583897054) 53 = (7150637220853624, 47) := by decide
  have r8 : roundDyadic (115 * 7956359341687876) 54 = (7148291596047701, 47) := by decide
  have r9 : roundDyadic (7150637220853624 * 2 ^ (max 47 47 - 47) + 7148291596047701 * 2 ^ (max 47 47 - 47)) (max 47 47) = (7149464408450662, 46) := by decide
  simp only [floatInterpColor, floatInterpChannel, LOGO_START, LOGO_END, e1, e2,
    r1, r2, r3, r4, r5, r6, r7, r8, r9]
  decide

lemma logoRowFl54 : floatInterpColor LOGO_START LOGO_END 54 120 = (185, 150, 101) := by
  have e1 : roundFloat 54 120 = (8106479329266893, 54) := by decide
  have e2 : roundDyadic (2 ^ 54 - 8106479329266893) 54 = (4953959590107546, 53) := by decide
  have r1 : roundDyadic (179 * 4953959590107546) 53 = (6927802864291021, 46) := by decide
  have r2 : roundDyadic (194 * 8106479329266893) 54 = (6143191366710067, 46) := by decide
  have r3 : roundDyadic (6927802864291021 * 2 ^ (max 46 46 - 46) + 6143191366710067 * 2 ^ (max 46 46 - 46)) (max 46 46) = (6535497115500544, 45) := by decide
  have r4 : roundDyadic (143 * 4953959590107546) 53 = (5534501729573274, 46) := by decide
  have r5 : roundDyadic (160 * 8106479329266893) 54 = (5066549580791808, 46) := by decide
  have r6 : roundDyadic (5534501729573274 * 2 ^ (max 46 46 - 46) + 5066549580791808 * 2 ^ (max 46 46 - 46)) (max 46 46) = (5300525655182541, 45) := by decide
  have r7 : roundDyadic (91 * 4953959590107546) 53 = (7043911292184167, 47) := by decide
  have r8 : roundDyadic (115 * 8106479329266893) 54 = (7283165022388224, 47) := by decide
  have r9 : roundDyadic (7043911292184167 * 2 ^ (max 47 47 - 47) + 7283165022388224 * 2 ^ (max 47 47 - 47)) (max 47 47) = (7163538157286196, 46) := by decide
  simp only [floatInterpColor, floatInterpChannel, LOGO_START, LOGO_END, e1, e2,
    r1, r2, r3, r4, r5, r6, r7, r8, r9]
  decide

lemma logoRowFl55 : floatInterpColor LOGO_START LOGO_END 55 120 = (185, 150, 102) := by
  have e1 : roundFloat 55 120 = (8256599316845909, 54) := by decide
  have e2 : roundDyadic (2 ^ 54 - 8256599316845909) 54 = (4878899596318038, 53) := by decide
  have r1 : roundDyadic (179 * 4878899596318038) 53 = (6822836154226006, 46) := by decide
  have r2 : roundDyadic (194 * 8256599316845909) 54 = (6256954169797290, 46) := by decide
  have r3 : roundDyadic (6822836154226006 * 2 ^ (max 46 46 - 46) + 6256954169797290 * 2 ^ (max 46 46 - 46)) (max 46 46) = (6539895162011648, 45) := by decide
  have r4 : roundDyadic (143 * 4878899596318038) 53 = (5450645642761558, 46) := by decide
  have r5 : roundDyadic (160 * 8256599316845909) 54 = (5160374573028693, 46) := by decide
  have r6 : roundDyadic (5450645642761558 * 2 ^ (max 46 46 - 46) + 5160374573028693 * 2 ^ (max 46 46 - 46)) (max 46 46) = (5305510107895126, 45) := by decide
  have r7 : roundDyadic (91 * 4878899596318038) 53 = (6937185363514710, 47) := by decide
  have r8 : roundDyadic (115 * 8256599316845909) 54 = (7418038448728746, 47) := by decide
  have r9 : roundDyadic (6937185363514710 * 2 ^ (max 47 47 - 47) + 7418038448728746 * 2 ^ (max 47 47 - 47)) (max 47 47) = (7177611906121728, 46) := by decide
  simp only [floatInterpColor, floatInterpChannel, LOGO_START, LOGO_END, e1, e2,
    r1, r2, r3, r4, r5, r6, r7, r8, r9]
  decide

lemma logoRowFl56 : floatInterpColor LOGO_START LOGO_END 56 120 = (186, 150, 102) := by
  have e1 : roundFloat 56 120 = (8406719304424926, 54) := by decide
  have e2 : roundDyadic (2 ^ 54 - 8406719304424926) 54 = (4803839602528529, 53) := by decide
  have r1 : roundDyadic (179 * 4803839602528529) 53 = (6717869444160990, 46) := by decide
  have r2 : roundDyadic (194 * 8406719304424926) 54 = (6370716972884514, 46) := by decide
  have r3 : roundDyadic (6717869444160990 * 2 ^ (max 46 46 - 46) + 6370716972884514 * 2 ^ (max 46 46 - 46)) (max 46 46) = (6544293208522752, 45) := by decide
  have r4 : roundDyadic (143 * 4803839602528529) 53 = (5366789555949841, 46) := by decide
  have r5 : roundDyadic (160 * 8406719304424926) 54 = (5254199565265579, 46) := by decide
  have r6 : roundDyadic (5366789555949841 * 2 ^ (max 46 46 - 46) + 5254199565265579 * 2 ^ (max 46 46 - 46)) (max 46 46) = (5310494560607710, 45) := by decide
  have r7 : roundDyadic (91 * 4803839602528529) 53 = (6830459434845252, 47) := by decide
  have r8 : roundDyadic (115 * 8406719304424926) 54 = (7552911875069269, 47) := by decide
  have r9 : roundDyadic (6830459434845252 * 2 ^ (max 47 47 - 47) + 7552911875069269 * 2 ^ (max 47 47 - 47)) (max 47 47) = (7191685654957260, 46) := by decide
  simp only [floatInterpColor, floatInterpChannel, LOGO_START, LOGO_END, e1, e2,
    r1, r2, r3, r4, r5, r6, r7, r8, r9]
  decide

lemma logoRowFl57 : floatInterpColor LOGO_START LOGO_END 57 120 = (186, 151, 102) := by
  have e1 : roundFloat 57 120 = (8556839292003942, 54) := by decide
  have e2 : roundDyadic (2 ^ 54 - 8556839292003942) 54 = (4728779608739021, 53) := by decide
  have r1 : roundDyadic (179 * 4728779608739021) 53 = (6612902734095975, 46) := by decide
  have r2 : roundDyadic (194 * 8556839292003942) 54 = (6484479775971737, 46) := by decide
  have r3 : roundDyadic (6612902734095975 * 2 ^ (max 46 46 - 46) + 6484479775971737 * 2 ^ (max 46 46 - 46)) (max 46 46) = (6548691255033856, 45) := by decide
  have r4 : roundDyadic (143 * 4728779608739021) 53 = (5282933469138125, 46) := by decide
  have r5 : roundDyadic (160 * 8556839292003942) 54 = (5348024557502464, 46) := by decide
  have r6 : roundDyadic (5282933469138125 * 2 ^ (max 46 46 - 46) + 5348024557502464 * 2 ^ (max 46 46 - 46)) (max 46 46) = (5315479013320294, 45) := by decide
  have r7 : roundDyadic (91 * 4728779608739021) 53 = (6723733506175795, 47) := by decide
  have r8 : roundDyadic (115 * 8556839292003942) 54 = (7687785301409792, 47) := by decide
  have r9 : roundDyadic (6723733506175795 * 2 ^ (max 47 47 - 47) + 7687785301409792 * 2 ^ (max 47 47 - 47)) (max 47 47) = (7205759403792794, 46) := by decide
  simp only [floatInterpColor, floatInterpChannel, LOGO_START, LOGO_END, e1, e2,
    r1, r2, r3, r4, r5, r6, r7, r8, r9]
  decide

lemma logoRowFl58 : floatInterpColor LOGO_START LOGO_END 58 120 = (186, 151, 102) := by
  have e1 : roundFloat 58 120 = (8706959279582959, 54) := by decide
  have e2 : roundDyadic (2 ^ 54 - 8706959279582959) 54 = (4653719614949512, 53) := by decide
  have r1 : roundDyadic (179 * 4653719614949512) 53 = (6507936024030958, 46) := by decide
  have r2 : roundDyadic (194 * 8706959279582959) 54 = (6598242579058961, 46) := by decide
  have r3 : roundDyadic (6507936024030958 * 2 ^ (max 46 46 - 46) + 6598242579058961 * 2 ^ (max 46 46 - 46)) (max 46 46) = (6553089301544960, 45) := by decide
  have r4 : roundDyadic (143 * 4653719614949512) 53 = (5199077382326408, 46) := by decide
  have r5 : roundDyadic (160 * 8706959279582959) 54 = (5441849549739349, 46) := by decide
  have r6 : roundDyadic (5199077382326408 * 2 ^ (max 46 46 - 46) + 5441849549739349 * 2 ^ (max 46 46 - 46)) (max 46 46) = (5320463466032878, 45) := by decide
  have r7 : roundDyadic (91 * 4653719614949512) 53 = (6617007577506337, 47) := by decide
  have r8 : roundDyadic (115 * 8706959279582959) 54 = (7822658727750315, 47) := by decide
  have r9 : roundDyadic (6617007577506337 * 2 ^ (max 47 47 - 47) + 7822658727750315 * 2 ^ (max 47 47 - 47)) (max 47 47) = (7219833152628326, 46) := by decide
  simp only [floatInterpColor, floatInterpChannel, LOGO_START, LOGO_END, e1, e2,
    r1, r2, r3, r4, r5, r6, r7, r8, r9]
  decide

lemma logoRowFl59 : floatInterpColor LOGO_START LOGO_END 59 120 = (186, 151, 102) := by
  have e1 : roundFloat 59 120 = (8857079267161975, 54) := by decide
  have e2 : roundDyadic (2 ^ 54 - 8857079267161975) 54 = (4578659621160004, 53) := by decide
  have r1 : roundDyadic (179 * 4578659621160004) 53 = (6402969313965943, 46) := by decide
  have r2 : roundDyadic (194 * 8857079267161975) 54 = (6712005382146184, 46) := by decide
  have r3 : roundDyadic (6402969313965943 * 2 ^ (max 46 46 - 46) + 6712005382146184 * 2 ^ (max 46 46 - 46)) (max 46 46) = (6557487348056064, 45) := by decide
  have r4 : roundDyadic (143 * 4578659621160004) 53 = (5115221295514692, 46) := by decide
  have r5 : roundDyadic (160 * 8857079267161975) 54 = (5535674541976234, 46) := by decide
  have r6 : roundDyadic (5115221295514692 * 2 ^ (max 46 46 - 46) + 5535674541976234 * 2 ^ (max 46 46 - 46)) (max 46 46) = (5325447918745463, 45) := by decide
  have r7 : roundDyadic (91 * 4578659621160004) 53 = (6510281648836881, 47) := by decide
  have r8 : roundDyadic (115 * 8857079267161975) 54 = (7957532154090837, 47) := by decide
  have r9 : roundDyadic (6510281648836881 * 2 ^ (max 47 47 - 47) + 7957532154090837 * 2 ^ (max 47 47 - 47)) (max 47 47) = (7233906901463859, 46) := by decide
  simp only [floatInterpColor, floatInterpChannel, LOGO_START, LOGO_END, e1, e2,
    r1, r2, r3, r4, r5, r6, r7, r8, r9]
  decide

lemma logoRowFl60 : floatInterpColor LOGO_START LOGO_END 60 120 = (186, 151, 103) := by
  have e1 : roundFloat 60 120 = (4503599627370496, 53) := by decide
  have e2 : roundDyadic (2 ^ 53 - 4503599627370496) 53 = (4503599627370496, 53) := by decide
  have r1 : roundDyadic (179 * 4503599627370496) 53 = (6298002603900928, 46) := by decide
  have r2 : roundDyadic (194 * 4503599627370496) 53 = (6825768185233408, 46) := by decide
  have r3 : roundDyadic (6298002603900928 * 2 ^ (max 46 46 - 46) + 6825768185233408 * 2 ^ (max 46 46 - 46)) (max 46 46) = (6561885394567168, 45) := by decide
  have r4 : roundDyadic (143 * 4503599627370496) 53 = (5031365208702976, 46) := by decide
  have r5 : roundDyadic (160 * 4503599627370496) 53 = (5629499534213120, 46) := by decide
  have r6 : roundDyadic (5031365208702976 * 2 ^ (max 46 46 - 46) + 5629499534213120 * 2 ^ (max 46 46 - 46)) (max 46 46) = (5330432371458048, 45) := by decide
  have r7 : roundDyadic (91 * 4503599627370496) 53 = (6403555720167424, 47) := by decide
  have r8 : roundDyadic (115 * 4503599627370496) 53 = (8092405580431360, 47) := by decide
  have r9 : roundDyadic (6403555720167424 * 2 ^ (max 47 47 - 47) + 8092405580431360 * 2 ^ (max 47 47 - 47)) (max 47 47) = (7247980650299392, 46) := by decide
  simp only [floatInterpColor, floatInterpChannel, LOGO_START, LOGO_END, e1, e2,
    r1, r2, r3, r4, r5, r6, r7, r8, r9]
  decide

lemma logoRowFl61 : floatInterpColor LOGO_START LOGO_END 61 120 = (186, 151, 103) := by
  have e1 : roundFloat 61 120 = (4578659621160004, 53) := by decide
  have e2 : roundDyadic (2 ^ 53 - 4578659621160004) 53 = (4428539633580988, 53) := by decide
  have r1 : roundDyadic (179 * 4428539633580988) 53 = (6193035893835913, 46) := by decide
  have r2 : roundDyadic (194 * 4578659621160004) 53 = (6939530988320631, 46) := by decide
  have r3 : roundDyadic (6193035893835913 * 2 ^ (max 46 46 - 46) + 6939530988320631 * 2 ^ (max 46 46 - 46)) (max 46 46) = (6566283441078272, 45) := by decide
  have r4 : roundDyadic (143 * 4428539633580988) 53 = (4947509121891260, 46) := by decide
  have r5 : roundDyadic (160 * 4578659621160004) 53 = (5723324526450005, 46) := by decide
  have r6 : roundDyadic (4947509121891260 * 2 ^ (max 46 46 - 46) + 5723324526450005 * 2 ^ (max 46 46 - 46)) (max 46 46) = (5335416824170632, 45) := by decide
  have r7 : roundDyadic (91 * 4428539633580988) 53 = (6296829791497967, 47) := by decide
  have r8 : roundDyadic (115 * 4578659621160004) 53 = (8227279006771882, 47) := by decide
  have r9 : roundDyadic (6296829791497967 * 2 ^ (max 47 47 - 47) + 8227279006771882 * 2 ^ (max 47 47 - 47)) (max 47 47) = (7262054399134924, 46) := by decide
  simp only [floatInterpColor, floatInterpChannel, LOGO_START, LOGO_END, e1, e2,
    r1, r2, r3, r4, r5, r6, r7, r8, r9]
  decide

lemma logoRowFl62 : floatInterpColor LOGO_START LOGO_END 62 120 = (186, 151, 103) := by
  have e1 : roundFloat 62 120 = (4653719614949513, 53) := by decide
  have e2 : roundDyadic (2 ^ 53 - 4653719614949513) 53 = (4353479639791479, 53) := by decide
  have r1 : roundDyadic (179 * 4353479639791479) 53 = (6088069183770896, 46) := by decide
  have r2 : roundDyadic (194 * 4653719614949513) 53 = (7053293791407856, 46) := by decide
  have r3 : roundDyadic (6088069183770896 * 2 ^ (max 46 46 - 46) + 7053293791407856 * 2 ^ (max 46 46 - 46)) (max 46 46) = (6570681487589376, 45) := by decide
  have r4 : roundDyadic (143 * 4353479639791479) 53 = (4863653035079543, 46) := by decide
  have r5 : roundDyadic (160 * 4653719614949513) 53 = (5817149518686891, 46) := by decide
  have r6 : roundDyadic (4863653035079543 * 2 ^ (max 46 46 - 46) + 5817149518686891 * 2 ^ (max 46 46 - 46)) (max 46 46) = (5340401276883217, 45) := by decide
  have r7 : roundDyadic (91 * 4353479639791479) 53 = (6190103862828509, 47) := by decide
  have r8 : roundDyadic (115 * 4653719614949513) 53 = (8362152433112406, 47) := by decide
  have r9 : roundDyadic (6190103862828509 * 2 ^ (max 47 47 - 47) + 8362152433112406 * 2 ^ (max 47 47 - 47)) (max 47 47) = (7276128147970458, 46) := by decide
  simp only [floatInterpColor, floatInterpChannel, LOGO_START, LOGO_END, e1, e2,
    r1, r2, r3, r4, r5, r6, r7, r8, r9]
  decide

lemma logoRowFl63 : floatInterpColor LOGO_START LOGO_END 63 120 = (186, 151, 103) := by
  have e1 : roundFloat 63 120 = (4728779608739021, 53) := by decide
  have e2 : roundDyadic (2 ^ 53 - 4728779608739021) 53 = (4278419646001971, 53) := by decide
  have r1 : roundDyadic (179 * 4278419646001971) 53 = (5983102473705881, 46) := by decide
  have r2 : roundDyadic (194 * 4728779608739021) 53 = (7167056594495079, 46) := by decide
  have r3 : roundDyadic (5983102473705881 * 2 ^ (max 46 46 - 46) + 7167056594495079 * 2 ^ (max 46 46 - 46)) (max 46 46) = (6575079534100480, 45) := by decide
  have r4 : roundDyadic (143 * 4278419646001971) 53 = (4779796948267827, 46) := by decide
  have r5 : roundDyadic (160 * 4728779608739021) 53 = (5910974510923776, 46) := by decide
  have r6 : roundDyadic (4779796948267827 * 2 ^ (max 46 46 - 46) + 5910974510923776 * 2 ^ (max 46 46 - 46)) (max 46 46) = (5345385729595802, 45) := by decide
  have r7 : roundDyadic (91 * 4278419646001971) 53 = (6083377934159053, 47) := by decide
  have r8 : roundDyadic (115 * 4728779608739021) 53 = (8497025859452928, 47) := by decide
  have r9 : roundDyadic (6083377934159053 * 2 ^ (max 47 47 - 47) + 8497025859452928 * 2 ^ (max 47 47 - 47)) (max 47 47) = (7290201896805990, 46) := by decide
  simp only [floatInterpColor, floatInterpChannel, LOGO_START, LOGO_END, e1, e2,
    r1, r2, r3, r4, r5, r6, r7, r8, r9]
  decide

lemma logoRowFl64 : floatInterpColor LOGO_START LOGO_END 64 120 = (187, 152, 103) := by
  have e1 : roundFloat 64 120 = (4803839602528529, 53) := by decide
  have e2 : roundDyadic (2 ^ 53 - 4803839602528529) 53 = (4203359652212463, 53) := by decide
  have r1 : roundDyadic (179 * 4203359652212463) 53 = (5878135763640866, 46) := by decide
  have r2 : roundDyadic (194 * 4803839602528529) 53 = (7280819397582302, 46) := by decide
  have r3 : roundDyadic (5878135763640866 * 2 ^ (max 46 46 - 46) + 7280819397582302 * 2 ^ (max 46 46 - 46)) (max 46 46) = (6579477580611584, 45) := by decide
  have r4 : roundDyadic (143 * 4203359652212463) 53 = (4695940861456111, 46) := by decide
  have r5 : roundDyadic (160 * 4803839602528529) 53 = (6004799503160661, 46) := by decide
  have r6 : roundDyadic (4695940861456111 * 2 ^ (max 46 46 - 46) + 6004799503160661 * 2 ^ (max 46 46 - 46)) (max 46 46) = (5350370182308386, 45) := by decide
  have r7 : roundDyadic (91 * 4203359652212463) 53 = (5976652005489596, 47) := by decide
  have r8 : roundDyadic (115 * 4803839602528529) 53 = (8631899285793451, 47) := by decide
  have r9 : roundDyadic (5976652005489596 * 2 ^ (max 47 47 - 47) + 8631899285793451 * 2 ^ (max 47 47 - 47)) (max 47 47) = (7304275645641524, 46) := by decide
  simp only [floatInterpColor, floatInterpChannel, LOGO_START, LOGO_END, e1, e2,
    r1, r2, r3, r4, r5, r6, r7, r8, r9]
  decide

lemma logoRowFl65 : floatInterpColor LOGO_START LOGO_END 65 120 = (187, 152, 104) := by
  have e1 : roundFloat 65 120 = (4878899596318037, 53) := by decide
  have e2 : roundDyadic (2 ^ 53 - 4878899596318037) 53 = (4128299658422955, 53) := by decide
  have r1 : roundDyadic (179 * 4128299658422955) 53 = (5773169053575851, 46) := by decide
  have r2 : roundDyadic (194 * 4878899596318037) 53 = (7394582200669525, 46) := by decide
  have r3 : roundDyadic (5773169053575851 * 2 ^ (max 46 46 - 46) + 7394582200669525 * 2 ^ (max 46 46 - 46)) (max 46 46) = (6583875627122688, 45) := by decide
  have r4 : roundDyadic (143 * 4128299658422955) 53 = (4612084774644395, 46) := by decide
  have r5 : roundDyadic (160 * 4878899596318037) 53 = (6098624495397546, 46) := by decide
  have r6 : roundDyadic (4612084774644395 * 2 ^ (max 46 46 - 46) + 6098624495397546 * 2 ^ (max 46 46 - 46)) (max 46 46) = (5355354635020970, 45) := by decide
  have r7 : roundDyadic (91 * 4128299658422955) 53 = (5869926076820139, 47) := by decide
  have r8 : roundDyadic (115 * 4878899596318037) 53 = (8766772712133973, 47) := by decide
  have r9 : roundDyadic (5869926076820139 * 2 ^ (max 47 47 - 47) + 8766772712133973 * 2 ^ (max 47 47 - 47)) (max 47 47) = (7318349394477056, 46) := by decide
  simp only [floatInterpColor, floatInterpChannel, LOGO_START, LOGO_END, e1, e2,
    r1, r2, r3, r4, r5, r6, r7, r8, r9]
  decide

lemma logoRowFl66 : floatInterpColor LOGO_START LOGO_END 66 120 = (187, 152, 104) := by
  have e1 : roundFloat 66 120 = (4953959590107546, 53) := by decide
  have e2 : roundDyadic (2 ^ 53 - 4953959590107546) 53 = (4053239664633446, 53) := by decide
  have r1 : roundDyadic (179 * 4053239664633446) 53 = (5668202343510835, 46) := by decide
  have r2 : roundDyadic (194 * 4953959590107546) 53 = (7508345003756749, 46) := by decide
  have r3 : roundDyadic (5668202343510835 * 2 ^ (max 46 46 - 46) + 7508345003756749 * 2 ^ (max 46 46 - 46)) (max 46 46) = (6588273673633792, 45) := by decide
  have r4 : roundDyadic (143 * 4053239664633446) 53 = (4528228687832678, 46) := by decide
  have r5 : roundDyadic (160 * 4953959590107546) 53 = (6192449487634432, 46) := by decide
  have r6 : roundDyadic (4528228687832678 * 2 ^ (max 46 46 - 46) + 6192449487634432 * 2 ^ (max 46 46 - 46)) (max 46 46) = (5360339087733555, 45) := by decide
  have r7 : roundDyadic (91 * 4053239664633446) 53 = (5763200148150681, 47) := by decide
  have r8 : roundDyadic (115 * 4953959590107546) 53 = (8901646138474497, 47) := by decide
  have r9 : roundDyadic (5763200148150681 * 2 ^ (max 47 47 - 47) + 8901646138474497 * 2 ^ (max 47 47 - 47)) (max 47 47) = (7332423143312589, 46) := by decide
  simp only [floatInterpColor, floatInterpChannel, LOGO_START, LOGO_END, e1, e2,
    r1, r2, r3, r4, r5, r6, r7, r8, r9]
  decide

lemma logoRowFl67 : floatInterpColor LOGO_START LOGO_END 67 120 = (187, 152, 104) := by
  have e1 : roundFloat 67 120 = (5029019583897054, 53) := by decide
  have e2 : roundDyadic (2 ^ 53 - 5029019583897054) 53 = (3978179670843938, 53) := by decide
  have r1 : roundDyadic (179 * 3978179670843938) 53 = (5563235633445820, 46) := by decide
  have r2 : roundDyadic (194 * 5029019583897054) 53 = (7622107806843972, 46) := by decide
  have r3 : roundDyadic (5563235633445820 * 2 ^ (max 46 46 - 46) + 7622107806843972 * 2 ^ (max 46 46 - 46)) (max 46 46) = (6592671720144896, 45) := by decide
  have r4 : roundDyadic (143 * 3978179670843938) 53 = (8888745202041924, 47) := by decide
  have r5 : roundDyadic (160 * 5029019583897054) 53 = (6286274479871318, 46) := by decide
  have r6 : roundDyadic (8888745202041924 * 2 ^ (max 47 46 - 47) + 6286274479871318 * 2 ^ (max 47 46 - 46)) (max 47 46) = (5365323540446140, 45) := by decide
  have r7 : roundDyadic (91 * 3978179670843938) 53 = (5656474219481224, 47) := by decide
  have r8 : roundDyadic (115 * 5029019583897054) 53 = (4518259782407509, 46) := by decide
  have r9 : roundDyadic (5656474219481224 * 2 ^ (max 47 46 - 47) + 4518259782407509 * 2 ^ (max 47 46 - 46)) (max 47 46) = (7346496892148121, 46) := by decide
  simp only [floatInterpColor, floatInterpChannel, LOGO_START, LOGO_END, e1, e2,
    r1, r2, r3, r4, r5, r6, r7, r8, r9]
  decide

lemma logoRowFl68 : floatInterpColor LOGO_START LOGO_END 68 120 = (187, 152, 104) := by
  have e1 : roundFloat 68 120 = (5104079577686562, 53) := by decide
  have e2 : roundDyadic (2 ^ 53 - 5104079577686562) 53 = (3903119677054430, 53) := by decide
  have r1 : roundDyadic (179 * 3903119677054430) 53 = (5458268923380804, 46) := by decide
  have r2 : roundDyadic (194 * 5104079577686562) 53 = (7735870609931196, 46) := by decide
  have r3 : roundDyadic (5458268923380804 * 2 ^ (max 46 46 - 46) + 7735870609931196 * 2 ^ (max 46 46 - 46)) (max 46 46) = (6597069766656000, 45) := by decide
  have r4 : roundDyadic (143 * 3903119677054430) 53 = (8721033028418492, 47) := by decide
  have r5 : roundDyadic (160 * 5104079577686562) 53 = (6380099472108202, 46) := by decide
  have r6 : roundDyadic (8721033028418492 * 2 ^ (max 47 46 - 47) + 6380099472108202 * 2 ^ (max 47 46 - 46)) (max 47 46) = (5370307993158724, 45) := by decide
  have r7 : roundDyadic (91 * 3903119677054430) 53 = (5549748290811768, 47) := by decide
  have r8 : roundDyadic (115 * 5104079577686562) 53 = (4585696495577771, 46) := by decide
  have r9 : roundDyadic (5549748290811768 * 2 ^ (max 47 46 - 47) + 4585696495577771 * 2 ^ (max 47 46 - 46)) (max 47 46) = (7360570640983655, 46) := by decide
  simp only [floatInterpColor, floatInterpChannel, LOGO_START, LOGO_END, e1, e2,
    r1, r2, r3, r4, r5, r6, r7, r8, r9]
  decide

lemma logoRowFl69 : floatInterpColor LOGO_START LOGO_END 69 120 = (187, 152, 104) := by
  have e1 : roundFloat 69 120 = (5179139571476070, 53) := by decide
  have e2 : roundDyadic (2 ^ 53 - 5179139571476070) 53 = (3828059683264922, 53) := by decide
  have r1 : roundDyadic (179 * 3828059683264922) 53 = (5353302213315789, 46) := by decide
  have r2 : roundDyadic (194 * 5179139571476070) 53 = (7849633413018419, 46) := by decide
  have r3 : roundDyadic (5353302213315789 * 2 ^ (max 46 46 - 46) + 7849633413018419 * 2 ^ (max 46 46 - 46)) (max 46 46) = (6601467813167104, 45) := by decide
  have r4 : roundDyadic (143 * 3828059683264922) 53 = (8553320854795060, 47) := by decide
  have r5 : roundDyadic (160 * 5179139571476070) 53 = (6473924464345088, 46) := by decide
  have r6 : roundDyadic (8553320854795060 * 2 ^ (max 47 46 - 47) + 6473924464345088 * 2 ^ (max 47 46 - 46)) (max 47 46) = (5375292445871309, 45) := by decide
  have r7 : roundDyadic (91 * 3828059683264922) 53 = (5443022362142311, 47) := by decide
  have r8 : roundDyadic (115 * 5179139571476070) 53 = (4653133208748032, 46) := by decide
  have r9 : roundDyadic (5443022362142311 * 2 ^ (max 47 46 - 47) + 4653133208748032 * 2 ^ (max 47 46 - 46)) (max 47 46) = (7374644389819188, 46) := by decide
  simp only [floatInterpColor, floatInterpChannel, LOGO_START, LOGO_END, e1, e2,
    r1, r2, r3, r4, r5, r6, r7, r8, r9]
  decide

lemma logoRowFl70 : floatInterpColor LOGO_START LOGO_END 70 120 = (187, 152, 105) := by
  have e1 : roundFloat 70 120 = (5254199565265579, 53) := by decide
  have e2 : roundDyadic (2 ^ 53 - 5254199565265579) 53 = (3752999689475413, 53) := by decide
  have r1 : roundDyadic (179 * 3752999689475413) 53 = (5248335503250773, 46) := by decide
  have r2 : roundDyadic (194 * 5254199565265579) 53 = (7963396216105643, 46) := by decide
  have r3 : roundDyadic (5248335503250773 * 2 ^ (max 46 46 - 46) + 7963396216105643 * 2 ^ (max 46 46 - 46)) (max 46 46) = (6605865859678208, 45) := by decide
  have r4 : roundDyadic (143 * 3752999689475413) 53 = (8385608681171626, 47) := by decide
  have r5 : roundDyadic (160 * 5254199565265579) 53 = (6567749456581974, 46) := by decide
  have r6 : roundDyadic (8385608681171626 * 2 ^ (max 47 46 - 47) + 6567749456581974 * 2 ^ (max 47 46 - 46)) (max 47 46) = (5380276898583894, 45) := by decide
  have r7 : roundDyadic (91 * 3752999689475413) 53 = (5336296433472853, 47) := by decide
  have r8 : roundDyadic (115 * 5254199565265579) 53 = (4720569921918294, 46) := by decide
  have r9 : roundDyadic (5336296433472853 * 2 ^ (max 47 46 - 47) + 4720569921918294 * 2 ^ (max 47 46 - 46)) (max 47 46) = (7388718138654720, 46) := by decide
  simp only [floatInterpColor, floatInterpChannel, LOGO_START, LOGO_END, e1, e2,
    r1, r2, r3, r4, r5, r6, r7, r8, r9]
  decide

lemma logoRowFl71 : floatInterpColor LOGO_START LOGO_END 71 120 = (187, 153, 105) := by
  have e1 : roundFloat 71 120 = (5329259559055087, 53) := by decide
  have e2 : roundDyadic (2 ^ 53 - 5329259559055087) 53 = (3677939695685905, 53) := by decide
  have r1 : roundDyadic (179 * 3677939695685905) 53 = (5143368793185758, 46) := by decide
  have r2 : roundDyadic (194 * 5329259559055087) 53 = (8077159019192866, 46) := by decide
  have r3 : roundDyadic (5143368793185758 * 2 ^ (max 46 46 - 46) + 8077159019192866 * 2 ^ (max 46 46 - 46)) (max 46 46) = (6610263906189312, 45) := by decide
  have r4 : roundDyadic (143 * 3677939695685905) 53 = (8217896507548194, 47) := by decide
  have r5 : roundDyadic (160 * 5329259559055087) 53 = (6661574448818859, 46) := by decide
  have r6 : roundDyadic (8217896507548194 * 2 ^ (max 47 46 - 47) + 6661574448818859 * 2 ^ (max 47 46 - 46)) (max 47 46) = (5385261351296478, 45) := by decide
  have r7 : roundDyadic (91 * 3677939695685905) 53 = (5229570504803396, 47) := by decide
  have r8 : roundDyadic (115 * 5329259559055087) 53 = (4788006635088555, 46) := by decide
  have r9 : roundDyadic (5229570504803396 * 2 ^ (max 47 46 - 47) + 4788006635088555 * 2 ^ (max 47 46 - 46)) (max 47 46) = (7402791887490253, 46) := by decide
  simp only [floatInterpColor, floatInterpChannel, LOGO_START, LOGO_END, e1, e2,
    r1, r2, r3, r4, r5, r6, r7, r8, r9]
  decide

lemma logoRowFl72 : floatInterpColor LOGO_START LOGO_END 72 120 = (188, 153, 105) := by
  have e1 : roundFloat 72 120 = (5404319552844595, 53) := by decide
  have e2 : roundDyadic (2 ^ 53 - 5404319552844595) 53 = (3602879701896397, 53) := by decide
  have r1 : roundDyadic (179 * 3602879701896397) 53 = (5038402083120743, 46) := by decide
  have r2 : roundDyadic (194 * 5404319552844595) 53 = (8190921822280089, 46) := by decide
  have r3 : roundDyadic (5038402083120743 * 2 ^ (max 46 46 - 46) + 8190921822280089 * 2 ^ (max 46 46 - 46)) (max 46 46) = (6614661952700416, 45) := by decide
  have r4 : roundDyadic (143 * 3602879701896397) 53 = (8050184333924762, 47) := by decide
  have r5 : roundDyadic (160 * 5404319552844595) 53 = (6755399441055744, 46) := by decide
  have r6 : roundDyadic (8050184333924762 * 2 ^ (max 47 46 - 47) + 6755399441055744 * 2 ^ (max 47 46 - 46)) (max 47 46) = (5390245804009062, 45) := by decide
  have r7 : roundDyadic (91 * 3602879701896397) 53 = (5122844576133939, 47) := by decide
  have r8 : roundDyadic (115 * 5404319552844595) 53 = (4855443348258816, 46) := by decide
  have r9 : roundDyadic (5122844576133939 * 2 ^ (max 47 46 - 47) + 4855443348258816 * 2 ^ (max 47 46 - 46)) (max 47 46) = (7416865636325786, 46) := by decide
  simp only [floatInterpColor, floatInterpChannel, LOGO_START, LOGO_END, e1, e2,
    r1, r2, r3, r4, r5, r6, r7, r8, r9]
  decide

lemma logoRowFl73 : floatInterpColor LOGO_START LOGO_END 73 120 = (188, 153, 105) := by
  have e1 : roundFloat 73 120 = (5479379546634103, 53) := by decide
  have e2 : roundDyadic (2 ^ 53 - 5479379546634103) 53 = (3527819708106889, 53) := by decide
  have r1 : roundDyadic (179 * 3527819708106889) 53 = (4933435373055728, 46) := by decide
  have r2 : roundDyadic (194 * 5479379546634103) 53 = (8304684625367312, 46) := by decide
  have r3 : roundDyadic (4933435373055728 * 2 ^ (max 46 46 - 46) + 8304684625367312 * 2 ^ (max 46 46 - 46)) (max 46 46) = (6619059999211520, 45) := by decide
  have r4 : roundDyadic (143 * 3527819708106889) 53 = (7882472160301330, 47) := by decide
  have r5 : roundDyadic (160 * 5479379546634103) 53 = (6849224433292629, 46) := by decide
  have r6 : roundDyadic (7882472160301330 * 2 ^ (max 47 46 - 47) + 6849224433292629 * 2 ^ (max 47 46 - 46)) (max 47 46) = (5395230256721647, 45) := by decide
  have r7 : roundDyadic (91 * 3527819708106889) 53 = (5016118647464483, 47) := by decide
  have r8 : roundDyadic (115 * 5479379546634103) 53 = (4922880061429077, 46) := by decide
  have r9 : roundDyadic (5016118647464483 * 2 ^ (max 47 46 - 47) + 4922880061429077 * 2 ^ (max 47 46 - 46)) (max 47 46) = (7430939385161318, 46) := by decide
  simp only [floatInterpColor, floatInterpChannel, LOGO_START, LOGO_END, e1, e2,
    r1, r2, r3, r4, r5, r6, r7, r8, r9]
  decide

lemma logoRowFl74 : floatInterpColor LOGO_START LOGO_END 74 120 = (188, 153, 105) := by
  have e1 : roundFloat 74 120 = (5554439540423612, 53) := by decide
  have e2 : roundDyadic (2 ^ 53 - 5554439540423612) 53 = (3452759714317380, 53) := by decide
  have r1 : roundDyadic (179 * 3452759714317380) 53 = (4828468662990711, 46) := by decide
  have r2 : roundDyadic (194 * 5554439540423612) 53 = (8418447428454537, 46) := by decide
  have r3 : roundDyadic (4828468662990711 * 2 ^ (max 46 46 - 46) + 8418447428454537 * 2 ^ (max 46 46 - 46)) (max 46 46) = (6623458045722624, 45) := by decide
  have r4 : roundDyadic (143 * 3452759714317380) 53 = (7714759986677896, 47) := by decide
  have r5 : roundDyadic (160 * 5554439540423612) 53 = (6943049425529515, 46) := by decide
  have r6 : roundDyadic (7714759986677896 * 2 ^ (max 47 46 - 47) + 6943049425529515 * 2 ^ (max 47 46 - 46)) (max 47 46) = (5400214709434232, 45) := by decide
  have r7 : roundDyadic (91 * 3452759714317380) 53 = (4909392718795025, 47) := by decide
  have r8 : roundDyadic (115 * 5554439540423612) 53 = (4990316774599339, 46) := by decide
  have r9 : roundDyadic (4909392718795025 * 2 ^ (max 47 46 - 47) + 4990316774599339 * 2 ^ (max 47 46 - 46)) (max 47 46) = (7445013133996852, 46) := by decide
  simp only [floatInterpColor, floatInterpChannel, LOGO_START, LOGO_END, e1, e2,
    r1, r2, r3, r4, r5, r6, r7, r8, r9]
  decide

lemma logoRowFl75 : floatInterpColor LOGO_START LOGO_END 75 120 = (188, 153, 106) := by
  have e1 : roundFloat 75 120 = (5629499534213120, 53) := by decide
  have e2 : roundDyadic (2 ^ 53 - 5629499534213120) 53 = (3377699720527872, 53) := by decide
  have r1 : roundDyadic (179 * 3377699720527872) 53 = (4723501952925696, 46) := by decide
  have r2 : roundDyadic (194 * 5629499534213120) 53 = (8532210231541760, 46) := by decide
  have r3 : roundDyadic (4723501952925696 * 2 ^ (max 46 46 - 46) + 8532210231541760 * 2 ^ (max 46 46 - 46)) (max 46 46) = (6627856092233728, 45) := by decide
  have r4 : roundDyadic (143 * 3377699720527872) 53 = (7547047813054464, 47) := by decide
  have r5 : roundDyadic (160 * 5629499534213120) 53 = (7036874417766400, 46) := by decide
  have r6 : roundDyadic (7547047813054464 * 2 ^ (max 47 46 - 47) + 7036874417766400 * 2 ^ (max 47 46 - 46)) (max 47 46) = (5405199162146816, 45) := by decide
  have r7 : roundDyadic (91 * 3377699720527872) 53 = (4802666790125568, 47) := by decide
  have r8 : roundDyadic (115 * 5629499534213120) 53 = (5057753487769600, 46) := by decide
  have r9 : roundDyadic (4802666790125568 * 2 ^ (max 47 46 - 47) + 5057753487769600 * 2 ^ (max 47 46 - 46)) (max 47 46) = (7459086882832384, 46) := by decide
  simp only [floatInterpColor, floatInterpChannel, LOGO_START, LOGO_END, e1, e2,
    r1, r2, r3, r4, r5, r6, r7, r8, r9]
  decide

lemma logoRowFl76 : floatInterpColor LOGO_START LOGO_END 76 120 = (188, 153, 106) := by
  have e1 : roundFloat 76 120 = (5704559528002628, 53) := by decide
  have e2 : roundDyadic (2 ^ 53 - 5704559528002628) 53 = (3302639726738364, 53) := by decide
  have r1 : roundDyadic (179 * 3302639726738364) 53 = (4618535242860681, 46) := by decide
  have r2 : roundDyadic (194 * 5704559528002628) 53 = (8645973034628983, 46) := by decide
  have r3 : roundDyadic (4618535242860681 * 2 ^ (max 46 46 - 46) + 8645973034628983 * 2 ^ (max 46 46 - 46)) (max 46 46) = (6632254138744832, 45) := by decide
  have r4 : roundDyadic (143 * 3302639726738364) 53 = (7379335639431032, 47) := by decide
  have r5 : roundDyadic (160 * 5704559528002628) 53 = (7130699410003285, 46) := by decide
  have r6 : roundDyadic (7379335639431032 * 2 ^ (max 47 46 - 47) + 7130699410003285 * 2 ^ (max 47 46 - 46)) (max 47 46) = (5410183614859400, 45) := by decide
  have r7 : roundDyadic (91 * 3302639726738364) 53 = (4695940861456111, 47) := by decide
  have r8 : roundDyadic (115 * 5704559528002628) 53 = (5125190200939861, 46) := by decide
  have r9 : roundDyadic (4695940861456111 * 2 ^ (max 47 46 - 47) + 5125190200939861 * 2 ^ (max 47 46 - 46)) (max 47 46) = (7473160631667916, 46) := by decide
  simp only [floatInterpColor, floatInterpChannel, LOGO_START, LOGO_END, e1, e2,
    r1, r2, r3, r4, r5, r6, r7, r8, r9]
  decide

lemma logoRowFl77 : floatInterpColor LOGO_START LOGO_END 77 120 = (188, 153, 106) := by
  have e1 : roundFloat 77 120 = (5779619521792137, 53) := by decide
  have e2 : roundDyadic (2 ^ 53 - 5779619521792137) 53 = (3227579732948855, 53) := by decide
  have r1 : roundDyadic (179 * 3227579732948855) 53 = (4513568532795664, 46) := by decide
  have r2 : roundDyadic (194 * 5779619521792137) 53 = (8759735837716208, 46) := by decide
  have r3 : roundDyadic (4513568532795664 * 2 ^ (max 46 46 - 46) + 8759735837716208 * 2 ^ (max 46 46 - 46)) (max 46 46) = (6636652185255936, 45) := by decide
  have r4 : roundDyadic (143 * 3227579732948855) 53 = (7211623465807598, 47) := by decide
  have r5 : roundDyadic (160 * 5779619521792137) 53 = (7224524402240171, 46) := by decide
  have r6 : roundDyadic (7211623465807598 * 2 ^ (max 47 46 - 47) + 7224524402240171 * 2 ^ (max 47 46 - 46)) (max 47 46) = (5415168067571985, 45) := by decide
  have r7 : roundDyadic (91 * 3227579732948855) 53 = (4589214932786653, 47) := by decide
  have r8 : roundDyadic (115 * 5779619521792137) 53 = (5192626914110123, 46) := by decide
  have r9 : roundDyadic (4589214932786653 * 2 ^ (max 47 46 - 47) + 5192626914110123 * 2 ^ (max 47 46 - 46)) (max 47 46) = (7487234380503450, 46) := by decide
  simp only [floatInterpColor, floatInterpChannel, LOGO_START, LOGO_END, e1, e2,
    r1, r2, r3, r4, r5, r6, r7, r8, r9]
  decide

lemma logoRowFl78 : floatInterpColor LOGO_START LOGO_END 78 120 = (188, 154, 106) := by
  have e1 : roundFloat 78 120 = (5854679515581645, 53) := by decide
  have e2 : roundDyadic (2 ^ 53 - 5854679515581645) 53 = (3152519739159347, 53) := by decide
  have r1 : roundDyadic (179 * 3152519739159347) 53 = (8817203645461299, 47) := by decide
  have r2 : roundDyadic (194 * 5854679515581645) 53 = (8873498640803431, 46) := by decide
  have r3 : roundDyadic (8817203645461299 * 2 ^ (max 47 46 - 47) + 8873498640803431 * 2 ^ (max 47 46 - 46)) (max 47 46) = (6641050231767040, 45) := by decide
  have r4 : roundDyadic (143 * 3152519739159347) 53 = (7043911292184166, 47) := by decide
  have r5 : roundDyadic (160 * 5854679515581645) 53 = (7318349394477056, 46) := by decide
  have r6 : roundDyadic (7043911292184166 * 2 ^ (max 47 46 - 47) + 7318349394477056 * 2 ^ (max 47 46 - 46)) (max 47 46) = (5420152520284570, 45) := by decide
  have r7 : roundDyadic (91 * 3152519739159347) 53 = (8964978008234393, 48) := by decide
  have r8 : roundDyadic (115 * 5854679515581645) 53 = (5260063627280384, 46) := by decide
  have r9 : roundDyadic (8964978008234393 * 2 ^ (max 48 46 - 48) + 5260063627280384 * 2 ^ (max 48 46 - 46)) (max 48 46) = (7501308129338982, 46) := by decide
  simp only [floatInterpColor, floatInterpChannel, LOGO_START, LOGO_END, e1, e2,
    r1, r2, r3, r4, r5, r6, r7, r8, r9]
  decide

lemma logoRowFl79 : floatInterpColor LOGO_START LOGO_END 79 120 = (188, 154, 106) := by
  have e1 : roundFloat 79 120 = (5929739509371153, 53) := by decide
  have e2 : roundDyadic (2 ^ 53 - 5929739509371153) 53 = (3077459745369839, 53) := by decide
  have r1 : roundDyadic (179 * 3077459745369839) 53 = (8607270225331268, 47) := by decide
  have r2 : roundDyadic (194 * 5929739509371153) 53 = (8987261443890654, 46) := by decide
  have r3 : roundDyadic (8607270225331268 * 2 ^ (max 47 46 - 47) + 8987261443890654 * 2 ^ (max 47 46 - 46)) (max 47 46) = (6645448278278144, 45) := by decide
  have r4 : roundDyadic (143 * 3077459745369839) 53 = (6876199118560734, 47) := by decide
  have r5 : roundDyadic (160 * 5929739509371153) 53 = (7412174386713941, 46) := by decide
  have r6 : roundDyadic (6876199118560734 * 2 ^ (max 47 46 - 47) + 7412174386713941 * 2 ^ (max 47 46 - 46)) (max 47 46) = (5425136972997154, 45) := by decide
  have r7 : roundDyadic (91 * 3077459745369839) 53 = (8751526150895480, 48) := by decide
  have r8 : roundDyadic (115 * 5929739509371153) 53 = (5327500340450645, 46) := by decide
  have r9 : roundDyadic (8751526150895480 * 2 ^ (max 48 46 - 48) + 5327500340450645 * 2 ^ (max 48 46 - 46)) (max 48 46) = (7515381878174515, 46) := by decide
  simp only [floatInterpColor, floatInterpChannel, LOGO_START, LOGO_END, e1, e2,
    r1, r2, r3, r4, r5, r6, r7, r8, r9]
  decide

lemma logoRowFl80 : floatInterpColor LOGO_START LOGO_END 80 120 = (189, 154, 107) := by
  have e1 : roundFloat 80 120 = (6004799503160661, 53) := by decide
  have e2 : roundDyadic (2 ^ 53 - 6004799503160661) 53 = (3002399751580331, 53) := by decide
  have r1 : roundDyadic (179 * 3002399751580331) 53 = (8397336805201238, 47) := by decide
  have r2 : roundDyadic (194 * 6004799503160661) 53 = (4550512123488938, 45) := by decide
  have r3 : roundDyadic (8397336805201238 * 2 ^ (max 47 45 - 47) + 4550512123488938 * 2 ^ (max 47 45 - 45)) (max 47 45) = (6649846324789248, 45) := by decide
  have r4 : roundDyadic (143 * 3002399751580331) 53 = (6708486944937302, 47) := by decide
  have r5 : roundDyadic (160 * 6004799503160661) 53 = (7505999378950826, 46) := by decide
  have r6 : roundDyadic (6708486944937302 * 2 ^ (max 47 46 - 47) + 7505999378950826 * 2 ^ (max 47 46 - 46)) (max 47 46) = (5430121425709738, 45) := by decide
  have r7 : roundDyadic (91 * 3002399751580331) 53 = (8538074293556566, 48) := by decide
  have r8 : roundDyadic (115 * 6004799503160661) 53 = (5394937053620906, 46) := by decide
  have r9 : roundDyadic (8538074293556566 * 2 ^ (max 48 46 - 48) + 5394937053620906 * 2 ^ (max 48 46 - 46)) (max 48 46) = (7529455627010048, 46) := by decide
  simp only [floatInterpColor, floatInterpChannel, LOGO_START, LOGO_END, e1, e2,
    r1, r2, r3, r4, r5, r6, r7, r8, r9]
  decide

lemma logoRowFl81 : floatInterpColor LOGO_START LOGO_END 81 120 = (189, 154, 107) := by
  have e1 : roundFloat 81 120 = (6079859496950170, 53) := by decide
  have e2 : roundDyadic (2 ^ 53 - 6079859496950170) 53 = (2927339757790822, 53) := by decide
  have r1 : roundDyadic (179 * 2927339757790822) 53 = (8187403385071205, 47) := by decide
  have r2 : roundDyadic (194 * 6079859496950170) 53 = (4607393525032551, 45) := by decide
  have r3 : roundDyadic (8187403385071205 * 2 ^ (max 47 45 - 47) + 4607393525032551 * 2 ^ (max 47 45 - 45)) (max 47 45) = (6654244371300352, 45) := by decide
  have r4 : roundDyadic (143 * 2927339757790822) 53 = (6540774771313868, 47) := by decide
  have r5 : roundDyadic (160 * 6079859496950170) 53 = (7599824371187712, 46) := by decide
  have r6 : roundDyadic (6540774771313868 * 2 ^ (max 47 46 - 47) + 7599824371187712 * 2 ^ (max 47 46 - 46)) (max 47 46) = (5435105878422323, 45) := by decide
  have r7 : roundDyadic (91 * 2927339757790822) 53 = (8324622436217650, 48) := by decide
  have r8 : roundDyadic (115 * 6079859496950170) 53 = (5462373766791168, 46) := by decide
  have r9 : roundDyadic (8324622436217650 * 2 ^ (max 48 46 - 48) + 5462373766791168 * 2 ^ (max 48 46 - 46)) (max 48 46) = (7543529375845580, 46) := by decide
  simp only [floatInterpColor, floatInterpChannel, LOGO_START, LOGO_END, e1, e2,
    r1, r2, r3, r4, r5, r6, r7, r8, r9]
  decide

lemma logoRowFl82 : floatInterpColor LOGO_START LOGO_END 82 120 = (189, 154, 107) := by
  have e1 : roundFloat 82 120 = (6154919490739678, 53) := by decide
  have e2 : roundDyadic (2 ^ 53 - 6154919490739678) 53 = (2852279764001314, 53) := by decide
  have r1 : roundDyadic (179 * 2852279764001314) 53 = (7977469964941175, 47) := by decide
  have r2 : roundDyadic (194 * 6154919490739678) 53 = (4664274926576162, 45) := by decide
  have r3 : roundDyadic (7977469964941175 * 2 ^ (max 47 45 - 47) + 4664274926576162 * 2 ^ (max 47 45 - 45)) (max 47 45) = (6658642417811456, 45) := by decide
  have r4 : roundDyadic (143 * 2852279764001314) 53 = (6373062597690436, 47) := by decide
  have r5 : roundDyadic (160 * 6154919490739678) 53 = (7693649363424598, 46) := by decide
  have r6 : roundDyadic (6373062597690436 * 2 ^ (max 47 46 - 47) + 7693649363424598 * 2 ^ (max 47 46 - 46)) (max 47 46) = (5440090331134908, 45) := by decide
  have r7 : roundDyadic (91 * 2852279764001314) 53 = (8111170578878737, 48) := by decide
  have r8 : roundDyadic (115 * 6154919490739678) 53 = (5529810479961429, 46) := by decide
  have r9 : roundDyadic (8111170578878737 * 2 ^ (max 48 46 - 48) + 5529810479961429 * 2 ^ (max 48 46 - 46)) (max 48 46) = (7557603124681113, 46) := by decide
  simp only [floatInterpColor, floatInterpChannel, LOGO_START, LOGO_END, e1, e2,
    r1, r2, r3, r4, r5, r6, r7, r8, r9]
  decide

lemma logoRowFl83 : floatInterpColor LOGO_START LOGO_END 83 120 = (189, 154, 107) := by
  have e1 : roundFloat 83 120 = (6229979484529186, 53) := by decide
  have e2 : roundDyadic (2 ^ 53 - 6229979484529186) 53 = (2777219770211806, 53) := by decide
  have r1 : roundDyadic (179 * 2777219770211806) 53 = (7767536544811145, 47) := by decide
  have r2 : roundDyadic (194 * 6229979484529186) 53 = (4721156328119774, 45) := by decide
  have r3 : roundDyadic (7767536544811145 * 2 ^ (max 47 45 - 47) + 4721156328119774 * 2 ^ (max 47 45 - 45)) (max 47 45) = (6663040464322560, 45) := by decide
  have r4 : roundDyadic (143 * 2777219770211806) 53 = (6205350424067004, 47) := by decide
  have r5 : roundDyadic (160 * 6229979484529186) 53 = (7787474355661482, 46) := by decide
  have r6 : roundDyadic (6205350424067004 * 2 ^ (max 47 46 - 47) + 7787474355661482 * 2 ^ (max 47 46 - 46)) (max 47 46) = (5445074783847492, 45) := by decide
  have r7 : roundDyadic (91 * 2777219770211806) 53 = (7897718721539823, 48) := by decide
  have r8 : roundDyadic (115 * 6229979484529186) 53 = (5597247193131691, 46) := by decide
  have r9 : roundDyadic (7897718721539823 * 2 ^ (max 48 46 - 48) + 5597247193131691 * 2 ^ (max 48 46 - 46)) (max 48 46) = (7571676873516647, 46) := by decide
  simp only [floatInterpColor, floatInterpChannel, LOGO_START, LOGO_END, e1, e2,
    r1, r2, r3, r4, r5, r6, r7, r8, r9]
  decide

lemma logoRowFl84 : floatInterpColor LOGO_START LOGO_END 84 120 = (189, 154, 107) := by
  have e1 : roundFloat 84 120 = (6305039478318694, 53) := by decide
  have e2 : roundDyadic (2 ^ 53 - 6305039478318694) 53 = (2702159776422298, 53) := by decide
  have r1 : roundDyadic (179 * 2702159776422298) 53 = (7557603124681115, 47) := by decide
  have r2 : roundDyadic (194 * 6305039478318694) 53 = (4778037729663385, 45) := by decide
  have r3 : roundDyadic (7557603124681115 * 2 ^ (max 47 45 - 47) + 4778037729663385 * 2 ^ (max 47 45 - 45)) (max 47 45) = (6667438510833664, 45) := by decide
  have r4 : roundDyadic (143 * 2702159776422298) 53 = (6037638250443572, 47) := by decide
  have r5 : roundDyadic (160 * 6305039478318694) 53 = (7881299347898368, 46) := by decide
  have r6 : roundDyadic (6037638250443572 * 2 ^ (max 47 46 - 47) + 7881299347898368 * 2 ^ (max 47 46 - 46)) (max 47 46) = (5450059236560077, 45) := by decide
  have r7 : roundDyadic (91 * 2702159776422298) 53 = (7684266864200910, 48) := by decide
  have r8 : roundDyadic (115 * 6305039478318694) 53 = (5664683906301952, 46) := by decide
  have r9 : roundDyadic (7684266864200910 * 2 ^ (max 48 46 - 48) + 5664683906301952 * 2 ^ (max 48 46 - 46)) (max 48 46) = (7585750622352180, 46) := by decide
  simp only [floatInterpColor, floatInterpChannel, LOGO_START, LOGO_END, e1, e2,
    r1, r2, r3, r4, r5, r6, r7, r8, r9]
  decide

lemma logoRowFl85 : floatInterpColor LOGO_START LOGO_END 85 120 = (189, 155, 108) := by
  have e1 : roundFloat 85 120 = (6380099472108203, 53) := by decide
  have e2 : roundDyadic (2 ^ 53 - 6380099472108203) 53 = (2627099782632789, 53) := by decide
  have r1 : roundDyadic (179 * 2627099782632789) 53 = (7347669704551082, 47) := by decide
  have r2 : roundDyadic (194 * 6380099472108203) 53 = (4834919131206998, 45) := by decide
  have r3 : roundDyadic (7347669704551082 * 2 ^ (max 47 45 - 47) + 4834919131206998 * 2 ^ (max 47 45 - 45)) (max 47 45) = (6671836557344768, 45) := by decide
  have r4 : roundDyadic (143 * 2627099782632789) 53 = (5869926076820138, 47) := by decide
  have r5 : roundDyadic (160 * 6380099472108203) 53 = (7975124340135254, 46) := by decide
  have r6 : roundDyadic (5869926076820138 * 2 ^ (max 47 46 - 47) + 7975124340135254 * 2 ^ (max 47 46 - 46)) (max 47 46) = (5455043689272662, 45) := by decide
  have r7 : roundDyadic (91 * 2627099782632789) 53 = (7470815006861994, 48) := by decide
  have r8 : roundDyadic (115 * 6380099472108203) 53 = (5732120619472214, 46) := by decide
  have r9 : roundDyadic (7470815006861994 * 2 ^ (max 48 46 - 48) + 5732120619472214 * 2 ^ (max 48 46 - 46)) (max 48 46) = (7599824371187712, 46) := by decide
  simp only [floatInterpColor, floatInterpChannel, LOGO_START, LOGO_END, e1, e2,
    r1, r2, r3, r4, r5, r6, r7, r8, r9]
  decide

lemma logoRowFl86 : floatInterpColor LOGO_START LOGO_END 86 120 = (189, 155, 108) := by
  have e1 : roundFloat 86 120 = (6455159465897711, 53) := by decide
  have e2 : roundDyadic (2 ^ 53 - 6455159465897711) 53 = (2552039788843281, 53) := by decide
  have r1 : roundDyadic (179 * 2552039788843281) 53 = (7137736284421052, 47) := by decide
  have r2 : roundDyadic (194 * 6455159465897711) 53 = (4891800532750609, 45) := by decide
  have r3 : roundDyadic (7137736284421052 * 2 ^ (max 47 45 - 47) + 4891800532750609 * 2 ^ (max 47 45 - 45)) (max 47 45) = (6676234603855872, 45) := by decide
  have r4 : roundDyadic (143 * 2552039788843281) 53 = (5702213903196706, 47) := by decide
  have r5 : roundDyadic (160 * 6455159465897711) 53 = (8068949332372139, 46) := by decide
  have r6 : roundDyadic (5702213903196706 * 2 ^ (max 47 46 - 47) + 8068949332372139 * 2 ^ (max 47 46 - 46)) (max 47 46) = (5460028141985246, 45) := by decide
  have r7 : roundDyadic (91 * 2552039788843281) 53 = (7257363149523080, 48) := by decide
  have r8 : roundDyadic (115 * 6455159465897711) 53 = (5799557332642475, 46) := by decide
  have r9 : roundDyadic (7257363149523080 * 2 ^ (max 48 46 - 48) + 5799557332642475 * 2 ^ (max 48 46 - 46)) (max 48 46) = (7613898120023245, 46) := by decide
  simp only [floatInterpColor, floatInterpChannel, LOGO_START, LOGO_END, e1, e2,
    r1, r2, r3, r4, r5, r6, r7, r8, r9]
  decide

lemma logoRowFl87 : floatInterpColor LOGO_START LOGO_END 87 120 = (189, 155, 108) := by
  have e1 : roundFloat 87 120 = (6530219459687219, 53) := by decide
  have e2 : roundDyadic (2 ^ 53 - 6530219459687219) 53 = (2476979795053773, 53) := by decide
  have r1 : roundDyadic (179 * 2476979795053773) 53 = (6927802864291021, 47) := by decide
  have r2 : roundDyadic (194 * 6530219459687219) 53 = (4948681934294221, 45) := by decide
  have r3 : roundDyadic (6927802864291021 * 2 ^ (max 47 45 - 47) + 4948681934294221 * 2 ^ (max 47 45 - 45)) (max 47 45) = (6680632650366976, 45) := by decide
  have r4 : roundDyadic (143 * 2476979795053773) 53 = (5534501729573274, 47) := by decide
  have r5 : roundDyadic (160 * 6530219459687219) 53 = (8162774324609024, 46) := by decide
  have r6 : roundDyadic (5534501729573274 * 2 ^ (max 47 46 - 47) + 8162774324609024 * 2 ^ (max 47 46 - 46)) (max 47 46) = (5465012594697830, 45) := by decide
  have r7 : roundDyadic (91 * 2476979795053773) 53 = (7043911292184167, 48) := by decide
  have r8 : roundDyadic (115 * 6530219459687219) 53 = (5866994045812736, 46) := by decide
  have r9 : roundDyadic (7043911292184167 * 2 ^ (max 48 46 - 48) + 5866994045812736 * 2 ^ (max 48 46 - 46)) (max 48 46) = (7627971868858778, 46) := by decide
  simp only [floatInterpColor, floatInterpChannel, LOGO_START, LOGO_END, e1, e2,
    r1, r2, r3, r4, r5, r6, r7, r8, r9]
  decide

lemma logoRowFl88 : floatInterpColor LOGO_START LOGO_END 88 120 = (190, 155, 108) := by
  have e1 : roundFloat 88 120 = (6605279453476727, 53) := by decide
  have e2 : roundDyadic (2 ^ 53 - 6605279453476727) 53 = (2401919801264265, 53) := by decide
  have r1 : roundDyadic (179 * 2401919801264265) 53 = (6717869444160991, 47) := by decide
  have r2 : roundDyadic (194 * 6605279453476727) 53 = (5005563335837832, 45) := by decide
  have r3 : roundDyadic (6717869444160991 * 2 ^ (max 47 45 - 47) + 5005563335837832 * 2 ^ (max 47 45 - 45)) (max 47 45) = (6685030696878080, 45) := by decide
  have r4 : roundDyadic (143 * 2401919801264265) 53 = (5366789555949842, 47) := by decide
  have r5 : roundDyadic (160 * 6605279453476727) 53 = (8256599316845909, 46) := by decide
  have r6 : roundDyadic (5366789555949842 * 2 ^ (max 47 46 - 47) + 8256599316845909 * 2 ^ (max 47 46 - 46)) (max 47 46) = (5469997047410415, 45) := by decide
  have r7 : roundDyadic (91 * 2401919801264265) 53 = (6830459434845254, 48) := by decide
  have r8 : roundDyadic (115 * 6605279453476727) 53 = (5934430758982997, 46) := by decide
  have r9 : roundDyadic (6830459434845254 * 2 ^ (max 48 46 - 48) + 5934430758982997 * 2 ^ (max 48 46 - 46)) (max 48 46) = (7642045617694310, 46) := by decide
  simp only [floatInterpColor, floatInterpChannel, LOGO_START, LOGO_END, e1, e2,
    r1, r2, r3, r4, r5, r6, r7, r8, r9]
  decide

lemma logoRowFl89 : floatInterpColor LOGO_START LOGO_END 89 120 = (190, 155, 108) := by
  have e1 : roundFloat 89 120 = (6680339447266236, 53) := by decide
  have e2 : roundDyadic (2 ^ 53 - 6680339447266236) 53 = (2326859807474756, 53) := by decide
  have r1 : roundDyadic (179 * 2326859807474756) 53 = (6507936024030958, 47) := by decide
  have r2 : roundDyadic (194 * 6680339447266236) 53 = (5062444737381444, 45) := by decide
  have r3 : roundDyadic (6507936024030958 * 2 ^ (max 47 45 - 47) + 5062444737381444 * 2 ^ (max 47 45 - 45)) (max 47 45) = (6689428743389184, 45) := by decide
  have r4 : roundDyadic (143 * 2326859807474756) 53 = (5199077382326408, 47) := by decide
  have r5 : roundDyadic (160 * 6680339447266236) 53 = (8350424309082795, 46) := by decide
  have r6 : roundDyadic (5199077382326408 * 2 ^ (max 47 46 - 47) + 8350424309082795 * 2 ^ (max 47 46 - 46)) (max 47 46) = (5474981500123000, 45) := by decide
  have r7 : roundDyadic (91 * 2326859807474756) 53 = (6617007577506337, 48) := by decide
  have r8 : roundDyadic (115 * 6680339447266236) 53 = (6001867472153259, 46) := by decide
  have r9 : roundDyadic (6617007577506337 * 2 ^ (max 48 46 - 48) + 6001867472153259 * 2 ^ (max 48 46 - 46)) (max 48 46) = (7656119366529843, 46) := by decide
  simp only [floatInterpColor, floatInterpChannel, LOGO_START, LOGO_END, e1, e2,
    r1, r2, r3, r4, r5, r6, r7, r8, r9]
  decide

lemma logoRowFl90 : floatInterpColor LOGO_START LOGO_END 90 120 = (190, 155, 109) := by
  have e1 : roundFloat 90 120 = (6755399441055744, 53) := by decide
  have e2 : roundDyadic (2 ^ 53 - 6755399441055744) 53 = (2251799813685248, 53) := by decide
  have r1 : roundDyadic (179 * 2251799813685248) 53 = (6298002603900928, 47) := by decide
  have r2 : roundDyadic (194 * 6755399441055744) 53 = (5119326138925056, 45) := by decide
  have r3 : roundDyadic (6298002603900928 * 2 ^ (max 47 45 - 47) + 5119326138925056 * 2 ^ (max 47 45 - 45)) (max 47 45) = (6693826789900288, 45) := by decide
  have r4 : roundDyadic (143 * 2251799813685248) 53 = (5031365208702976, 47) := by decide
  have r5 : roundDyadic (160 * 6755399441055744) 53 = (8444249301319680, 46) := by decide
  have r6 : roundDyadic (5031365208702976 * 2 ^ (max 47 46 - 47) + 8444249301319680 * 2 ^ (max 47 46 - 46)) (max 47 46) = (5479965952835584, 45) := by decide
  have r7 : roundDyadic (91 * 2251799813685248) 53 = (6403555720167424, 48) := by decide
  have r8 : roundDyadic (115 * 6755399441055744) 53 = (6069304185323520, 46) := by decide
  have r9 : roundDyadic (6403555720167424 * 2 ^ (max 48 46 - 48) + 6069304185323520 * 2 ^ (max 48 46 - 46)) (max 48 46) = (7670193115365376, 46) := by decide
  simp only [floatInterpColor, floatInterpChannel, LOGO_START, LOGO_END, e1, e2,
    r1, r2, r3, r4, r5, r6, r7, r8, r9]
  decide

lemma logoRowFl91 : floatInterpColor LOGO_START LOGO_END 91 120 = (190, 155, 109) := by
  have e1 : roundFloat 91 120 = (6830459434845252, 53) := by decide
  have e2 : roundDyadic (2 ^ 53 - 6830459434845252) 53 = (2176739819895740, 53) := by decide
  have r1 : roundDyadic (179 * 2176739819895740) 53 = (6088069183770898, 47) := by decide
  have r2 : roundDyadic (194 * 6830459434845252) 53 = (5176207540468668, 45) := by decide
  have r3 : roundDyadic (6088069183770898 * 2 ^ (max 47 45 - 47) + 5176207540468668 * 2 ^ (max 47 45 - 45)) (max 47 45) = (6698224836411392, 45) := by decide
  have r4 : roundDyadic (143 * 2176739819895740) 53 = (4863653035079544, 47) := by decide
  have r5 : roundDyadic (160 * 6830459434845252) 53 = (8538074293556565, 46) := by decide
  have r6 : roundDyadic (4863653035079544 * 2 ^ (max 47 46 - 47) + 8538074293556565 * 2 ^ (max 47 46 - 46)) (max 47 46) = (5484950405548168, 45) := by decide
  have r7 : roundDyadic (91 * 2176739819895740) 53 = (6190103862828511, 48) := by decide
  have r8 : roundDyadic (115 * 6830459434845252) 53 = (6136740898493781, 46) := by decide
  have r9 : roundDyadic (6190103862828511 * 2 ^ (max 48 46 - 48) + 6136740898493781 * 2 ^ (max 48 46 - 46)) (max 48 46) = (7684266864200909, 46) := by decide
  simp only [floatInterpColor, floatInterpChannel, LOGO_START, LOGO_END, e1, e2,
    r1, r2, r3, r4, r5, r6, r7, r8, r9]
  decide

lemma logoRowFl92 : floatInterpColor LOGO_START LOGO_END 92 120 = (190, 156, 109) := by
  have e1 : roundFloat 92 120 = (6905519428634761, 53) := by decide
  have e2 : roundDyadic (2 ^ 53 - 6905519428634761) 53 = (2101679826106231, 53) := by decide
  have r1 : roundDyadic (179 * 2101679826106231) 53 = (5878135763640865, 47) := by decide
  have r2 : roundDyadic (194 * 6905519428634761) 53 = (5233088942012280, 45) := by decide
  have r3 : roundDyadic (5878135763640865 * 2 ^ (max 47 45 - 47) + 5233088942012280 * 2 ^ (max 47 45 - 45)) (max 47 45) = (6702622882922496, 45) := by decide
  have r4 : roundDyadic (143 * 2101679826106231) 53 = (4695940861456110, 47) := by decide
  have r5 : roundDyadic (160 * 6905519428634761) 53 = (8631899285793451, 46) := by decide
  have r6 : roundDyadic (4695940861456110 * 2 ^ (max 47 46 - 47) + 8631899285793451 * 2 ^ (max 47 46 - 46)) (max 47 46) = (5489934858260753, 45) := by decide
  have r7 : roundDyadic (91 * 2101679826106231) 53 = (5976652005489594, 48) := by decide
  have r8 : roundDyadic (115 * 6905519428634761) 53 = (6204177611664043, 46) := by decide
  have r9 : roundDyadic (5976652005489594 * 2 ^ (max 48 46 - 48) + 6204177611664043 * 2 ^ (max 48 46 - 46)) (max 48 46) = (7698340613036442, 46) := by decide
  simp only [floatInterpColor, floatInterpChannel, LOGO_START, LOGO_END, e1, e2,
    r1, r2, r3, r4, r5, r6, r7, r8, r9]
  decide

lemma logoRowFl93 : floatInterpColor LOGO_START LOGO_END 93 120 = (190, 156, 109) := by
  have e1 : roundFloat 93 120 = (6980579422424269, 53) := by decide
  have e2 : roundDyadic (2 ^ 53 - 6980579422424269) 53 = (2026619832316723, 53) := by decide
  have r1 : roundDyadic (179 * 2026619832316723) 53 = (5668202343510835, 47) := by decide
  have r2 : roundDyadic (194 * 6980579422424269) 53 = (5289970343555891, 45) := by decide
  have r3 : roundDyadic (5668202343510835 * 2 ^ (max 47 45 - 47) + 5289970343555891 * 2 ^ (max 47 45 - 45)) (max 47 45) = (6707020929433600, 45) := by decide
  have r4 : roundDyadic (143 * 2026619832316723) 53 = (4528228687832678, 47) := by decide
  have r5 : roundDyadic (160 * 6980579422424269) 53 = (8725724278030336, 46) := by decide
  have r6 : roundDyadic (4528228687832678 * 2 ^ (max 47 46 - 47) + 8725724278030336 * 2 ^ (max 47 46 - 46)) (max 47 46) = (5494919310973338, 45) := by decide
  have r7 : roundDyadic (91 * 2026619832316723) 53 = (5763200148150681, 48) := by decide
  have r8 : roundDyadic (115 * 6980579422424269) 53 = (6271614324834304, 46) := by decide
  have r9 : roundDyadic (5763200148150681 * 2 ^ (max 48 46 - 48) + 6271614324834304 * 2 ^ (max 48 46 - 46)) (max 48 46) = (7712414361871974, 46) := by decide
  simp only [floatInterpColor, floatInterpChannel, LOGO_START, LOGO_END, e1, e2,
    r1, r2, r3, r4, r5, r6, r7, r8, r9]
  decide

lemma logoRowFl94 : floatInterpColor LOGO_START LOGO_END 94 120 = (190, 156, 109) := by
  have e1 : roundFloat 94 120 = (7055639416213777, 53) := by decide
  have e2 : roundDyadic (2 ^ 53 - 7055639416213777) 53 = (1951559838527215, 53) := by decide
  have r1 : roundDyadic (179 * 1951559838527215) 53 = (5458268923380804, 47) := by decide
  have r2 : roundDyadic (194 * 7055639416213777) 53 = (5346851745099503, 45) := by decide
  have r3 : roundDyadic (5458268923380804 * 2 ^ (max 47 45 - 47) + 5346851745099503 * 2 ^ (max 47 45 - 45)) (max 47 45) = (6711418975944704, 45) := by decide
  have r4 : roundDyadic (143 * 1951559838527215) 53 = (8721033028418492, 48) := by decide
  have r5 : roundDyadic (160 * 7055639416213777) 53 = (8819549270267221, 46) := by decide
  have r6 : roundDyadic (8721033028418492 * 2 ^ (max 48 46 - 48) + 8819549270267221 * 2 ^ (max 48 46 - 46)) (max 48 46) = (5499903763685922, 45) := by decide
  have r7 : roundDyadic (91 * 1951559838527215) 53 = (5549748290811768, 48) := by decide
  have r8 : roundDyadic (115 * 7055639416213777) 53 = (6339051038004565, 46) := by decide
  have r9 : roundDyadic (5549748290811768 * 2 ^ (max 48 46 - 48) + 6339051038004565 * 2 ^ (max 48 46 - 46)) (max 48 46) = (7726488110707507, 46) := by decide
  simp only [floatInterpColor, floatInterpChannel, LOGO_START, LOGO_END, e1, e2,
    r1, r2, r3, r4, r5, r6, r7, r8, r9]
  decide

lemma logoRowFl95 : floatInterpColor LOGO_START LOGO_END 95 120 = (190, 156, 110) := by
  have e1 : roundFloat 95 120 = (7130699410003285, 53) := by decide
  have e2 : roundDyadic (2 ^ 53 - 7130699410003285) 53 = (1876499844737707, 53) := by decide
  have r1 : roundDyadic (179 * 1876499844737707) 53 = (5248335503250774, 47) := by decide
  have r2 : roundDyadic (194 * 7130699410003285) 53 = (5403733146643114, 45) := by decide
  have r3 : roundDyadic (5248335503250774 * 2 ^ (max 47 45 - 47) + 5403733146643114 * 2 ^ (max 47 45 - 45)) (max 47 45) = (6715817022455808, 45) := by decide
  have r4 : roundDyadic (143 * 1876499844737707) 53 = (8385608681171628, 48) := by decide
  have r5 : roundDyadic (160 * 7130699410003285) 53 = (8913374262504106, 46) := by decide
  have r6 : roundDyadic (8385608681171628 * 2 ^ (max 48 46 - 48) + 8913374262504106 * 2 ^ (max 48 46 - 46)) (max 48 46) = (5504888216398506, 45) := by decide
  have r7 : roundDyadic (91 * 1876499844737707) 53 = (5336296433472854, 48) := by decide
  have r8 : roundDyadic (115 * 7130699410003285) 53 = (6406487751174826, 46) := by decide
  have r9 : roundDyadic (5336296433472854 * 2 ^ (max 48 46 - 48) + 6406487751174826 * 2 ^ (max 48 46 - 46)) (max 48 46) = (7740561859543040, 46) := by decide
  simp only [floatInterpColor, floatInterpChannel, LOGO_START, LOGO_END, e1, e2,
    r1, r2, r3, r4, r5, r6, r7, r8, r9]
  decide

lemma logoRowFl96 : floatInterpColor LOGO_START LOGO_END 96 120 = (191, 156, 110) := by
  have e1 : roundFloat 96 120 = (7205759403792794, 53) := by decide
  have e2 : roundDyadic (2 ^ 53 - 7205759403792794) 53 = (1801439850948198, 53) := by decide
  have r1 : roundDyadic (179 * 1801439850948198) 53 = (5038402083120741, 47) := by decide
  have r2 : roundDyadic (194 * 7205759403792794) 53 = (5460614548186727, 45) := by decide
  have r3 : roundDyadic (5038402083120741 * 2 ^ (max 47 45 - 47) + 5460614548186727 * 2 ^ (max 47 45 - 45)) (max 47 45) = (6720215068966912, 45) := by decide
  have r4 : roundDyadic (143 * 1801439850948198) 53 = (8050184333924760, 48) := by decide
  have r5 : roundDyadic (160 * 7205759403792794) 53 = (4503599627370496, 45) := by decide
  have r6 : roundDyadic (8050184333924760 * 2 ^ (max 48 45 - 48) + 4503599627370496 * 2 ^ (max 48 45 - 45)) (max 48 45) = (5509872669111091, 45) := by decide
  have r7 : roundDyadic (91 * 1801439850948198) 53 = (5122844576133938, 48) := by decide
  have r8 : roundDyadic (115 * 7205759403792794) 53 = (6473924464345088, 46) := by decide
  have r9 : roundDyadic (5122844576133938 * 2 ^ (max 48 46 - 48) + 6473924464345088 * 2 ^ (max 48 46 - 46)) (max 48 46) = (7754635608378572, 46) := by decide
  simp only [floatInterpColor, floatInterpChannel, LOGO_START, LOGO_END, e1, e2,
    r1, r2, r3, r4, r5, r6, r7, r8, r9]
  decide

lemma logoRowFl97 : floatInterpColor LOGO_START LOGO_END 97 120 = (191, 156, 110) := by
  have e1 : roundFloat 97 120 = (7280819397582302, 53) := by decide
  have e2 : roundDyadic (2 ^ 53 - 7280819397582302) 53 = (1726379857158690, 53) := by decide
  have r1 : roundDyadic (179 * 1726379857158690) 53 = (4828468662990711, 47) := by decide
  have r2 : roundDyadic (194 * 7280819397582302) 53 = (5517495949730338, 45) := by decide
  have r3 : roundDyadic (4828468662990711 * 2 ^ (max 47 45 - 47) + 5517495949730338 * 2 ^ (max 47 45 - 45)) (max 47 45) = (6724613115478016, 45) := by decide
  have r4 : roundDyadic (143 * 1726379857158690) 53 = (7714759986677896, 48) := by decide
  have r5 : roundDyadic (160 * 7280819397582302) 53 = (4550512123488939, 45) := by decide
  have r6 : roundDyadic (7714759986677896 * 2 ^ (max 48 45 - 48) + 4550512123488939 * 2 ^ (max 48 45 - 45)) (max 48 45) = (5514857121823676, 45) := by decide
  have r7 : roundDyadic (91 * 1726379857158690) 53 = (4909392718795025, 48) := by decide
  have r8 : roundDyadic (115 * 7280819397582302) 53 = (6541361177515349, 46) := by decide
  have r9 : roundDyadic (4909392718795025 * 2 ^ (max 48 46 - 48) + 6541361177515349 * 2 ^ (max 48 46 - 46)) (max 48 46) = (7768709357214105, 46) := by decide
  simp only [floatInterpColor, floatInterpChannel, LOGO_START, LOGO_END, e1, e2,
    r1, r2, r3, r4, r5, r6, r7, r8, r9]
  decide

lemma logoRowFl98 : floatInterpColor LOGO_START LOGO_END 98 120 = (191, 156, 110) := by
  have e1 : roundFloat 98 120 = (7355879391371810, 53) := by decide
  have e2 : roundDyadic (2 ^ 53 - 7355879391371810) 53 = (1651319863369182, 53) := by decide
  have r1 : roundDyadic (179 * 1651319863369182) 53 = (4618535242860681, 47) := by decide
  have r2 : roundDyadic (194 * 7355879391371810) 53 = (5574377351273950, 45) := by decide
  have r3 : roundDyadic (4618535242860681 * 2 ^ (max 47 45 - 47) + 5574377351273950 * 2 ^ (max 47 45 - 45)) (max 47 45) = (6729011161989120, 45) := by decide
  have r4 : roundDyadic (143 * 1651319863369182) 53 = (7379335639431032, 48) := by decide
  have r5 : roundDyadic (160 * 7355879391371810) 53 = (4597424619607381, 45) := by decide
  have r6 : roundDyadic (7379335639431032 * 2 ^ (max 48 45 - 48) + 4597424619607381 * 2 ^ (max 48 45 - 45)) (max 48 45) = (5519841574536260, 45) := by decide
  have r7 : roundDyadic (91 * 1651319863369182) 53 = (4695940861456111, 48) := by decide
  have r8 : roundDyadic (115 * 7355879391371810) 53 = (6608797890685611, 46) := by decide
  have r9 : roundDyadic (4695940861456111 * 2 ^ (max 48 46 - 48) + 6608797890685611 * 2 ^ (max 48 46 - 46)) (max 48 46) = (7782783106049639, 46) := by decide
  simp only [floatInterpColor, floatInterpChannel, LOGO_START, LOGO_END, e1, e2,
    r1, r2, r3, r4, r5, r6, r7, r8, r9]
  decide

lemma logoRowFl99 : floatInterpColor LOGO_START LOGO_END 99 120 = (191, 157, 110) := by
  have e1 : roundFloat 99 120 = (7430939385161318, 53) := by decide
  have e2 : roundDyadic (2 ^ 53 - 7430939385161318) 53 = (1576259869579674, 53) := by decide
  have r1 : roundDyadic (179 * 1576259869579674) 53 = (8817203645461301, 48) := by decide
  have r2 : roundDyadic (194 * 7430939385161318) 53 = (5631258752817561, 45) := by decide
  have r3 : roundDyadic (8817203645461301 * 2 ^ (max 48 45 - 48) + 5631258752817561 * 2 ^ (max 48 45 - 45)) (max 48 45) = (6733409208500224, 45) := by decide
  have r4 : roundDyadic (143 * 1576259869579674) 53 = (7043911292184168, 48) := by decide
  have r5 : roundDyadic (160 * 7430939385161318) 53 = (4644337115725824, 45) := by decide
  have r6 : roundDyadic (7043911292184168 * 2 ^ (max 48 45 - 48) + 4644337115725824 * 2 ^ (max 48 45 - 45)) (max 48 45) = (5524826027248845, 45) := by decide
  have r7 : roundDyadic (91 * 1576259869579674) 53 = (8964978008234396, 49) := by decide
  have r8 : roundDyadic (115 * 7430939385161318) 53 = (6676234603855872, 46) := by decide
  have r9 : roundDyadic (8964978008234396 * 2 ^ (max 49 46 - 49) + 6676234603855872 * 2 ^ (max 49 46 - 46)) (max 49 46) = (7796856854885172, 46) := by decide
  simp only [floatInterpColor, floatInterpChannel, LOGO_START, LOGO_END, e1, e2,
    r1, r2, r3, r4, r5, r6, r7, r8, r9]
  decide

lemma logoRowFl100 : floatInterpColor LOGO_START LOGO_END 100 120 = (191, 157, 111) := by
  have e1 : roundFloat 100 120 = (7505999378950827, 53) := by decide
  have e2 : roundDyadic (2 ^ 53 - 7505999378950827) 53 = (1501199875790165, 53) := by decide
  have r1 : roundDyadic (179 * 1501199875790165) 53 = (8397336805201235, 48) := by decide
  have r2 : roundDyadic (194 * 7505999378950827) 53 = (5688140154361174, 45) := by decide
  have r3 : roundDyadic (8397336805201235 * 2 ^ (max 48 45 - 48) + 5688140154361174 * 2 ^ (max 48 45 - 45)) (max 48 45) = (6737807255011328, 45) := by decide
  have r4 : roundDyadic (143 * 1501199875790165) 53 = (6708486944937300, 48) := by decide
  have r5 : roundDyadic (160 * 7505999378950827) 53 = (4691249611844267, 45) := by decide
  have r6 : roundDyadic (6708486944937300 * 2 ^ (max 48 45 - 48) + 4691249611844267 * 2 ^ (max 48 45 - 45)) (max 48 45) = (5529810479961430, 45) := by decide
  have r7 : roundDyadic (91 * 1501199875790165) 53 = (8538074293556563, 49) := by decide
  have r8 : roundDyadic (115 * 7505999378950827) 53 = (6743671317026134, 46) := by decide
  have r9 : roundDyadic (8538074293556563 * 2 ^ (max 49 46 - 49) + 6743671317026134 * 2 ^ (max 49 46 - 46)) (max 49 46) = (7810930603720704, 46) := by decide
  simp only [floatInterpColor, floatInterpChannel, LOGO_START, LOGO_END, e1, e2,
    r1, r2, r3, r4, r5, r6, r7, r8, r9]
  decide

lemma logoRowFl101 : floatInterpColor LOGO_START LOGO_END 101 120 = (191, 157, 111) := by
  have e1 : roundFloat 101 120 = (7581059372740335, 53) := by decide
  have e2 : roundDyadic (2 ^ 53 - 7581059372740335) 53 = (1426139882000657, 53) := by decide
  have r1 : roundDyadic (179 * 1426139882000657) 53 = (7977469964941175, 48) := by decide
  have r2 : roundDyadic (194 * 7581059372740335) 53 = (5745021555904785, 45) := by decide
  have r3 : roundDyadic (7977469964941175 * 2 ^ (max 48 45 - 48) + 5745021555904785 * 2 ^ (max 48 45 - 45)) (max 48 45) = (6742205301522432, 45) := by decide
  have r4 : roundDyadic (143 * 1426139882000657) 53 = (6373062597690436, 48) := by decide
  have r5 : roundDyadic (160 * 7581059372740335) 53 = (4738162107962709, 45) := by decide
  have r6 : roundDyadic (6373062597690436 * 2 ^ (max 48 45 - 48) + 4738162107962709 * 2 ^ (max 48 45 - 45)) (max 48 45) = (5534794932674014, 45) := by decide
  have r7 : roundDyadic (91 * 1426139882000657) 53 = (8111170578878737, 49) := by decide
  have r8 : roundDyadic (115 * 7581059372740335) 53 = (6811108030196395, 46) := by decide
  have r9 : roundDyadic (8111170578878737 * 2 ^ (max 49 46 - 49) + 6811108030196395 * 2 ^ (max 49 46 - 46)) (max 49 46) = (7825004352556237, 46) := by decide
  simp only [floatInterpColor, floatInterpChannel, LOGO_START, LOGO_END, e1, e2,
    r1, r2, r3, r4, r5, r6, r7, r8, r9]
  decide

lemma logoRowFl102 : floatInterpColor LOGO_START LOGO_END 102 120 = (191, 157, 111) := by
  have e1 : roundFloat 102 120 = (7656119366529843, 53) := by decide
  have e2 : roundDyadic (2 ^ 53 - 7656119366529843) 53 = (1351079888211149, 53) := by decide
  have r1 : roundDyadic (179 * 1351079888211149) 53 = (7557603124681115, 48) := by decide
  have r2 : roundDyadic (194 * 7656119366529843) 53 = (5801902957448397, 45) := by decide
  have r3 : roundDyadic (7557603124681115 * 2 ^ (max 48 45 - 48) + 5801902957448397 * 2 ^ (max 48 45 - 45)) (max 48 45) = (6746603348033536, 45) := by decide
  have r4 : roundDyadic (143 * 1351079888211149) 53 = (6037638250443572, 48) := by decide
  have r5 : roundDyadic (160 * 7656119366529843) 53 = (4785074604081152, 45) := by decide
  have r6 : roundDyadic (6037638250443572 * 2 ^ (max 48 45 - 48) + 4785074604081152 * 2 ^ (max 48 45 - 45)) (max 48 45) = (5539779385386598, 45) := by decide
  have r7 : roundDyadic (91 * 1351079888211149) 53 = (7684266864200910, 49) := by decide
  have r8 : roundDyadic (115 * 7656119366529843) 53 = (6878544743366656, 46) := by decide
  have r9 : roundDyadic (7684266864200910 * 2 ^ (max 49 46 - 49) + 6878544743366656 * 2 ^ (max 49 46 - 46)) (max 49 46) = (7839078101391770, 46) := by decide
  simp only [floatInterpColor, floatInterpChannel, LOGO_START, LOGO_END, e1, e2,
    r1, r2, r3, r4, r5, r6, r7, r8, r9]
  decide

lemma logoRowFl103 : floatInterpColor LOGO_START LOGO_END 103 120 = (191, 157, 111) := by
  have e1 : roundFloat 103 120 = (7731179360319351, 53) := by decide
  have e2 : roundDyadic (2 ^ 53 - 7731179360319351) 53 = (1276019894421641, 53) := by decide
  have r1 : roundDyadic (179 * 1276019894421641) 53 = (7137736284421054, 48) := by decide
  have r2 : roundDyadic (194 * 7731179360319351) 53 = (5858784358992008, 45) := by decide
  have r3 : roundDyadic (7137736284421054 * 2 ^ (max 48 45 - 48) + 5858784358992008 * 2 ^ (max 48 45 - 45)) (max 48 45) = (6751001394544640, 45) := by decide
  have r4 : roundDyadic (143 * 1276019894421641) 53 = (5702213903196708, 48) := by decide
  have r5 : roundDyadic (160 * 7731179360319351) 53 = (4831987100199594, 45) := by decide
  have r6 : roundDyadic (5702213903196708 * 2 ^ (max 48 45 - 48) + 4831987100199594 * 2 ^ (max 48 45 - 45)) (max 48 45) = (5544763838099182, 45) := by decide
  have r7 : roundDyadic (91 * 1276019894421641) 53 = (7257363149523083, 49) := by decide
  have r8 : roundDyadic (115 * 7731179360319351) 53 = (6945981456536917, 46) := by decide
  have r9 : roundDyadic (7257363149523083 * 2 ^ (max 49 46 - 49) + 6945981456536917 * 2 ^ (max 49 46 - 46)) (max 49 46) = (7853151850227302, 46) := by decide
  simp only [floatInterpColor, floatInterpChannel, LOGO_START, LOGO_END, e1, e2,
    r1, r2, r3, r4, r5, r6, r7, r8, r9]
  decide

lemma logoRowFl104 : floatInterpColor LOGO_START LOGO_END 104 120 = (192, 157, 111) := by
  have e1 : roundFloat 104 120 = (7806239354108860, 53) := by decide
  have e2 : roundDyadic (2 ^ 53 - 7806239354108860) 53 = (1200959900632132, 53) := by decide
  have r1 : roundDyadic (179 * 1200959900632132) 53 = (6717869444160988, 48) := by decide
  have r2 : roundDyadic (194 * 7806239354108860) 53 = (5915665760535620, 45) := by decide
  have r3 : roundDyadic (6717869444160988 * 2 ^ (max 48 45 - 48) + 5915665760535620 * 2 ^ (max 48 45 - 45)) (max 48 45) = (6755399441055744, 45) := by decide
  have r4 : roundDyadic (143 * 1200959900632132) 53 = (5366789555949840, 48) := by decide
  have r5 : roundDyadic (160 * 7806239354108860) 53 = (4878899596318038, 45) := by decide
  have r6 : roundDyadic (5366789555949840 * 2 ^ (max 48 45 - 48) + 4878899596318038 * 2 ^ (max 48 45 - 45)) (max 48 45) = (5549748290811768, 45) := by decide
  have r7 : roundDyadic (91 * 1200959900632132) 53 = (6830459434845251, 49) := by decide
  have r8 : roundDyadic (115 * 7806239354108860) 53 = (7013418169707179, 46) := by decide
  have r9 : roundDyadic (6830459434845251 * 2 ^ (max 49 46 - 49) + 7013418169707179 * 2 ^ (max 49 46 - 46)) (max 49 46) = (7867225599062835, 46) := by decide
  simp only [floatInterpColor, floatInterpChannel, LOGO_START, LOGO_END, e1, e2,
    r1, r2, r3, r4, r5, r6, r7, r8, r9]
  decide

lemma logoRowFl105 : floatInterpColor LOGO_START LOGO_END 105 120 = (192, 157, 112) := by
  have e1 : roundFloat 105 120 = (7881299347898368, 53) := by decide
  have e2 : roundDyadic (2 ^ 53 - 7881299347898368) 53 = (1125899906842624, 53) := by decide
  have r1 : roundDyadic (179 * 1125899906842624) 53 = (6298002603900928, 48) := by decide
  have r2 : roundDyadic (194 * 7881299347898368) 53 = (5972547162079232, 45) := by decide
  have r3 : roundDyadic (6298002603900928 * 2 ^ (max 48 45 - 48) + 5972547162079232 * 2 ^ (max 48 45 - 45)) (max 48 45) = (6759797487566848, 45) := by decide
  have r4 : roundDyadic (143 * 1125899906842624) 53 = (5031365208702976, 48) := by decide
  have r5 : roundDyadic (160 * 7881299347898368) 53 = (4925812092436480, 45) := by decide
  have r6 : roundDyadic (5031365208702976 * 2 ^ (max 48 45 - 48) + 4925812092436480 * 2 ^ (max 48 45 - 45)) (max 48 45) = (5554732743524352, 45) := by decide
  have r7 : roundDyadic (91 * 1125899906842624) 53 = (6403555720167424, 49) := by decide
  have r8 : roundDyadic (115 * 7881299347898368) 53 = (7080854882877440, 46) := by decide
  have r9 : roundDyadic (6403555720167424 * 2 ^ (max 49 46 - 49) + 7080854882877440 * 2 ^ (max 49 46 - 46)) (max 49 46) = (7881299347898368, 46) := by decide
  simp only [floatInterpColor, floatInterpChannel, LOGO_START, LOGO_END, e1, e2,
    r1, r2, r3, r4, r5, r6, r7, r8, r9]
  decide

lemma logoRowFl106 : floatInterpColor LOGO_START LOGO_END 106 120 = (192, 158, 112) := by
  have e1 : roundFloat 106 120 = (7956359341687876, 53) := by decide
  have e2 : roundDyadic (2 ^ 53 - 7956359341687876) 53 = (1050839913053116, 53) := by decide
  have r1 : roundDyadic (179 * 1050839913053116) 53 = (5878135763640868, 48) := by decide
  have r2 : roundDyadic (194 * 7956359341687876) 53 = (6029428563622844, 45) := by decide
  have r3 : roundDyadic (5878135763640868 * 2 ^ (max 48 45 - 48) + 6029428563622844 * 2 ^ (max 48 45 - 45)) (max 48 45) = (6764195534077952, 45) := by decide
  have r4 : roundDyadic (143 * 1050839913053116) 53 = (4695940861456112, 48) := by decide
  have r5 : roundDyadic (160 * 7956359341687876) 53 = (4972724588554922, 45) := by decide
  have r6 : roundDyadic (4695940861456112 * 2 ^ (max 48 45 - 48) + 4972724588554922 * 2 ^ (max 48 45 - 45)) (max 48 45) = (5559717196236936, 45) := by decide
  have r7 : roundDyadic (91 * 1050839913053116) 53 = (5976652005489597, 49) := by decide
  have r8 : roundDyadic (115 * 7956359341687876) 53 = (7148291596047701, 46) := by decide
  have r9 : roundDyadic (5976652005489597 * 2 ^ (max 49 46 - 49) + 7148291596047701 * 2 ^ (max 49 46 - 46)) (max 49 46) = (7895373096733901, 46) := by decide
  simp only [floatInterpColor, floatInterpChannel, LOGO_START, LOGO_END, e1, e2,
    r1, r2, r3, r4, r5, r6, r7, r8, r9]
  decide

lemma logoRowFl107 : floatInterpColor LOGO_START LOGO_END 107 120 = (192, 158, 112) := by
  have e1 : roundFloat 107 120 = (8031419335477385, 53) := by decide
  have e2 : roundDyadic (2 ^ 53 - 8031419335477385) 53 = (975779919263607, 53) := by decide
  have r1 : roundDyadic (179 * 975779919263607) 53 = (5458268923380802, 48) := by decide
  have r2 : roundDyadic (194 * 8031419335477385) 53 = (6086309965166456, 45) := by decide
  have r3 : roundDyadic (5458268923380802 * 2 ^ (max 48 45 - 48) + 6086309965166456 * 2 ^ (max 48 45 - 45)) (max 48 45) = (6768593580589056, 45) := by decide
  have r4 : roundDyadic (143 * 975779919263607) 53 = (8721033028418488, 49) := by decide
  have r5 : roundDyadic (160 * 8031419335477385) 53 = (5019637084673366, 45) := by decide
  have r6 : roundDyadic (8721033028418488 * 2 ^ (max 49 45 - 49) + 5019637084673366 * 2 ^ (max 49 45 - 45)) (max 49 45) = (5564701648949522, 45) := by decide
  have r7 : roundDyadic (91 * 975779919263607) 53 = (5549748290811765, 49) := by decide
  have r8 : roundDyadic (115 * 8031419335477385) 53 = (7215728309217963, 46) := by decide
  have r9 : roundDyadic (5549748290811765 * 2 ^ (max 49 46 - 49) + 7215728309217963 * 2 ^ (max 49 46 - 46)) (max 49 46) = (7909446845569434, 46) := by decide
  simp only [floatInterpColor, floatInterpChannel, LOGO_START, LOGO_END, e1, e2,
    r1, r2, r3, r4, r5, r6, r7, r8, r9]
  decide

lemma logoRowFl108 : floatInterpColor LOGO_START LOGO_END 108 120 = (192, 158, 112) := by
  have e1 : roundFloat 108 120 = (8106479329266893, 53) := by decide
  have e2 : roundDyadic (2 ^ 53 - 8106479329266893) 53 = (900719925474099, 53) := by decide
  have r1 : roundDyadic (179 * 900719925474099) 53 = (5038402083120741, 48) := by decide
  have r2 : roundDyadic (194 * 8106479329266893) 53 = (6143191366710067, 45) := by decide
  have r3 : roundDyadic (5038402083120741 * 2 ^ (max 48 45 - 48) + 6143191366710067 * 2 ^ (max 48 45 - 45)) (max 48 45) = (6772991627100160, 45) := by decide
  have r4 : roundDyadic (143 * 900719925474099) 53 = (8050184333924760, 49) := by decide
  have r5 : roundDyadic (160 * 8106479329266893) 53 = (5066549580791808, 45) := by decide
  have r6 : roundDyadic (8050184333924760 * 2 ^ (max 49 45 - 49) + 5066549580791808 * 2 ^ (max 49 45 - 45)) (max 49 45) = (5569686101662106, 45) := by decide
  have r7 : roundDyadic (91 * 900719925474099) 53 = (5122844576133938, 49) := by decide
  have r8 : roundDyadic (115 * 8106479329266893) 53 = (7283165022388224, 46) := by decide
  have r9 : roundDyadic (5122844576133938 * 2 ^ (max 49 46 - 49) + 7283165022388224 * 2 ^ (max 49 46 - 46)) (max 49 46) = (7923520594404966, 46) := by decide
  simp only [floatInterpColor, floatInterpChannel, LOGO_START, LOGO_END, e1, e2,
    r1, r2, r3, r4, r5, r6, r7, r8, r9]
  decide

lemma logoRowFl109 : floatInterpColor LOGO_START LOGO_END 109 120 = (192, 158, 112) := by
  have e1 : roundFloat 109 120 = (8181539323056401, 53) := by decide
  have e2 : roundDyadic (2 ^ 53 - 8181539323056401) 53 = (825659931684591, 53) := by decide
  have r1 : roundDyadic (179 * 825659931684591) 53 = (4618535242860681, 48) := by decide
  have r2 : roundDyadic (194 * 8181539323056401) 53 = (6200072768253679, 45) := by decide
  have r3 : roundDyadic (4618535242860681 * 2 ^ (max 48 45 - 48) + 6200072768253679 * 2 ^ (max 48 45 - 45)) (max 48 45) = (6777389673611264, 45) := by decide
  have r4 : roundDyadic (143 * 825659931684591) 53 = (7379335639431032, 49) := by decide
  have r5 : roundDyadic (160 * 8181539323056401) 53 = (5113462076910251, 45) := by decide
  have r6 : roundDyadic (7379335639431032 * 2 ^ (max 49 45 - 49) + 5113462076910251 * 2 ^ (max 49 45 - 45)) (max 49 45) = (5574670554374690, 45) := by decide
  have r7 : roundDyadic (91 * 825659931684591) 53 = (4695940861456111, 49) := by decide
  have r8 : roundDyadic (115 * 8181539323056401) 53 = (7350601735558485, 46) := by decide
  have r9 : roundDyadic (4695940861456111 * 2 ^ (max 49 46 - 49) + 7350601735558485 * 2 ^ (max 49 46 - 46)) (max 49 46) = (7937594343240499, 46) := by decide
  simp only [floatInterpColor, floatInterpChannel, LOGO_START, LOGO_END, e1, e2,
    r1, r2, r3, r4, r5, r6, r7, r8, r9]
  decide

lemma logoRowFl110 : floatInterpColor LOGO_START LOGO_END 110 120 = (192, 158, 113) := by
  have e1 : roundFloat 110 120 = (8256599316845909, 53) := by decide
  have e2 : roundDyadic (2 ^ 53 - 8256599316845909) 53 = (750599937895083, 53) := by decide
  have r1 : roundDyadic (179 * 750599937895083) 53 = (8397336805201241, 49) := by decide
  have r2 : roundDyadic (194 * 8256599316845909) 53 = (6256954169797290, 45) := by decide
  have r3 : roundDyadic (8397336805201241 * 2 ^ (max 49 45 - 49) + 6256954169797290 * 2 ^ (max 49 45 - 45)) (max 49 45) = (6781787720122368, 45) := by decide
  have r4 : roundDyadic (143 * 750599937895083) 53 = (6708486944937304, 49) := by decide
  have r5 : roundDyadic (160 * 8256599316845909) 53 = (5160374573028693, 45) := by decide
  have r6 : roundDyadic (6708486944937304 * 2 ^ (max 49 45 - 49) + 5160374573028693 * 2 ^ (max 49 45 - 45)) (max 49 45) = (5579655007087274, 45) := by decide
  have r7 : roundDyadic (91 * 750599937895083) 53 = (8538074293556569, 50) := by decide
  have r8 : roundDyadic (115 * 8256599316845909) 53 = (7418038448728746, 46) := by decide
  have r9 : roundDyadic (8538074293556569 * 2 ^ (max 50 46 - 50) + 7418038448728746 * 2 ^ (max 50 46 - 46)) (max 50 46) = (7951668092076032, 46) := by decide
  simp only [floatInterpColor, floatInterpChannel, LOGO_START, LOGO_END, e1, e2,
    r1, r2, r3, r4, r5, r6, r7, r8, r9]
  decide

lemma logoRowFl111 : floatInterpColor LOGO_START LOGO_END 111 120 = (192, 158, 113) := by
  have e1 : roundFloat 111 120 = (8331659310635418, 53) := by decide
  have e2 : roundDyadic (2 ^ 53 - 8331659310635418) 53 = (675539944105574, 53) := by decide
  have r1 : roundDyadic (179 * 675539944105574) 53 = (7557603124681109, 49) := by decide
  have r2 : roundDyadic (194 * 8331659310635418) 53 = (6313835571340903, 45) := by decide
  have r3 : roundDyadic (7557603124681109 * 2 ^ (max 49 45 - 49) + 6313835571340903 * 2 ^ (max 49 45 - 45)) (max 49 45) = (6786185766633472, 45) := by decide
  have r4 : roundDyadic (143 * 675539944105574) 53 = (6037638250443568, 49) := by decide
  have r5 : roundDyadic (160 * 8331659310635418) 53 = (5207287069147136, 45) := by decide
  have r6 : roundDyadic (6037638250443568 * 2 ^ (max 49 45 - 49) + 5207287069147136 * 2 ^ (max 49 45 - 45)) (max 49 45) = (5584639459799859, 45) := by decide
  have r7 : roundDyadic (91 * 675539944105574) 53 = (7684266864200904, 50) := by decide
  have r8 : roundDyadic (115 * 8331659310635418) 53 = (7485475161899008, 46) := by decide
  have r9 : roundDyadic (7684266864200904 * 2 ^ (max 50 46 - 50) + 7485475161899008 * 2 ^ (max 50 46 - 46)) (max 50 46) = (7965741840911564, 46) := by decide
  simp only [floatInterpColor, floatInterpChannel, LOGO_START, LOGO_END, e1, e2,
    r1, r2, r3, r4, r5, r6, r7, r8, r9]
  decide

lemma logoRowFl112 : floatInterpColor LOGO_START LOGO_END 112 120 = (193, 158, 113) := by
  have e1 : roundFloat 112 120 = (8406719304424926, 53) := by decide
  have e2 : roundDyadic (2 ^ 53 - 8406719304424926) 53 = (600479950316066, 53) := by decide
  have r1 : roundDyadic (179 * 600479950316066) 53 = (6717869444160988, 49) := by decide
  have r2 : roundDyadic (194 * 8406719304424926) 53 = (6370716972884514, 45) := by decide
  have r3 : roundDyadic (6717869444160988 * 2 ^ (max 49 45 - 49) + 6370716972884514 * 2 ^ (max 49 45 - 45)) (max 49 45) = (6790583813144576, 45) := by decide
  have r4 : roundDyadic (143 * 600479950316066) 53 = (5366789555949840, 49) := by decide
  have r5 : roundDyadic (160 * 8406719304424926) 53 = (5254199565265579, 45) := by decide
  have r6 : roundDyadic (5366789555949840 * 2 ^ (max 49 45 - 49) + 5254199565265579 * 2 ^ (max 49 45 - 45)) (max 49 45) = (5589623912512444, 45) := by decide
  have r7 : roundDyadic (91 * 600479950316066) 53 = (6830459434845251, 50) := by decide
  have r8 : roundDyadic (115 * 8406719304424926) 53 = (7552911875069269, 46) := by decide
  have r9 : roundDyadic (6830459434845251 * 2 ^ (max 50 46 - 50) + 7552911875069269 * 2 ^ (max 50 46 - 46)) (max 50 46) = (7979815589747097, 46) := by decide
  simp only [floatInterpColor, floatInterpChannel, LOGO_START, LOGO_END, e1, e2,
    r1, r2, r3, r4, r5, r6, r7, r8, r9]
  decide

lemma logoRowFl113 : floatInterpColor LOGO_START LOGO_END 113 120 = (193, 159, 113) := by
  have e1 : roundFloat 113 120 = (8481779298214434, 53) := by decide
  have e2 : roundDyadic (2 ^ 53 - 8481779298214434) 53 = (525419956526558, 53) := by decide
  have r1 : roundDyadic (179 * 525419956526558) 53 = (5878135763640868, 49) := by decide
  have r2 : roundDyadic (194 * 8481779298214434) 53 = (6427598374428126, 45) := by decide
  have r3 : roundDyadic (5878135763640868 * 2 ^ (max 49 45 - 49) + 6427598374428126 * 2 ^ (max 49 45 - 45)) (max 49 45) = (6794981859655680, 45) := by decide
  have r4 : roundDyadic (143 * 525419956526558) 53 = (4695940861456112, 49) := by decide
  have r5 : roundDyadic (160 * 8481779298214434) 53 = (5301112061384021, 45) := by decide
  have r6 : roundDyadic (4695940861456112 * 2 ^ (max 49 45 - 49) + 5301112061384021 * 2 ^ (max 49 45 - 45)) (max 49 45) = (5594608365225028, 45) := by decide
  have r7 : roundDyadic (91 * 525419956526558) 53 = (5976652005489597, 50) := by decide
  have r8 : roundDyadic (115 * 8481779298214434) 53 = (7620348588239531, 46) := by decide
  have r9 : roundDyadic (5976652005489597 * 2 ^ (max 50 46 - 50) + 7620348588239531 * 2 ^ (max 50 46 - 46)) (max 50 46) = (7993889338582631, 46) := by decide
  simp only [floatInterpColor, floatInterpChannel, LOGO_START, LOGO_END, e1, e2,
    r1, r2, r3, r4, r5, r6, r7, r8, r9]
  decide

lemma logoRowFl114 : floatInterpColor LOGO_START LOGO_END 114 120 = (193, 159, 113) := by
  have e1 : roundFloat 114 120 = (8556839292003942, 53) := by decide
  have e2 : roundDyadic (2 ^ 53 - 8556839292003942) 53 = (450359962737050, 53) := by decide
  have r1 : roundDyadic (179 * 450359962737050) 53 = (5038402083120747, 49) := by decide
  have r2 : roundDyadic (194 * 8556839292003942) 53 = (6484479775971737, 45) := by decide
  have r3 : roundDyadic (5038402083120747 * 2 ^ (max 49 45 - 49) + 6484479775971737 * 2 ^ (max 49 45 - 45)) (max 49 45) = (6799379906166784, 45) := by decide
  have r4 : roundDyadic (143 * 450359962737050) 53 = (8050184333924769, 50) := by decide
  have r5 : roundDyadic (160 * 8556839292003942) 53 = (5348024557502464, 45) := by decide
  have r6 : roundDyadic (8050184333924769 * 2 ^ (max 50 45 - 50) + 5348024557502464 * 2 ^ (max 50 45 - 45)) (max 50 45) = (5599592817937613, 45) := by decide
  have r7 : roundDyadic (91 * 450359962737050) 53 = (5122844576133944, 50) := by decide
  have r8 : roundDyadic (115 * 8556839292003942) 53 = (7687785301409792, 46) := by decide
  have r9 : roundDyadic (5122844576133944 * 2 ^ (max 50 46 - 50) + 7687785301409792 * 2 ^ (max 50 46 - 46)) (max 50 46) = (8007963087418164, 46) := by decide
  simp only [floatInterpColor, floatInterpChannel, LOGO_START, LOGO_END, e1, e2,
    r1, r2, r3, r4, r5, r6, r7, r8, r9]
  decide

lemma logoRowFl115 : floatInterpColor LOGO_START LOGO_END 115 120 = (193, 159, 114) := by
  have e1 : roundFloat 115 120 = (8631899285793451, 53) := by decide
  have e2 : roundDyadic (2 ^ 53 - 8631899285793451) 53 = (375299968947541, 53) := by decide
  have r1 : roundDyadic (179 * 375299968947541) 53 = (8397336805201230, 50) := by decide
  have r2 : roundDyadic (194 * 8631899285793451) 53 = (6541361177515350, 45) := by decide
  have r3 : roundDyadic (8397336805201230 * 2 ^ (max 50 45 - 50) + 6541361177515350 * 2 ^ (max 50 45 - 45)) (max 50 45) = (6803777952677888, 45) := by decide
  have r4 : roundDyadic (143 * 375299968947541) 53 = (6708486944937295, 50) := by decide
  have r5 : roundDyadic (160 * 8631899285793451) 53 = (5394937053620907, 45) := by decide
  have r6 : roundDyadic (6708486944937295 * 2 ^ (max 50 45 - 50) + 5394937053620907 * 2 ^ (max 50 45 - 45)) (max 50 45) = (5604577270650197, 45) := by decide
  have r7 : roundDyadic (91 * 375299968947541) 53 = (8538074293556558, 51) := by decide
  have r8 : roundDyadic (115 * 8631899285793451) 53 = (7755222014580054, 46) := by decide
  have r9 : roundDyadic (8538074293556558 * 2 ^ (max 51 46 - 51) + 7755222014580054 * 2 ^ (max 51 46 - 46)) (max 51 46) = (8022036836253696, 46) := by decide
  simp only [floatInterpColor, floatInterpChannel, LOGO_START, LOGO_END, e1, e2,
    r1, r2, r3, r4, r5, r6, r7, r8, r9]
  decide

lemma logoRowFl116 : floatInterpColor LOGO_START LOGO_END 116 120 = (193, 159, 114) := by
  have e1 : roundFloat 116 120 = (8706959279582959, 53) := by decide
  have e2 : roundDyadic (2 ^ 53 - 8706959279582959) 53 = (300239975158033, 53) := by decide
  have r1 : roundDyadic (179 * 300239975158033) 53 = (6717869444160988, 50) := by decide
  have r2 : roundDyadic (194 * 8706959279582959) 53 = (6598242579058961, 45) := by decide
  have r3 : roundDyadic (6717869444160988 * 2 ^ (max 50 45 - 50) + 6598242579058961 * 2 ^ (max 50 45 - 45)) (max 50 45) = (6808175999188992, 45) := by decide
  have r4 : roundDyadic (143 * 300239975158033) 53 = (5366789555949840, 50) := by decide
  have r5 : roundDyadic (160 * 8706959279582959) 53 = (5441849549739349, 45) := by decide
  have r6 : roundDyadic (5366789555949840 * 2 ^ (max 50 45 - 50) + 5441849549739349 * 2 ^ (max 50 45 - 45)) (max 50 45) = (5609561723362782, 45) := by decide
  have r7 : roundDyadic (91 * 300239975158033) 53 = (6830459434845251, 51) := by decide
  have r8 : roundDyadic (115 * 8706959279582959) 53 = (7822658727750315, 46) := by decide
  have r9 : roundDyadic (6830459434845251 * 2 ^ (max 51 46 - 51) + 7822658727750315 * 2 ^ (max 51 46 - 46)) (max 51 46) = (8036110585089229, 46) := by decide
  simp only [floatInterpColor, floatInterpChannel, LOGO_START, LOGO_END, e1, e2,
    r1, r2, r3, r4, r5, r6, r7, r8, r9]
  decide

lemma logoRowFl117 : floatInterpColor LOGO_START LOGO_END 117 120 = (193, 159, 114) := by
  have e1 : roundFloat 117 120 = (8782019273372467, 53) := by decide
  have e2 : roundDyadic (2 ^ 53 - 8782019273372467) 53 = (225179981368525, 53) := by decide
  have r1 : roundDyadic (179 * 225179981368525) 53 = (5038402083120747, 50) := by decide
  have r2 : roundDyadic (194 * 8782019273372467) 53 = (6655123980602573, 45) := by decide
  have r3 : roundDyadic (5038402083120747 * 2 ^ (max 50 45 - 50) + 6655123980602573 * 2 ^ (max 50 45 - 45)) (max 50 45) = (6812574045700096, 45) := by decide
  have r4 : roundDyadic (143 * 225179981368525) 53 = (8050184333924769, 51) := by decide
  have r5 : roundDyadic (160 * 8782019273372467) 53 = (5488762045857792, 45) := by decide
  have r6 : roundDyadic (8050184333924769 * 2 ^ (max 51 45 - 51) + 5488762045857792 * 2 ^ (max 51 45 - 45)) (max 51 45) = (5614546176075367, 45) := by decide
  have r7 : roundDyadic (91 * 225179981368525) 53 = (5122844576133944, 51) := by decide
  have r8 : roundDyadic (115 * 8782019273372467) 53 = (7890095440920576, 46) := by decide
  have r9 : roundDyadic (5122844576133944 * 2 ^ (max 51 46 - 51) + 7890095440920576 * 2 ^ (max 51 46 - 46)) (max 51 46) = (8050184333924762, 46) := by decide
  simp only [floatInterpColor, floatInterpChannel, LOGO_START, LOGO_END, e1, e2,
    r1, r2, r3, r4, r5, r6, r7, r8, r9]
  decide

lemma logoRowFl118 : floatInterpColor LOGO_START LOGO_END 118 120 = (193, 159, 114) := by
  have e1 : roundFloat 118 120 = (8857079267161975, 53) := by decide
  have e2 : roundDyadic (2 ^ 53 - 8857079267161975) 53 = (150119987579017, 53) := by decide
  have r1 : roundDyadic (179 * 150119987579017) 53 = (6717869444161011, 51) := by decide
  have r2 : roundDyadic (194 * 8857079267161975) 53 = (6712005382146184, 45) := by decide
  have r3 : roundDyadic (6717869444161011 * 2 ^ (max 51 45 - 51) + 6712005382146184 * 2 ^ (max 51 45 - 45)) (max 51 45) = (6816972092211200, 45) := by decide
  have r4 : roundDyadic (143 * 150119987579017) 53 = (5366789555949858, 51) := by decide
  have r5 : roundDyadic (160 * 8857079267161975) 53 = (5535674541976234, 45) := by decide
  have r6 : roundDyadic (5366789555949858 * 2 ^ (max 51 45 - 51) + 5535674541976234 * 2 ^ (max 51 45 - 45)) (max 51 45) = (5619530628787951, 45) := by decide
  have r7 : roundDyadic (91 * 150119987579017) 53 = (6830459434845274, 52) := by decide
  have r8 : roundDyadic (115 * 8857079267161975) 53 = (7957532154090837, 46) := by decide
  have r9 : roundDyadic (6830459434845274 * 2 ^ (max 52 46 - 52) + 7957532154090837 * 2 ^ (max 52 46 - 46)) (max 52 46) = (8064258082760294, 46) := by decide
  simp only [floatInterpColor, floatInterpChannel, LOGO_START, LOGO_END, e1, e2,
    r1, r2, r3, r4, r5, r6, r7, r8, r9]
  decide

lemma logoRowFl119 : floatInterpColor LOGO_START LOGO_END 119 120 = (193, 159, 114) := by
  have e1 : roundFloat 119 120 = (8932139260951484, 53) := by decide
  have e2 : roundDyadic (2 ^ 53 - 8932139260951484) 53 = (75059993789508, 53) := by decide
  have r1 : roundDyadic (179 * 75059993789508) 53 = (6717869444160966, 52) := by decide
  have r2 : roundDyadic (194 * 8932139260951484) 53 = (6768886783689796, 45) := by decide
  have r3 : roundDyadic (6717869444160966 * 2 ^ (max 52 45 - 52) + 6768886783689796 * 2 ^ (max 52 45 - 45)) (max 52 45) = (6821370138722304, 45) := by decide
  have r4 : roundDyadic (143 * 75059993789508) 53 = (5366789555949822, 52) := by decide
  have r5 : roundDyadic (160 * 8932139260951484) 53 = (5582587038094678, 45) := by decide
  have r6 : roundDyadic (5366789555949822 * 2 ^ (max 52 45 - 52) + 5582587038094678 * 2 ^ (max 52 45 - 45)) (max 52 45) = (5624515081500536, 45) := by decide
  have r7 : roundDyadic (91 * 75059993789508) 53 = (6830459434845228, 53) := by decide
  have r8 : roundDyadic (115 * 8932139260951484) 53 = (8024968867261099, 46) := by decide
  have r9 : roundDyadic (6830459434845228 * 2 ^ (max 53 46 - 53) + 8024968867261099 * 2 ^ (max 53 46 - 46)) (max 53 46) = (8078331831595827, 46) := by decide
  simp only [floatInterpColor, floatInterpChannel, LOGO_START, LOGO_END, e1, e2,
    r1, r2, r3, r4, r5, r6, r7, r8, r9]
  decide

set_option maxRecDepth 100000 in
set_option maxHeartbeats 1600000 in
/-- Every row of the float-faithful logo gradient equals the exact
truncated interpolation, except row 10, whose value is `(180, 144, 92)`. -/
lemma logoRowsFl (z : Nat) (hz : z < 120) :
    floatInterpColor LOGO_START LOGO_END z 120
      = if z = 10 then (180, 144, 92) else interpColor LOGO_START LOGO_END z 120 := by
  interval_cases z
  · exact logoRowFl0.trans (by decide)
  · exact logoRowFl1.trans (by decide)
  · exact logoRowFl2.trans (by decide)
  · exact logoRowFl3.trans (by decide)
  · exact logoRowFl4.trans (by decide)
  · exact logoRowFl5.trans (by decide)
  · exact logoRowFl6.trans (by decide)
  · exact logoRowFl7.trans (by decide)
  · exact logoRowFl8.trans (by decide)
  · exact logoRowFl9.trans (by decide)
  · exact logoRowFl10.trans (by decide)
  · exact logoRowFl11.trans (by decide)
  · exact logoRowFl12.trans (by decide)
  · exact logoRowFl13.trans (by decide)
  · exact logoRowFl14.trans (by decide)
  · exact logoRowFl15.trans (by decide)
  · exact logoRowFl16.trans (by decide)
  · exact logoRowFl17.trans (by decide)
  · exact logoRowFl18.trans (by decide)
  · exact logoRowFl19.trans (by decide)
  · exact logoRowFl20.trans (by decide)
  · exact logoRowFl21.trans (by decide)
  · exact logoRowFl22.trans (by decide)
  · exact logoRowFl23.trans (by decide)
  · exact logoRowFl24.trans (by decide)
  · exact logoRowFl25.trans (by decide)
  · exact logoRowFl26.trans (by decide)
  · exact logoRowFl27.trans (by decide)
  · exact logoRowFl28.trans (by decide)
  · exact logoRowFl29.trans (by decide)
  · exact logoRowFl30.trans (by decide)
  · exact logoRowFl31.trans (by decide)
  · exact logoRowFl32.trans (by decide)
  · exact logoRowFl33.trans (by decide)
  · exact logoRowFl34.trans (by decide)
  · exact logoRowFl35.trans (by decide)
  · exact logoRowFl36.trans (by decide)
  · exact logoRowFl37.trans (by decide)
  · exact logoRowFl38.trans (by decide)
  · exact logoRowFl39.trans (by decide)
  · exact logoRowFl40.trans (by decide)
  · exact logoRowFl41.trans (by decide)
  · exact logoRowFl42.trans (by decide)
  · exact logoRowFl43.trans (by decide)
  · exact logoRowFl44.trans (by decide)
  · exact logoRowFl45.trans (by decide)
  · exact logoRowFl46.trans (by decide)
  · exact logoRowFl47.trans (by decide)
  · exact logoRowFl48.trans (by decide)
  · exact logoRowFl49.trans (by decide)
  · exact logoRowFl50.trans (by decide)
  · exact logoRowFl51.trans (by decide)
  · exact logoRowFl52.trans (by decide)
  · exact logoRowFl53.trans (by decide)
  · exact logoRowFl54.trans (by decide)
  · exact logoRowFl55.trans (by decide)
  · exact logoRowFl56.trans (by decide)
  · exact logoRowFl57.trans (by decide)
  · exact logoRowFl58.trans (by decide)
  · exact logoRowFl59.trans (by decide)
  · exact logoRowFl60.trans (by decide)
  · exact logoRowFl61.trans (by decide)
  · exact logoRowFl62.trans (by decide)
  · exact logoRowFl63.trans (by decide)
  · exact logoRowFl64.trans (by decide)
  · exact logoRowFl65.trans (by decide)
  · exact logoRowFl66.trans (by decide)
  · exact logoRowFl67.trans (by decide)
  · exact logoRowFl68.trans (by decide)
  · exact logoRowFl69.trans (by decide)
  · exact logoRowFl70.trans (by decide)
  · exact logoRowFl71.trans (by decide)
  · exact logoRowFl72.trans (by decide)
  · exact logoRowFl73.trans (by decide)
  · exact logoRowFl74.trans (by decide)
  · exact logoRowFl75.trans (by decide)
  · exact logoRowFl76.trans (by decide)
  · exact logoRowFl77.trans (by decide)
  · exact logoRowFl78.trans (by decide)
  · exact logoRowFl79.trans (by decide)
  · exact logoRowFl80.trans (by decide)
  · exact logoRowFl81.trans (by decide)
  · exact logoRowFl82.trans (by decide)
  · exact logoRowFl83.trans (by decide)
  · exact logoRowFl84.trans (by decide)
  · exact logoRowFl85.trans (by decide)
  · exact logoRowFl86.trans (by decide)
  · exact logoRowFl87.trans (by decide)
  · exact logoRowFl88.trans (by decide)
  · exact logoRowFl89.trans (by decide)
  · exact logoRowFl90.trans (by decide)
  · exact logoRowFl91.trans (by decide)
  · exact logoRowFl92.trans (by decide)
  · exact logoRowFl93.trans (by decide)
  · exact logoRowFl94.trans (by decide)
  · exact logoRowFl95.trans (by decide)
  · exact logoRowFl96.trans (by decide)
  · exact logoRowFl97.trans (by decide)
  · exact logoRowFl98.trans (by decide)
  · exact logoRowFl99.trans (by decide)
  · exact logoRowFl100.trans (by decide)
  · exact logoRowFl101.trans (by decide)
  · exact logoRowFl102.trans (by decide)
  · exact logoRowFl103.trans (by decide)
  · exact logoRowFl104.trans (by decide)
  · exact logoRowFl105.trans (by decide)
  · exact logoRowFl106.trans (by decide)
  · exact logoRowFl107.trans (by decide)
  · exact logoRowFl108.trans (by decide)
  · exact logoRowFl109.trans (by decide)
  · exact logoRowFl110.trans (by decide)
  · exact logoRowFl111.trans (by decide)
  · exact logoRowFl112.trans (by decide)
  · exact logoRowFl113.trans (by decide)
  · exact logoRowFl114.trans (by decide)
  · exact logoRowFl115.trans (by decide)
  · exact logoRowFl116.trans (by decide)
  · exact logoRowFl117.trans (by decide)
  · exact logoRowFl118.trans (by decide)
  · exact logoRowFl119.trans (by decide)

/-! ### Claims -/

/-- C1: for every `y` in `[0, height)`, every pixel of row `y` of the
background canvas produced by
`create_gradient_background width height BG_START BG_END` holds the single
color whose channels are the truncations of
`start*(1 - y/height) + end*(y/height)`, the linear interpolation of
`(BG_START, BG_END)` at ratio `y/height`. -/
theorem claim1_background_row_interpolation (w h x y : Nat) (hy : y < h) (hx : x < w) :
    (create_gradient_background w h BG_START BG_END).pix x y
      = (Int.toNat ⌊(249 : ℚ) * (1 - (y : ℚ) / (h : ℚ)) + 255 * ((y : ℚ) / (h : ℚ))⌋,
         Int.toNat ⌊(250 : ℚ) * (1 - (y : ℚ) / (h : ℚ)) + 255 * ((y : ℚ) / (h : ℚ))⌋,
         Int.toNat ⌊(251 : ℚ) * (1 - (y : ℚ) / (h : ℚ)) + 255 * ((y : ℚ) / (h : ℚ))⌋) := by
  have h0 : 0 < h := Nat.lt_of_le_of_lt (Nat.zero_le y) hy
  rw [create_gradient_background_pix w h _ _ x y hy hx.le]
  show (interpChannel 249 255 y h, interpChannel 250 255 y h, interpChannel 251 255 y h) = _
  rw [interpChannel_eq_floor 249 255 y h hy.le h0,
    interpChannel_eq_floor 250 255 y h hy.le h0,
    interpChannel_eq_floor 251 255 y h hy.le h0]
  norm_num

theorem claim1_background_row_interpolation_witness :
    (0 : Nat) < 630 ∧ (0 : Nat) < 1200 ∧
      (create_gradient_background 1200 630 BG_START BG_END).pix 0 0
        = (Int.toNat ⌊(249 : ℚ) * (1 - ((0 : Nat) : ℚ) / ((630 : Nat) : ℚ))
              + 255 * (((0 : Nat) : ℚ) / ((630 : Nat) : ℚ))⌋,
           Int.toNat ⌊(250 : ℚ) * (1 - ((0 : Nat) : ℚ) / ((630 : Nat) : ℚ))
              + 255 * (((0 : Nat) : ℚ) / ((630 : Nat) : ℚ))⌋,
           Int.toNat ⌊(251 : ℚ) * (1 - ((0 : Nat) : ℚ) / ((630 : Nat) : ℚ))
              + 255 * (((0 : Nat) : ℚ) / ((630 : Nat) : ℚ))⌋) :=
  ⟨by decide, by decide,
    claim1_background_row_interpolation 1200 630 0 0 (by decide) (by decide)⟩

/-- C6 counterexample: the program's logo row 10 — with the interpolation
evaluated in binary64 floating point exactly as the script computes it —
is `(180, 144, 92)`, while the truncated exact linear interpolation of
`LOGO_START` toward `LOGO_END` at ratio `10/120` is `(180, 144, 93)`:
`91*(1 - 10/120) + 115*(10/120)` evaluates to just below 93 in floating
point and `int` truncates it to 92, so the claimed per-row equality with
the truncated exact interpolation fails at local row `y = 10`. -/
theorem claim6_logo_rows_counterexample :
    logo_img_fl.pix 0 10 = (180, 144, 92) ∧
    (Int.toNat ⌊(179 : ℚ) * (1 - (10 : ℚ) / 120) + 194 * ((10 : ℚ) / 120)⌋,
     Int.toNat ⌊(143 : ℚ) * (1 - (10 : ℚ) / 120) + 160 * ((10 : ℚ) / 120)⌋,
     Int.toNat ⌊(91 : ℚ) * (1 - (10 : ℚ) / 120) + 115 * ((10 : ℚ) / 120)⌋)
      = ((180 : Nat), (144 : Nat), (93 : Nat)) ∧
    logo_img_fl.pix 0 10
      ≠ (Int.toNat ⌊(179 : ℚ) * (1 - (10 : ℚ) / 120) + 194 * ((10 : ℚ) / 120)⌋,
         Int.toNat ⌊(143 : ℚ) * (1 - (10 : ℚ) / 120) + 160 * ((10 : ℚ) / 120)⌋,
         Int.toNat ⌊(91 : ℚ) * (1 - (10 : ℚ) / 120) + 115 * ((10 : ℚ) / 120)⌋) := by
  have hfl : logo_img_fl.pix 0 10 = (180, 144, 92) := by
    rw [logo_img_fl_pix 0 10 (by decide) (by decide), logoRowFl10]
  have hfloor : (Int.toNat ⌊(179 : ℚ) * (1 - (10 : ℚ) / 120) + 194 * ((10 : ℚ) / 120)⌋,
      Int.toNat ⌊(143 : ℚ) * (1 - (10 : ℚ) / 120) + 160 * ((10 : ℚ) / 120)⌋,
      Int.toNat ⌊(91 : ℚ) * (1 - (10 : ℚ) / 120) + 115 * ((10 : ℚ) / 120)⌋)
      = ((180 : Nat), (144 : Nat), (93 : Nat)) := by
    norm_num [Prod.mk.injEq, Int.floor_eq_iff]
    exact ⟨rfl, rfl, rfl⟩
  refine ⟨hfl, hfloor, ?_⟩
  rw [hfl, hfloor]
  decide

/-- C6 amended: every local row `y < 120` of the logo block holds the
binary64-evaluated truncated interpolation of `LOGO_START` toward
`LOGO_END` at ratio `y/logo_size`, exactly as the script computes it —
which coincides with the truncated exact interpolation at every row
except `y = 10`, where the float row is `(180, 144, 92)`, the blue channel
one below the exact `(180, 144, 93)` — exactly `LOGO_START` at `y = 0`;
the rows are computed on the block's own buffer, so pasting it at any
position `(px, py)` of any canvas reproduces them; the actual paste
position is `(logo_x, logo_y) = (540, 200)`. -/
theorem claim6_logo_rows_amended (c : Canvas) (px py x y : Nat)
    (hx : x < 120) (hy : y < 120) :
    logo_img_fl.pix x y = floatInterpColor LOGO_START LOGO_END y 120 ∧
    (pasteCanvas c logo_img_fl px py).pix (px + x) (py + y) = logo_img_fl.pix x y ∧
    logo_img_fl.pix x 0 = LOGO_START ∧
    (y ≠ 10 → logo_img_fl.pix x y = interpColor LOGO_START LOGO_END y 120) ∧
    logo_img_fl.pix x 10 = (180, 144, 92) ∧
    interpColor LOGO_START LOGO_END 10 120 = (180, 144, 93) ∧
    logo_x = 540 ∧ logo_y = 200 := by
  refine ⟨logo_img_fl_pix x y hy hx.le, ?_, ?_, ?_, ?_, by decide, rfl, rfl⟩
  · exact pasteCanvas_pix_inside c logo_img_fl px py x y
      (logo_img_fl_shape.1 ▸ hx) (logo_img_fl_shape.2 ▸ hy)
  · rw [logo_img_fl_pix x 0 (by decide) hx.le, logoRowFl0]
    rfl
  · intro hne
    rw [logo_img_fl_pix x y hy hx.le, logoRowsFl y hy, if_neg hne]
  · rw [logo_img_fl_pix x 10 (by decide) hx.le, logoRowFl10]

theorem claim6_logo_rows_amended_witness :
    (7 : Nat) < 120 ∧ (3 : Nat) < 120 ∧
      (logo_img_fl.pix 7 3 = floatInterpColor LOGO_START LOGO_END 3 120 ∧
       (pasteCanvas (imageNew 1200 630 (0, 0, 0)) logo_img_fl 540 200).pix
          (540 + 7) (200 + 3) = logo_img_fl.pix 7 3 ∧
       logo_img_fl.pix 7 0 = LOGO_START ∧
       ((3 : Nat) ≠ 10 → logo_img_fl.pix 7 3 = interpColor LOGO_START LOGO_END 3 120) ∧
       logo_img_fl.pix 7 10 = (180, 144, 92) ∧
       interpColor LOGO_START LOGO_END 10 120 = (180, 144, 93) ∧
       logo_x = 540 ∧ logo_y = 200) :=
  ⟨by decide, by decide,
    claim6_logo_rows_amended (imageNew 1200 630 (0, 0, 0)) 540 200 7 3
      (by decide) (by decide)⟩

set_option maxRecDepth 10000 in
/-- C9: for positive height the first gradient row equals the start color
exactly, while no row of the actual background (630 rows) or logo block
(120 rows) ever equals the end color, the last row included: ratio `1` is
never used. -/
theorem claim9_gradient_endpoints :
    (∀ (sc ec : Color) (w h x : Nat), 0 < h → x < w →
        (create_gradient_background w h sc ec).pix x 0 = sc) ∧
    (∀ x y : Nat, x < 1200 → y < 630 →
        (create_gradient_background 1200 630 BG_START BG_END).pix x y ≠ BG_END) ∧
    (∀ x y : Nat, x < 120 → y < 120 → logo_img.pix x y ≠ LOGO_END) := by
  have hbg : ∀ y : Nat, y < 630 → interpColor BG_START BG_END y 630 ≠ BG_END := by decide
  have hlogo : ∀ y : Nat, y < 120 → interpColor LOGO_START LOGO_END y 120 ≠ LOGO_END := by
    decide
  refine ⟨?_, ?_, ?_⟩
  · rintro ⟨r, g, b⟩ ec w h x h0 hx
    rw [create_gradient_background_pix w h _ _ x 0 h0 hx.le]
    show (interpChannel r _ 0 h, interpChannel g _ 0 h, interpChannel b _ 0 h) = _
    rw [interpChannel_zero _ _ _ h0, interpChannel_zero _ _ _ h0,
      interpChannel_zero _ _ _ h0]
  · intro x y hx hy
    rw [create_gradient_background_pix 1200 630 _ _ x y hy hx.le]
    exact hbg y hy
  · intro x y hx hy
    rw [logo_img_pix x y hy hx.le]
    exact hlogo y hy

theorem claim9_gradient_endpoints_witness :
    ((0 : Nat) < 630 ∧ (5 : Nat) < 1200 ∧
      (create_gradient_background 1200 630 BG_START BG_END).pix 5 0 = BG_START) ∧
    ((create_gradient_background 1200 630 BG_START BG_END).pix 5 629 ≠ BG_END) ∧
    (logo_img.pix 5 119 ≠ LOGO_END) :=
  ⟨⟨by decide, by decide,
      claim9_gradient_endpoints.1 BG_START BG_END 1200 630 5 (by decide) (by decide)⟩,
    claim9_gradient_endpoints.2.1 5 629 (by decide) (by decide),
    claim9_gradient_endpoints.2.2 5 119 (by decide) (by decide)⟩

/-- C10: every interpolated channel stays between the two endpoint values
of that channel, and — the palette constants all being bytes — every fill
color the program passes to a drawing call (background rows, logo rows and
the three text colors) is a valid RGB triple with channels in `[0, 255]`. -/
theorem claim10_interpolation_bounds :
    (∀ s e y h : Nat, y < h →
        min s e ≤ interpChannel s e y h ∧ interpChannel s e y h ≤ max s e) ∧
    (∀ y : Nat, y < 630 → validRGB (interpColor BG_START BG_END y 630)) ∧
    (∀ y : Nat, y < 120 → validRGB (interpColor LOGO_START LOGO_END y 120)) ∧
    validRGB TEXT_WHITE ∧ validRGB TEXT_DARK ∧ validRGB TEXT_GRAY := by
  refine ⟨fun s e y h hy =>
      ⟨min_le_interpChannel s e y h hy, interpChannel_le_max s e y h hy⟩,
    fun y hy => ?_, fun y hy => ?_,
    ⟨by decide, by decide, by decide⟩, ⟨by decide, by decide, by decide⟩,
    ⟨by decide, by decide, by decide⟩⟩
  · exact ⟨le_trans (interpChannel_le_max 249 255 y 630 hy) (by decide),
      le_trans (interpChannel_le_max 250 255 y 630 hy) (by decide),
      le_trans (interpChannel_le_max 251 255 y 630 hy) (by decide)⟩
  · exact ⟨le_trans (interpChannel_le_max 179 194 y 120 hy) (by decide),
      le_trans (interpChannel_le_max 143 160 y 120 hy) (by decide),
      le_trans (interpChannel_le_max 91 115 y 120 hy) (by decide)⟩

theorem claim10_interpolation_bounds_witness :
    (min 10 250 ≤ interpChannel 10 250 3 7 ∧ interpChannel 10 250 3 7 ≤ max 10 250) ∧
    validRGB (interpColor BG_START BG_END 600 630) ∧
    validRGB (interpColor LOGO_START LOGO_END 100 120) :=
  ⟨claim10_interpolation_bounds.1 10 250 3 7 (by decide),
    claim10_interpolation_bounds.2.1 600 (by decide),
    claim10_interpolation_bounds.2.2.1 100 (by decide)⟩

/-- C2: whatever font each request resolves to, the title `"StoryStack"`
is drawn at `x = (1200 - measured_width) // 2, y = 380` in `TEXT_DARK`,
and the subtitle `"storystackstudios.com"` at
`x = (1200 - measured_width) // 2, y = 440` in `TEXT_GRAY`, where
`measured_width` is the width of the string's measured bounding box in the
resolved font — both horizontally centered on the 1200-wide canvas. -/
theorem claim2_text_centered (env : FontEnv) (sdir : String) :
    (main env sdir).ops[2]?
      = some (.text
          (Int.fdiv ((WIDTH : Int)
            - ((env.bbox "StoryStack" (loadWithFallback env 72)).x1
               - (env.bbox "StoryStack" (loadWithFallback env 72)).x0)) 2)
          380 "StoryStack" TEXT_DARK (loadWithFallback env 72)) ∧
    (main env sdir).ops[3]?
      = some (.text
          (Int.fdiv ((WIDTH : Int)
            - ((env.bbox "storystackstudios.com" (loadWithFallback env 28)).x1
               - (env.bbox "storystackstudios.com" (loadWithFallback env 28)).x0)) 2)
          440 "storystackstudios.com" TEXT_GRAY (loadWithFallback env 28)) :=
  ⟨rfl, rfl⟩

/-- C8: the glyph `"S"` is drawn in `TEXT_WHITE` in the large font at
`(logo_x + (logo_size - bbox_width) // 2, logo_y + (logo_size - bbox_height) // 2)`,
with the width and height taken from the glyph's measured bounding box, so
it is centered within the 120×120 logo block. -/
theorem claim8_logo_glyph_centered (env : FontEnv) (sdir : String) :
    (main env sdir).ops[1]?
      = some (.text
          ((logo_x : Int) + Int.fdiv ((logo_size : Int)
            - ((env.bbox "S" (loadWithFallback env 64)).x1
               - (env.bbox "S" (loadWithFallback env 64)).x0)) 2)
          ((logo_y : Int) + Int.fdiv ((logo_size : Int)
            - ((env.bbox "S" (loadWithFallback env 64)).y1
               - (env.bbox "S" (loadWithFallback env 64)).y0)) 2)
          "S" TEXT_WHITE (loadWithFallback env 64)) :=
  rfl

/-- C3: when every truetype load fails, all three font requests fall
through to the built-in default, and the run still succeeds: exit code 0,
a 1200×630 PNG written to the output path, and exactly the three success
lines printed — the failures are never surfaced. -/
theorem claim3_font_fallback_total (env : FontEnv)
    (hfail : ∀ p s, env.loads p s = false) (sdir : String)
    (fs : String → Option FileData) :
    (main env sdir).fontLarge = Font.builtin ∧
    (main env sdir).fontTitle = Font.builtin ∧
    (main env sdir).fontSubtitle = Font.builtin ∧
    (program true env sdir fs).exitCode = 0 ∧
    (program true env sdir fs).fs (sdir ++ "/../public" ++ "/og-image.png")
      = some ("PNG", (main env sdir).image) ∧
    (main env sdir).image.width = 1200 ∧ (main env sdir).image.height = 630 ∧
    (program true env sdir fs).stdout
      = [ "✓ Open Graph image created successfully!",
          "✓ Saved to: " ++ (sdir ++ "/../public" ++ "/og-image.png"),
          "✓ Dimensions: 1200x630 pixels" ] := by
  refine ⟨?_, ?_, ?_, rfl, ?_, (main_image_shape env sdir).1,
    (main_image_shape env sdir).2.1, ?_⟩
  · show loadWithFallback env 64 = Font.builtin
    simp [loadWithFallback, hfail]
  · show loadWithFallback env 72 = Font.builtin
    simp [loadWithFallback, hfail]
  · show loadWithFallback env 28 = Font.builtin
    simp [loadWithFallback, hfail]
  · have hpath : sdir ++ "/../public" ++ "/og-image.png" = (main env sdir).outputPath := rfl
    show (if _ = _ then _ else fs _) = _
    rw [if_pos hpath]
    rfl
  · show [_, _, (_ : String)] = _
    rfl

theorem claim3_font_fallback_total_witness :
    (∀ p s, envNoFonts.loads p s = false) ∧
    ((main envNoFonts "/sd").fontLarge = Font.builtin ∧
      (main envNoFonts "/sd").fontTitle = Font.builtin ∧
      (main envNoFonts "/sd").fontSubtitle = Font.builtin ∧
      (program true envNoFonts "/sd" fsEmpty).exitCode = 0 ∧
      (program true envNoFonts "/sd" fsEmpty).fs ("/sd" ++ "/../public" ++ "/og-image.png")
        = some ("PNG", (main envNoFonts "/sd").image) ∧
      (main envNoFonts "/sd").image.width = 1200 ∧
      (main envNoFonts "/sd").image.height = 630 ∧
      (program true envNoFonts "/sd" fsEmpty).stdout
        = [ "✓ Open Graph image created successfully!",
            "✓ Saved to: " ++ ("/sd" ++ "/../public" ++ "/og-image.png"),
            "✓ Dimensions: 1200x630 pixels" ]) :=
  ⟨fun _ _ => rfl,
    claim3_font_fallback_total envNoFonts (fun _ _ => rfl) "/sd" fsEmpty⟩

/-- C4: without the rendering dependency the program prints the two-line
installation hint, exits with status 1, and touches neither the canvas nor
the filesystem: no output file is produced. -/
theorem claim4_missing_dependency (env : FontEnv) (sdir : String)
    (fs : String → Option FileData) :
    program false env sdir fs = { fs := fs, stdout := pillowHint, exitCode := 1 } ∧
    pillowHint
      = ["Error: Pillow (PIL) is required. Install it with:", "  pip3 install Pillow"] ∧
    (program false env sdir fs).exitCode = 1 ∧
    (program false env sdir fs).fs = fs :=
  ⟨rfl, rfl, rfl, rfl⟩

/-- C5: every successful run writes the composed image as a PNG to
`../public/og-image.png` relative to the script directory, overwriting any
existing entry, and the written raster is a 1200×630 RGB canvas, whatever
the fonts resolved to. -/
theorem claim5_saved_output (env : FontEnv) (sdir : String)
    (fs : String → Option FileData) :
    (main env sdir).outputPath = sdir ++ "/../public" ++ "/og-image.png" ∧
    (program true env sdir fs).fs ((main env sdir).outputPath)
      = some ("PNG", (main env sdir).image) ∧
    (main env sdir).image.width = 1200 ∧
    (main env sdir).image.height = 630 ∧
    (main env sdir).image.mode = "RGB" ∧
    (program true env sdir fs).exitCode = 0 := by
  refine ⟨rfl, ?_, (main_image_shape env sdir).1, (main_image_shape env sdir).2.1,
    (main_image_shape env sdir).2.2, rfl⟩
  show (if _ = _ then _ else fs _) = _
  rw [if_pos rfl]
  rfl

/-- C7: the run is a deterministic function of the environment: the saved
file contents do not depend on the prior filesystem, stdout and exit code
are reproduced, and running the program twice leaves the very same
filesystem as running it once (the second run overwrites the same path
with the same bytes). -/
theorem claim7_deterministic_idempotent (env : FontEnv) (sdir : String)
    (fs fs' : String → Option FileData) :
    (program true env sdir fs).fs ((main env sdir).outputPath)
      = (program true env sdir fs').fs ((main env sdir).outputPath) ∧
    (program true env sdir (program true env sdir fs).fs).fs
      = (program true env sdir fs).fs ∧
    (program true env sdir fs).stdout = (program true env sdir fs').stdout ∧
    (program true env sdir fs).exitCode = (program true env sdir fs').exitCode := by
  refine ⟨?_, ?_, rfl, rfl⟩
  · show (if _ = _ then _ else fs _) = (if _ = _ then _ else fs' _)
    rw [if_pos rfl, if_pos rfl]
  · funext p
    show (if p = _ then _ else (if p = _ then _ else fs p)) = (if p = _ then _ else fs p)
    by_cases hp : p = (main env sdir).outputPath
    · rw [if_pos hp, if_pos hp]
    · rw [if_neg hp, if_neg hp]

end OG
